import Mathlib

/-!
# Adguard browser extension: request decision pipeline and Safari content-blocker compiler

A shallow embedding of

* `Extension/lib/filter/request-blocking.js` (the request decision engine),
* `Extension/lib/webrequest.js` (the interception pipeline),
* `Extension/browser/safari/lib/content-blocker.js` (the declarative compiler),
* `Extension/browser/firefox/lib/elemHide.js` (the verdict cache and the style registrar),
* `Extension/lib/content-message-handler.js` (the dispatch of messages and the two searches),
* `Extension/lib/utils/service-client.js` (the download of a subscription),

followed by theorems about these definitions.

Conventions of the embedding.

* A JavaScript value that may be `null` or `undefined` is a `Js α`.
* The collaborators that live outside these files (`adguard.frames`, `adguard.requestFilter`,
  `adguard.settings`, `adguard.integration`, ...) are fields of a record of functions over an
  abstract collaborator state `σ`.  A query reads `σ`; a command transforms it through `exec`.
* Every call to a collaborator is appended to a call log, so that statements of the form
  "this function is not called" are statements about the log.
-/

namespace Adguard

/-! ## JavaScript values -/

/-- A JavaScript value of type `α` that may also be `null` or `undefined`. -/
inductive Js (α : Type) where
  | null : Js α
  | undefined : Js α
  | obj (a : α) : Js α
  deriving DecidableEq, Repr

/-- Truthiness of a present value: objects are always truthy, a boolean is its own value,
a string is truthy when it is not empty. -/
class JsTruthy (α : Type) where
  truthy : α → Bool

instance : JsTruthy Bool := ⟨fun b => b⟩
instance : JsTruthy String := ⟨fun s => s != ""⟩
instance : JsTruthy Nat := ⟨fun n => n != 0⟩

/-- JavaScript truthiness: `null` and `undefined` are falsy. -/
def Js.truthy {α : Type} [JsTruthy α] : Js α → Bool
  | .obj a => JsTruthy.truthy a
  | _ => false

/-- The conversion of a nullable string to a string by `'' + value`. -/
def Js.toStr : Js String → String
  | .null => "null"
  | .undefined => "undefined"
  | .obj s => s

/-! ## Data model -/

/-- Modelled from the spec: the table `adguard.RequestTypes` is not under the sources read here;
these are the content types the specification lists. -/
inductive RequestType where
  | DOCUMENT | SUBDOCUMENT | SCRIPT | IMAGE | STYLESHEET | XMLHTTPREQUEST | WEBSOCKET | OTHER
  deriving DecidableEq, Repr

/-- A browser tab, as handed to the handlers; only `tabId` is read by the code embedded here. -/
structure Tab where
  tabId : Nat
  deriving DecidableEq, Repr

instance : JsTruthy Tab := ⟨fun _ => true⟩

/-- A filter rule object, seen through the properties and methods the embedded code uses:
`ruleText`, `filterId`, `whiteListRule`, `checkContentTypeIncluded(type)` and
`checkContentType(type)`.  The two methods belong to the rule classes, which are outside the
sources read here, so they are carried as functions. -/
structure Rule where
  ruleText : String
  filterId : Nat
  whiteListRule : Js Bool
  checkContentTypeIncluded : String → Bool
  checkContentType : String → Bool

instance : JsTruthy Rule := ⟨fun _ => true⟩

/-- A request or response header. -/
structure Header where
  name : String
  value : String
  deriving DecidableEq, Repr

/-- The `requestDetails` object received by the web-request handlers. -/
structure RequestDetails where
  tab : Js Tab
  requestUrl : String
  requestType : RequestType
  frameId : Js Nat
  requestFrameId : Js Nat
  referrerUrl : Js String
  responseHeaders : List Header := []

/-- The object `{css, extendedCss}` that carries the CSS of a page. -/
structure Selectors where
  css : Js (List String)
  extendedCss : Js (List String)
  deriving DecidableEq, Repr

/-- What `processGetSelectorsAndScripts` returns: the empty object `{}`, the object
`{requestFilterReady: false}`, or the object with the four properties `selectors`, `scripts`,
`collapseAllElements` and `useShadowDom`. -/
inductive SelectorsAndScripts where
  | empty
  | notReady
  | payload (selectors : Selectors) (scripts : Js (List String)) (collapseAllElements : Bool)
      (useShadowDom : Bool)
  deriving DecidableEq, Repr

/-- An entry of the array handed to `processShouldCollapseMany`: the properties `elementUrl`
and `requestType` that are read, the property `collapse` that is written, and `requestId`
standing for the properties that are neither. -/
structure CollapseRequest where
  elementUrl : String
  requestType : RequestType
  requestId : Nat
  collapse : Js Bool
  deriving DecidableEq, Repr

/-- The object `{responseHeaders, modifiedHeaders}` that `onHeadersReceived` returns. -/
structure HeadersModification where
  responseHeaders : List Header
  modifiedHeaders : List Header
  deriving DecidableEq, Repr

instance : JsTruthy HeadersModification := ⟨fun _ => true⟩

/-! ## Collaborators and the call log -/

/-- A call made to a collaborator, with its arguments. -/
inductive Call where
  | integration_isActive
  | settings_isFilteringDisabled
  | frames_getFrameWhiteListRule (tab : Js Tab)
  | frames_getFrameUrl (tab : Js Tab) (frameId : Js Nat)
  | frames_getMainFrameUrl (tab : Js Tab)
  | frames_isTabAdguardDetected (tab : Js Tab)
  | frames_isIncognitoTab (tab : Js Tab)
  | frames_getFrameDomain (tab : Js Tab)
  | requestFilter_findWhiteListRule (requestUrl : String) (referrerUrl : Js String)
      (requestType : RequestType)
  | requestFilter_findRuleForRequest (requestUrl : String) (referrerUrl : Js String)
      (requestType : RequestType) (whitelistRule : Js Rule)
  | frames_recordFrame (tab : Js Tab) (frameId : Js Nat) (url : String) (requestType : RequestType)
  | integration_checkTabWhiteListRule (tab : Js Tab) (requestUrl : String)
  | listeners_notifyListeners_UPDATE_TAB_BUTTON_STATE (tab : Js Tab) (reset : Bool)
  | listeners_notifyListenersAsync_ADS_BLOCKED (rule : Js Rule) (tab : Js Tab) (count : Nat)
  | filteringLog_addEvent (tab : Js Tab) (requestUrl : String) (referrerUrl : Js String)
      (requestType : RequestType) (requestRule : Js Rule)
  | hitStats_addRuleHit (domain : Js String) (ruleText : String) (filterId : Nat)
      (requestUrl : String)
  | requestFilter_isReady
  | requestFilter_shouldCollapseAllElements
  | requestFilter_getSelectorsForUrl (documentUrl : String) (genericHideFlag : Js Bool)
  | requestFilter_getInjectedSelectorsForUrl (documentUrl : String) (genericHideFlag : Js Bool)
  | requestFilter_getScriptsForUrl (documentUrl : String)
  | frames_isTabWhiteListed (tab : Js Tab)
  | frames_isTabProtectionDisabled (tab : Js Tab)
  | frames_isTabWhiteListedForSafebrowsing (tab : Js Tab)
  | settings_collectHitsCount
  | filteringLog_clearEventsByTabId (tabId : Nat)
  | hitStats_addDomainView (domain : Js String)
  | safebrowsing_checkSafebrowsingFilter (requestUrl : String) (referrerUrl : Js String)
      (incognitoTab : Bool)

/-- Whether a call goes to the Rule Matcher (`adguard.requestFilter`). -/
def Call.isRequestFilterCall : Call → Bool
  | .requestFilter_findWhiteListRule _ _ _ => true
  | .requestFilter_findRuleForRequest _ _ _ _ => true
  | .requestFilter_isReady => true
  | .requestFilter_shouldCollapseAllElements => true
  | .requestFilter_getSelectorsForUrl _ _ => true
  | .requestFilter_getInjectedSelectorsForUrl _ _ => true
  | .requestFilter_getScriptsForUrl _ => true
  | _ => false

/-- Whether a call reads the frame record (`adguard.frames` getters). -/
def Call.isFrameRead : Call → Bool
  | .frames_getFrameWhiteListRule _ => true
  | .frames_getFrameUrl _ _ => true
  | .frames_getMainFrameUrl _ => true
  | .frames_isTabAdguardDetected _ => true
  | .frames_isIncognitoTab _ => true
  | .frames_getFrameDomain _ => true
  | .frames_isTabWhiteListed _ => true
  | .frames_isTabProtectionDisabled _ => true
  | .frames_isTabWhiteListedForSafebrowsing _ => true
  | _ => false

/-- Whether a call has an effect on a collaborator (a command), as opposed to a query. -/
def Call.isCommand : Call → Bool
  | .frames_recordFrame _ _ _ _ => true
  | .integration_checkTabWhiteListRule _ _ => true
  | .listeners_notifyListeners_UPDATE_TAB_BUTTON_STATE _ _ => true
  | .listeners_notifyListenersAsync_ADS_BLOCKED _ _ _ => true
  | .filteringLog_addEvent _ _ _ _ _ => true
  | .hitStats_addRuleHit _ _ _ _ => true
  | .filteringLog_clearEventsByTabId _ => true
  | .hitStats_addDomainView _ => true
  | .safebrowsing_checkSafebrowsingFilter _ _ _ => true
  | _ => false

/-- Whether a call adds an event to the filtering log. -/
def Call.isFilteringLogEvent : Call → Bool
  | .filteringLog_addEvent _ _ _ _ _ => true
  | _ => false

/-- Whether a call raises a notification of the listeners. -/
def Call.isNotification : Call → Bool
  | .listeners_notifyListeners_UPDATE_TAB_BUTTON_STATE _ _ => true
  | .listeners_notifyListenersAsync_ADS_BLOCKED _ _ _ => true
  | _ => false

/-- Whether a call records a statistic (`adguard.hitStats`). -/
def Call.isStatistic : Call → Bool
  | .hitStats_addRuleHit _ _ _ _ => true
  | .hitStats_addDomainView _ => true
  | _ => false

/-- Whether a call fetches the complete selector set (`getSelectorsForUrl`). -/
def Call.isGetSelectorsForUrl : Call → Bool
  | .requestFilter_getSelectorsForUrl _ _ => true
  | _ => false

/-- Whether a call fetches selectors, complete or injected. -/
def Call.isSelectorFetch : Call → Bool
  | .requestFilter_getSelectorsForUrl _ _ => true
  | .requestFilter_getInjectedSelectorsForUrl _ _ => true
  | _ => false

/-- Whether a call fetches scripts (`getScriptsForUrl`). -/
def Call.isScriptFetch : Call → Bool
  | .requestFilter_getScriptsForUrl _ => true
  | _ => false

/-- The collaborators of the embedded files, over an abstract collaborator state `σ`.
Queries are functions of the state; `exec` is the effect of a command on the state.
`utils.url.*`, `utils.filters.*`, `utils.browser.is*` and `isModuleSupported` are pure helpers
and are not logged; `prefs.useGlobalStyleSheet` is a property that is read, not called. -/
structure Collaborators (σ : Type) where
  integration_isActive : σ → Bool
  settings_isFilteringDisabled : σ → Bool
  frames_getFrameWhiteListRule : σ → Js Tab → Js Rule
  frames_getFrameUrl : σ → Js Tab → Js Nat → Js String
  frames_getMainFrameUrl : σ → Js Tab → Js String
  frames_isTabAdguardDetected : σ → Js Tab → Bool
  frames_isIncognitoTab : σ → Js Tab → Bool
  frames_getFrameDomain : σ → Js Tab → Js String
  requestFilter_findWhiteListRule : σ → String → Js String → RequestType → Js Rule
  requestFilter_findRuleForRequest : σ → String → Js String → RequestType → Js Rule → Js Rule
  utils_url_isHttpRequest : String → Bool
  utils_filters_isUserFilterRule : Rule → Bool
  utils_filters_isWhiteListFilterRule : Rule → Bool
  exec : σ → Call → σ
  requestFilter_isReady : σ → Bool
  requestFilter_shouldCollapseAllElements : σ → Bool
  requestFilter_getSelectorsForUrl : σ → String → Js Bool → Selectors
  requestFilter_getInjectedSelectorsForUrl : σ → String → Js Bool → Selectors
  requestFilter_getScriptsForUrl : σ → String → Js (List String)
  frames_isTabWhiteListed : σ → Js Tab → Bool
  frames_isTabProtectionDisabled : σ → Js Tab → Bool
  frames_isTabWhiteListedForSafebrowsing : σ → Js Tab → Bool
  settings_collectHitsCount : σ → Bool
  prefs_useGlobalStyleSheet : σ → Bool
  isModuleSupported : String → Bool
  utils_browser_isFirefoxBrowser : Bool
  utils_browser_isContentBlockerEnabled : Bool
  utils_browser_isShadowDomSupported : Bool
  utils_browser_getSafebrowsingBackUrl : σ → Js Tab → Js String
  utils_url_getDomainName : Js String → Js String

/-- The collaborator state together with the log of collaborator calls, oldest first. -/
structure World (σ : Type) where
  ext : σ
  calls : List Call

/-- Record a query: the state is left as it is. -/
def World.query {σ : Type} (w : World σ) (c : Call) : World σ :=
  { ext := w.ext, calls := w.calls ++ [c] }

/-- Record a command and apply its effect to the collaborator state. -/
def World.command {σ : Type} (A : Collaborators σ) (w : World σ) (c : Call) : World σ :=
  { ext := A.exec w.ext c, calls := w.calls ++ [c] }

/-- The calls to the Rule Matcher in the log. -/
def World.requestFilterCalls {σ : Type} (w : World σ) : List Call :=
  w.calls.filter Call.isRequestFilterCall

/-- The reads of the frame record in the log. -/
def World.frameReads {σ : Type} (w : World σ) : List Call :=
  w.calls.filter Call.isFrameRead

/-! ## `request-blocking.js` -/

/-- `isRequestBlockedByRule(requestRule)`: `requestRule && !requestRule.whiteListRule`.
The JavaScript `&&` returns its left operand when that is falsy. -/
def isRequestBlockedByRule : Js Rule → Js Bool
  | .null => .null
  | .undefined => .undefined
  | .obj r => .obj (!r.whiteListRule.truthy)

/-- `getRuleForRequest(tab, requestUrl, referrerUrl, requestType)`. -/
def getRuleForRequest {σ : Type} (A : Collaborators σ) (tab : Js Tab) (requestUrl : String)
    (referrerUrl : Js String) (requestType : RequestType) (w : World σ) : Js Rule × World σ :=
  let w1 := w.query .integration_isActive
  if A.integration_isActive w1.ext then (.null, w1) else
  let w2 := w1.query .settings_isFilteringDisabled
  if A.settings_isFilteringDisabled w2.ext then (.null, w2) else
  let w3 := w2.query (.frames_getFrameWhiteListRule tab)
  let whitelistRule := A.frames_getFrameWhiteListRule w3.ext tab
  match whitelistRule with
  | .obj r =>
    if r.checkContentTypeIncluded "DOCUMENT" then
      (whitelistRule, w3)
    else
      -- `else if (!whitelistRule)` is not taken: the cached rule stays the hint
      let w4 := w3.query
        (.requestFilter_findRuleForRequest requestUrl referrerUrl requestType whitelistRule)
      (A.requestFilter_findRuleForRequest w4.ext requestUrl referrerUrl requestType whitelistRule,
        w4)
  | _ =>
    let w4 := w3.query
      (.requestFilter_findWhiteListRule requestUrl referrerUrl RequestType.DOCUMENT)
    let found :=
      A.requestFilter_findWhiteListRule w4.ext requestUrl referrerUrl RequestType.DOCUMENT
    let w5 := w4.query
      (.requestFilter_findRuleForRequest requestUrl referrerUrl requestType found)
    (A.requestFilter_findRuleForRequest w5.ext requestUrl referrerUrl requestType found, w5)

/-- `postProcessRequest(tab, requestUrl, referrerUrl, requestType, requestRule)`. -/
def postProcessRequest {σ : Type} (A : Collaborators σ) (tab : Js Tab) (requestUrl : String)
    (referrerUrl : Js String) (requestType : RequestType) (requestRule : Js Rule)
    (w : World σ) : World σ :=
  let w1 := w.query .integration_isActive
  if A.integration_isActive w1.ext then w1 else
  let w2 :=
    if (isRequestBlockedByRule requestRule).truthy then
      w1.command A (.listeners_notifyListenersAsync_ADS_BLOCKED requestRule tab 1)
    else w1
  let w3 := w2.command A
    (.filteringLog_addEvent tab requestUrl referrerUrl requestType requestRule)
  match requestRule with
  | .obj r =>
    if A.utils_filters_isUserFilterRule r then w3 else
    if A.utils_filters_isWhiteListFilterRule r then w3 else
    let w4 := w3.query (.frames_isIncognitoTab tab)
    if A.frames_isIncognitoTab w4.ext tab then w4 else
    let w5 := w4.query (.frames_getFrameDomain tab)
    let domain := A.frames_getFrameDomain w5.ext tab
    w5.command A (.hitStats_addRuleHit domain r.ruleText r.filterId requestUrl)
  | _ => w3

/-- Lines 240 to 249 of `postProcessRequest` when integration is not active: the world after
the `ADS_BLOCKED` notification (for a blocking rule) and the event of the filtering log. -/
def postProcessRequest.logged {σ : Type} (A : Collaborators σ) (tab : Js Tab)
    (requestUrl : String) (referrerUrl : Js String) (requestType : RequestType)
    (requestRule : Js Rule) (w : World σ) : World σ :=
  let w1 := w.query .integration_isActive
  let w2 :=
    if (isRequestBlockedByRule requestRule).truthy then
      w1.command A (.listeners_notifyListenersAsync_ADS_BLOCKED requestRule tab 1)
    else w1
  w2.command A (.filteringLog_addEvent tab requestUrl referrerUrl requestType requestRule)

/-- The outcome of a handler that may throw: its value, or the thrown exception together with
the world at the time of the throw. -/
abbrev Thrown (σ : Type) (α : Type) := Except (String × World σ) α

/-- Whether a handler returned, as opposed to throwing. -/
def Thrown.returned {σ α : Type} : Thrown σ α → Bool
  | .ok _ => true
  | .error _ => false

/-- The world in which a handler whose value is a world ended, whether it returned or
threw. -/
def Thrown.worldOf {σ : Type} : Thrown σ (World σ) → World σ
  | .ok w => w
  | .error (_, w) => w

/-- The JavaScript `a || b` on nullable booleans: `a` when it is truthy, otherwise `b`. -/
def Js.or (a b : Js Bool) : Js Bool :=
  if a.truthy then a else b

/-- The expression `whitelistRule && whitelistRule.checkContentType(contentType)`. -/
def checkContentTypeOf (whitelistRule : Js Rule) (contentType : String) : Js Bool :=
  match whitelistRule with
  | .null => .null
  | .undefined => .undefined
  | .obj r => .obj (r.checkContentType contentType)

/-- `shouldLoadAllSelectors(collapseAllElements)`. -/
def shouldLoadAllSelectors {σ : Type} (A : Collaborators σ) (collapseAllElements : Bool)
    (w : World σ) : Bool × World σ :=
  let w1 := if A.utils_browser_isFirefoxBrowser then w.query .settings_collectHitsCount else w
  if (A.utils_browser_isFirefoxBrowser && A.settings_collectHitsCount w1.ext)
      || A.prefs_useGlobalStyleSheet w1.ext then
    (false, w1)
  else
    let safariContentBlockerEnabled := A.utils_browser_isContentBlockerEnabled
    if safariContentBlockerEnabled && collapseAllElements then (true, w1)
    else (!safariContentBlockerEnabled, w1)

/-- Lines 60 to 65 of `processGetSelectorsAndScripts`: the cached whitelist rule of the frame
or, when there is none, `findWhiteListRule(documentUrl, mainFrameUrl, DOCUMENT)`. -/
def processGetSelectorsAndScripts.whitelistRule {σ : Type} (A : Collaborators σ) (tab : Js Tab)
    (documentUrl : String) (w : World σ) : Js Rule × World σ :=
  let w1 := w.query (.frames_getFrameWhiteListRule tab)
  let cached := A.frames_getFrameWhiteListRule w1.ext tab
  if !cached.truthy then
    let w2 := w1.query (.frames_getMainFrameUrl tab)
    let mainFrameUrl := A.frames_getMainFrameUrl w2.ext tab
    let w3 := w2.query
      (.requestFilter_findWhiteListRule documentUrl mainFrameUrl RequestType.DOCUMENT)
    (A.requestFilter_findWhiteListRule w3.ext documentUrl mainFrameUrl RequestType.DOCUMENT, w3)
  else (cached, w1)

/-- Lines 66 to 74 of `processGetSelectorsAndScripts`: the value of `result.selectors`. -/
def processGetSelectorsAndScripts.selectors {σ : Type} (A : Collaborators σ)
    (documentUrl : String) (genericHide : Js Bool) (whitelistRule : Js Rule)
    (collapseAllElements : Bool) (w : World σ) : Selectors × World σ :=
  let genericHideFlag := Js.or genericHide (checkContentTypeOf whitelistRule "GENERICHIDE")
  let elemHideFlag := checkContentTypeOf whitelistRule "ELEMHIDE"
  if !elemHideFlag.truthy then
    let load := shouldLoadAllSelectors A collapseAllElements w
    if load.1 then
      let w1 := load.2.query (.requestFilter_getSelectorsForUrl documentUrl genericHideFlag)
      (A.requestFilter_getSelectorsForUrl w1.ext documentUrl genericHideFlag, w1)
    else
      let w1 := load.2.query
        (.requestFilter_getInjectedSelectorsForUrl documentUrl genericHideFlag)
      (A.requestFilter_getInjectedSelectorsForUrl w1.ext documentUrl genericHideFlag, w1)
  else ({ css := .null, extendedCss := .null }, w)

/-- Lines 76 to 79 of `processGetSelectorsAndScripts`: the value of `result.scripts`. -/
def processGetSelectorsAndScripts.scripts {σ : Type} (A : Collaborators σ)
    (documentUrl : String) (whitelistRule : Js Rule) (w : World σ) :
    Js (List String) × World σ :=
  let jsInjectFlag := checkContentTypeOf whitelistRule "JSINJECT"
  if !jsInjectFlag.truthy then
    let w1 := w.query (.requestFilter_getScriptsForUrl documentUrl)
    (A.requestFilter_getScriptsForUrl w1.ext documentUrl, w1)
  else (.null, w)

/-- Lines 50 to 81 of `processGetSelectorsAndScripts`: the object with selectors and
scripts. -/
def processGetSelectorsAndScripts.payload {σ : Type} (A : Collaborators σ) (tab : Js Tab)
    (documentUrl : String) (genericHide : Js Bool) (w : World σ) :
    SelectorsAndScripts × World σ :=
  let w1 := w.query .requestFilter_shouldCollapseAllElements
  let collapseAllElements := A.requestFilter_shouldCollapseAllElements w1.ext
  let useShadowDom := A.utils_browser_isShadowDomSupported
  let rule := processGetSelectorsAndScripts.whitelistRule A tab documentUrl w1
  let sel := processGetSelectorsAndScripts.selectors A documentUrl genericHide rule.1
    collapseAllElements rule.2
  let scr := processGetSelectorsAndScripts.scripts A documentUrl rule.1 sel.2
  (.payload sel.1 scr.1 collapseAllElements useShadowDom, scr.2)

/-- `processGetSelectorsAndScripts(tab, documentUrl, genericHide)`. -/
def processGetSelectorsAndScripts {σ : Type} (A : Collaborators σ) (tab : Js Tab)
    (documentUrl : String) (genericHide : Js Bool) (w : World σ) :
    SelectorsAndScripts × World σ :=
  if !tab.truthy then (.empty, w) else
  let w1 := w.query .requestFilter_isReady
  if !A.requestFilter_isReady w1.ext then (.notReady, w1) else
  let w2 := w1.query .integration_isActive
  if A.integration_isActive w2.ext then (.empty, w2) else
  let w3 := w2.query .settings_isFilteringDisabled
  if A.settings_isFilteringDisabled w3.ext then (.empty, w3) else
  let w4 := w3.query (.frames_isTabWhiteListed tab)
  if A.frames_isTabWhiteListed w4.ext tab then (.empty, w4) else
  processGetSelectorsAndScripts.payload A tab documentUrl genericHide w4

/-- `checkWebSocketRequest(tab, requestUrl, referrerUrl)`. -/
def checkWebSocketRequest {σ : Type} (A : Collaborators σ) (tab : Js Tab) (requestUrl : String)
    (referrerUrl : Js String) (w : World σ) : Js Bool × World σ :=
  if !tab.truthy then (.obj false, w) else
  let found := getRuleForRequest A tab requestUrl referrerUrl RequestType.WEBSOCKET w
  let w1 := found.2.command A
    (.filteringLog_addEvent tab requestUrl referrerUrl RequestType.WEBSOCKET found.1)
  (isRequestBlockedByRule found.1, w1)

/-- `processShouldCollapse(tab, requestUrl, referrerUrl, requestType)`. -/
def processShouldCollapse {σ : Type} (A : Collaborators σ) (tab : Js Tab) (requestUrl : String)
    (referrerUrl : Js String) (requestType : RequestType) (w : World σ) : Js Bool × World σ :=
  if !tab.truthy then (.obj false, w) else
  let found := getRuleForRequest A tab requestUrl referrerUrl requestType w
  (isRequestBlockedByRule found.1, found.2)

/-- The `for` loop of `processShouldCollapseMany` over the entries that are left. -/
def processShouldCollapseMany.loop {σ : Type} (A : Collaborators σ) (tab : Js Tab)
    (referrerUrl : Js String) : List CollapseRequest → World σ →
    List CollapseRequest × World σ
  | [], w => ([], w)
  | request :: rest, w =>
    let found := getRuleForRequest A tab request.elementUrl referrerUrl request.requestType w
    let annotated := { request with collapse := isRequestBlockedByRule found.1 }
    let tail := processShouldCollapseMany.loop A tab referrerUrl rest found.2
    (annotated :: tail.1, tail.2)

/-- `processShouldCollapseMany(tab, referrerUrl, collapseRequests)`. -/
def processShouldCollapseMany {σ : Type} (A : Collaborators σ) (tab : Js Tab)
    (referrerUrl : Js String) (collapseRequests : List CollapseRequest) (w : World σ) :
    List CollapseRequest × World σ :=
  if !tab.truthy then (collapseRequests, w)
  else processShouldCollapseMany.loop A tab referrerUrl collapseRequests w

/-- `processRequestResponse(tab, requestUrl, referrerUrl, requestType, responseHeaders)`.
`tab.tabId` is read without a guard, so a null tab on a DOCUMENT response is a `TypeError`.
The parameter `responseHeaders` is not used by the body. -/
def processRequestResponse {σ : Type} (A : Collaborators σ) (tab : Js Tab)
    (requestUrl : String) (referrerUrl : Js String) (requestType : RequestType)
    (w : World σ) : Thrown σ (World σ) :=
  let cleared : Thrown σ (World σ) :=
    if requestType = RequestType.DOCUMENT then
      match tab with
      | .obj t => .ok (w.command A (.filteringLog_clearEventsByTabId t.tabId))
      | _ => .error ("TypeError: tab has no property tabId", w)
    else .ok w
  match cleared with
  | .error e => .error e
  | .ok w1 =>
    let w2 := w1.query .integration_isActive
    if A.integration_isActive w2.ext then .ok w2 else
    let w3 := w2.query .settings_isFilteringDisabled
    if A.settings_isFilteringDisabled w3.ext then .ok w3 else
    if requestType = RequestType.DOCUMENT then
      let w4 := w3.query (.frames_getFrameWhiteListRule tab)
      let requestRule := A.frames_getFrameWhiteListRule w4.ext tab
      let w5 := w4.query (.frames_getFrameDomain tab)
      let domain := A.frames_getFrameDomain w5.ext tab
      let w6 := w5.query (.frames_isIncognitoTab tab)
      let w7 :=
        if !A.frames_isIncognitoTab w6.ext tab then
          w6.command A (.hitStats_addDomainView domain)
        else w6
      .ok (w7.command A
        (.filteringLog_addEvent tab requestUrl referrerUrl requestType requestRule))
    else .ok w3

/-! ## `webrequest.js` -/

/-- `getReferrerUrl(requestDetails)`: the first truthy one of `requestDetails.referrerUrl`,
the URL of the frame of the request, the URL of the main frame. -/
def getReferrerUrl {σ : Type} (A : Collaborators σ) (d : RequestDetails) (w : World σ) :
    Js String × World σ :=
  if d.referrerUrl.truthy then (d.referrerUrl, w) else
  let w1 := w.query (.frames_getFrameUrl d.tab d.requestFrameId)
  let frameUrl := A.frames_getFrameUrl w1.ext d.tab d.requestFrameId
  if frameUrl.truthy then (frameUrl, w1) else
  let w2 := w1.query (.frames_getMainFrameUrl d.tab)
  (A.frames_getMainFrameUrl w2.ext d.tab, w2)

/-- The first statement of `onBeforeRequest`: the frame record is refreshed for DOCUMENT and
SUBDOCUMENT requests. -/
def onBeforeRequest.recordFrame {σ : Type} (A : Collaborators σ) (d : RequestDetails)
    (w : World σ) : World σ :=
  if d.requestType = RequestType.DOCUMENT ∨ d.requestType = RequestType.SUBDOCUMENT then
    w.command A (.frames_recordFrame d.tab d.frameId d.requestUrl d.requestType)
  else w

/-- The second statement of `onBeforeRequest`: for a DOCUMENT request of a tab flagged as
having the cooperating application, that application is probed. -/
def onBeforeRequest.checkIntegration {σ : Type} (A : Collaborators σ) (d : RequestDetails)
    (w : World σ) : World σ :=
  if d.requestType = RequestType.DOCUMENT then
    let w1 := w.query (.frames_isTabAdguardDetected d.tab)
    if A.frames_isTabAdguardDetected w1.ext d.tab then
      w1.command A (.integration_checkTabWhiteListRule d.tab d.requestUrl)
    else w1
  else w

/-- `onBeforeRequest(requestDetails)`: `false` when the request must be blocked. -/
def onBeforeRequest {σ : Type} (A : Collaborators σ) (d : RequestDetails) (w : World σ) :
    Bool × World σ :=
  let w1 := onBeforeRequest.recordFrame A d w
  let w2 := onBeforeRequest.checkIntegration A d w1
  if d.requestType = RequestType.DOCUMENT then
    (true, w2.command A (.listeners_notifyListeners_UPDATE_TAB_BUTTON_STATE d.tab true))
  else if !A.utils_url_isHttpRequest d.requestUrl then
    (true, w2)
  else
    let ref := getReferrerUrl A d w2
    let found := getRuleForRequest A d.tab d.requestUrl ref.1 d.requestType ref.2
    let w3 := postProcessRequest A d.tab d.requestUrl ref.1 d.requestType found.1 found.2
    (!(isRequestBlockedByRule found.1).truthy, w3)

/-- The world before the decision of `onBeforeRequest`: after the frame record has been
refreshed and the cooperating application probed. -/
def onBeforeRequest.pre {σ : Type} (A : Collaborators σ) (d : RequestDetails) (w : World σ) :
    World σ :=
  onBeforeRequest.checkIntegration A d (onBeforeRequest.recordFrame A d w)

/-- `filterSafebrowsing(tab, mainFrameUrl)`, up to the asynchronous lookup: the callback of
`checkSafebrowsingFilter` runs when the lookup answers and is not part of this step. -/
def filterSafebrowsing {σ : Type} (A : Collaborators σ) (tab : Js Tab) (mainFrameUrl : String)
    (w : World σ) : World σ :=
  let w1 := w.query (.frames_isTabAdguardDetected tab)
  if A.frames_isTabAdguardDetected w1.ext tab then w1 else
  let w2 := w1.query (.frames_isTabProtectionDisabled tab)
  if A.frames_isTabProtectionDisabled w2.ext tab then w2 else
  let w3 := w2.query (.frames_isTabWhiteListedForSafebrowsing tab)
  if A.frames_isTabWhiteListedForSafebrowsing w3.ext tab then w3 else
  let referrerUrl := A.utils_browser_getSafebrowsingBackUrl w3.ext tab
  let w4 := w3.query (.frames_isIncognitoTab tab)
  let incognitoTab := A.frames_isIncognitoTab w4.ext tab
  w4.command A (.safebrowsing_checkSafebrowsingFilter mainFrameUrl referrerUrl incognitoTab)

/-- The header that `onHeadersReceived` appends. -/
def cspHeader : Header :=
  { name := "Content-Security-Policy",
    value := "connect-src http: https:; frame-src http: https:; child-src http: https:" }

/-- The statements of `onHeadersReceived` before the websocket check: the referrer, the
bookkeeping of the response, and the start of the safebrowsing lookup. -/
def onHeadersReceived.pre {σ : Type} (A : Collaborators σ) (d : RequestDetails) (w : World σ) :
    Thrown σ (World σ) :=
  let ref := getReferrerUrl A d w
  match processRequestResponse A d.tab d.requestUrl ref.1 d.requestType ref.2 with
  | .error e => .error e
  | .ok w1 =>
    if A.isModuleSupported "safebrowsing" && decide (d.requestType = RequestType.DOCUMENT) then
      .ok (filterSafebrowsing A d.tab d.requestUrl w1)
    else .ok w1

/-- The URL of the websocket probe: `"ws://adguardwebsocket.check/" + getDomainName(frameUrl)`. -/
def onHeadersReceived.websocketCheckUrl {σ : Type} (A : Collaborators σ) (frameUrl : Js String) :
    String :=
  "ws://adguardwebsocket.check/" ++ (A.utils_url_getDomainName frameUrl).toStr

/-- The value of a call of `onHeadersReceived`: what it returns (`undefined` when it reaches
its end), and the array `requestDetails.responseHeaders` after the call (`push` changes the
array in place). -/
structure HeadersReceived where
  result : Js HeadersModification
  responseHeaders : List Header
  deriving DecidableEq, Repr

/-- `onHeadersReceived(requestDetails)`. -/
def onHeadersReceived {σ : Type} (A : Collaborators σ) (d : RequestDetails) (w : World σ) :
    Thrown σ (HeadersReceived × World σ) :=
  match onHeadersReceived.pre A d w with
  | .error e => .error e
  | .ok w1 =>
    if d.requestType = RequestType.DOCUMENT ∨ d.requestType = RequestType.SUBDOCUMENT then
      let w2 := w1.query (.frames_getFrameUrl d.tab d.frameId)
      let frameUrl := A.frames_getFrameUrl w2.ext d.tab d.frameId
      let websocketCheckUrl := onHeadersReceived.websocketCheckUrl A frameUrl
      let check := checkWebSocketRequest A d.tab websocketCheckUrl frameUrl w2
      if check.1.truthy then
        .ok ({ result := .obj { responseHeaders := d.responseHeaders ++ [cspHeader],
                                modifiedHeaders := [cspHeader] },
               responseHeaders := d.responseHeaders ++ [cspHeader] }, check.2)
      else .ok ({ result := .undefined, responseHeaders := d.responseHeaders }, check.2)
    else .ok ({ result := .undefined, responseHeaders := d.responseHeaders }, w1)

/-- What a call of `onHeadersReceived` returned; nothing (`undefined`) when it threw. -/
def onHeadersReceived.resultOf {σ : Type} (o : Thrown σ (HeadersReceived × World σ)) :
    Js HeadersModification :=
  match o with
  | .ok (r, _) => r.result
  | .error _ => .undefined

/-- The array `requestDetails.responseHeaders` after a call of `onHeadersReceived`; a throw
happens before the `push`. -/
def onHeadersReceived.headersOf {σ : Type} (d : RequestDetails)
    (o : Thrown σ (HeadersReceived × World σ)) : List Header :=
  match o with
  | .ok (r, _) => r.responseHeaders
  | .error _ => d.responseHeaders

/-- `ElemHide._isGlobalStyleSheetEnabled()` of `elemHide.js`:
`settings.collectHitsCount() || prefs.useGlobalStyleSheet`. -/
def ElemHide._isGlobalStyleSheetEnabled {σ : Type} (A : Collaborators σ) (w : World σ) :
    Bool × World σ :=
  let w1 := w.query .settings_collectHitsCount
  (A.settings_collectHitsCount w1.ext || A.prefs_useGlobalStyleSheet w1.ext, w1)

/-! ### The debounce of `handlerBehaviorChanged` (`webrequest.js`, lines 223 to 238)

`setTimeout` and `clearTimeout` are the timers of the platform: a timer is pending from its
creation until it is cleared or its delay has elapsed, and its callback runs when the delay
has elapsed.  Time is a clock in milliseconds.  The only callback given to `setTimeout` here
is the one of the listener, so a pending timer is recorded by its id and its deadline. -/

/-- An event of `adguard.listeners`: the four events that the listener names, or another
one. -/
inductive ListenerEvent where
  | ADD_RULES
  | REMOVE_RULE
  | UPDATE_FILTER_RULES
  | FILTER_ENABLE_DISABLE
  | other (name : String)
  deriving DecidableEq, Repr

/-- Whether an event is one of the four that the listener names. -/
def ListenerEvent.changesRules : ListenerEvent → Bool
  | .other _ => false
  | _ => true

/-- The clock, the pending timers (id and deadline, in the order of their creation), the
variable `handlerBehaviorTimeout` (`none` for `null`), and the times at which
`adguard.webRequest.handlerBehaviorChanged()` was called. -/
structure TimerWorld where
  now : Nat
  nextTimerId : Nat
  pending : List (Nat × Nat)
  handlerBehaviorTimeout : Option Nat
  behaviorChanged : List Nat
  deriving DecidableEq, Repr

/-- The world when the file has been loaded: `handlerBehaviorTimeout = null`, no timer. -/
def TimerWorld.initial : TimerWorld :=
  { now := 0, nextTimerId := 1, pending := [], handlerBehaviorTimeout := none,
    behaviorChanged := [] }

/-- `setTimeout(callback, delay)`: a new pending timer; its id is returned. -/
def TimerWorld.setTimeout (delay : Nat) (s : TimerWorld) : Nat × TimerWorld :=
  (s.nextTimerId,
    { s with nextTimerId := s.nextTimerId + 1,
             pending := s.pending ++ [(s.nextTimerId, s.now + delay)] })

/-- `clearTimeout(id)`: the timer with that id is no longer pending. -/
def TimerWorld.clearTimeout (id : Nat) (s : TimerWorld) : TimerWorld :=
  { s with pending := s.pending.filter (fun timer => timer.1 != id) }

/-- The callback of the timer: `handlerBehaviorTimeout = null;
adguard.webRequest.handlerBehaviorChanged();`. -/
def handlerBehaviorCallback (s : TimerWorld) : TimerWorld :=
  { s with handlerBehaviorTimeout := none, behaviorChanged := s.behaviorChanged ++ [s.now] }

/-- The listener added to `adguard.listeners`: for one of the four events the pending timer,
if any, is cleared and a new one is set for 3000 ms; other events fall out of the `switch`. -/
def handlerBehaviorListener (event : ListenerEvent) (s : TimerWorld) : TimerWorld :=
  match event with
  | .other _ => s
  | _ =>
    let s1 :=
      match s.handlerBehaviorTimeout with
      | some id => s.clearTimeout id
      | none => s
    let timer := s1.setTimeout 3000
    { timer.2 with handlerBehaviorTimeout := some timer.1 }

/-- The timers among `timers` whose deadline is not after `target` run their callback, each at
its deadline. -/
def TimerWorld.fireDue (target : Nat) : List (Nat × Nat) → TimerWorld → TimerWorld
  | [], s => s
  | (id, deadline) :: rest, s =>
    if deadline ≤ target then
      TimerWorld.fireDue target rest
        (handlerBehaviorCallback
          { s with now := deadline, pending := s.pending.filter (fun timer => timer.1 != id) })
    else TimerWorld.fireDue target rest s

/-- The passing of `delta` milliseconds without an event: the timers that become due run. -/
def TimerWorld.advance (delta : Nat) (s : TimerWorld) : TimerWorld :=
  { TimerWorld.fireDue (s.now + delta) s.pending s with now := s.now + delta }

/-- A sequence of events, each given with the time in milliseconds since the one before it
(for the first one: since the state of the start). -/
def TimerWorld.run : List (Nat × ListenerEvent) → TimerWorld → TimerWorld
  | [], s => s
  | (gap, event) :: rest, s =>
    TimerWorld.run rest (handlerBehaviorListener event (s.advance gap))

/-- The states that the listener and its timer keep to: no timer pending and the variable
`null`, or exactly one timer pending, not yet due, with its id in the variable. -/
def TimerWorld.WellFormed (s : TimerWorld) : Prop :=
  (s.pending = [] ∧ s.handlerBehaviorTimeout = none) ∨
  (∃ id deadline, s.pending = [(id, deadline)] ∧ s.handlerBehaviorTimeout = some id ∧
    s.now < deadline)

/-! ## `content-blocker.js` (Safari)

The file has no strict-mode directive, so inside the plain call `setContentBlocker(...)` the
value of `this` is the global object: the assignment `this.contentBlockListDirty = false`
writes a property of the global object, which is a field of the world below, and not the
`contentBlockListDirty` property of `SafariContentBlocker` (which is read through `self`).

`Utils.debounce` (outside the sources read here) delays `_loadAndConvertRules`; the embedding
is the body that runs when the delay has elapsed.  The callback that
`safari.extension.setContentBlocker` receives runs later, when the platform answers: it is the
separate step `setContentBlockerResult`. -/

/-- An entry of the declarative rule list: a JSON object, kept as its text. -/
abbrev Entry := String

instance : JsTruthy (List Entry) := ⟨fun _ => true⟩

/-- An element of the rule array gathered by `_loadAndConvertRules`: a rule object of the
request filter or of the whitelist service (known by its rule text), or a plain string (the
inverted whitelist rule is concatenated to the array as a string). -/
inductive RuleItem where
  | rule (ruleText : String)
  | text (s : String)
  deriving DecidableEq, Repr

/-- A JavaScript string that is handed to `JSON.parse`, by what `JSON.parse` makes of it: the
JSON text of an array of entries, or a text that `JSON.parse` rejects.  JSON texts of values
that are not arrays are not covered. -/
inductive JsonText where
  | array (entries : List Entry)
  | malformed (text : String)
  deriving DecidableEq, Repr

instance : JsTruthy JsonText :=
  ⟨fun t => match t with
    | .array _ => true
    | .malformed text => text != ""⟩

/-- `JSON.parse(text)`: the array, or a thrown `SyntaxError`. -/
def JSON.parse : JsonText → Except String (List Entry)
  | .array entries => .ok entries
  | .malformed text => .error ("SyntaxError: " ++ text)

/-- The object returned by `SafariContentBlockerConverter.convertArray`. -/
structure ConvertResult where
  converted : Js JsonText
  overLimit : Bool
  deriving DecidableEq, Repr

instance : JsTruthy ConvertResult := ⟨fun _ => true⟩

/-- What the collaborators of `content-blocker.js` answer: the user settings, the rules of the
request filter, the rules and the domains of the whitelist service, the converter, and the
response text of the file `config/empty.json`. -/
structure SafariEnv where
  isFilteringDisabled : Bool
  isDefaultWhiteListMode : Bool
  requestFilterRules : List RuleItem
  whiteListRules : List RuleItem
  whiteList : Js (List String)
  convertArray : List RuleItem → Nat → Js ConvertResult
  emptyBlockerFile : JsonText

/-- A call that `content-blocker.js` makes to a collaborator or to the platform. -/
inductive SafariCall where
  | userSettings_isFilteringDisabled
  | requestFilter_getRules
  | userSettings_isDefaultWhiteListMode
  | whiteListService_getRules
  | whiteListService_getWhiteList
  | convertArray (rules : List RuleItem) (rulesLimit : Nat)
  | xhr_get (url : String)
  | safari_extension_setContentBlocker (json : List Entry)
  | notifyListeners_CONTENT_BLOCKER_UPDATED (rulesCount : Nat) (rulesOverLimit : Bool)
  | Log_info (message : String)
  | Log_error (message : String)
  deriving DecidableEq, Repr

/-- The mutable properties of the object `exports.SafariContentBlocker`. -/
structure SafariContentBlocker where
  emptyBlockerJSON : Js (List Entry)
  contentBlockListDirty : Bool
  lastSetContentBlockerError : Js String
  deriving DecidableEq, Repr

/-- `RULES_LIMIT: 50000`. -/
def SafariContentBlocker.RULES_LIMIT : Nat := 50000

/-- `emptyBlockerUrl: 'config/empty.json'`. -/
def SafariContentBlocker.emptyBlockerUrl : String := "config/empty.json"

/-- The object as the file declares it: `emptyBlockerJSON: null`,
`contentBlockListDirty: true`, and no `lastSetContentBlockerError` property yet. -/
def SafariContentBlocker.initial : SafariContentBlocker :=
  { emptyBlockerJSON := .null, contentBlockListDirty := true,
    lastSetContentBlockerError := .undefined }

/-- The `SafariContentBlocker` object, the property `contentBlockListDirty` of the global
object, and the log of calls, oldest first. -/
structure SafariWorld where
  blocker : SafariContentBlocker
  globalContentBlockListDirty : Js Bool
  calls : List SafariCall
  deriving DecidableEq, Repr

/-- The world when the file has just been loaded. -/
def SafariWorld.initial : SafariWorld :=
  { blocker := SafariContentBlocker.initial, globalContentBlockListDirty := .undefined,
    calls := [] }

/-- Append a call to the log. -/
def SafariWorld.log (s : SafariWorld) (c : SafariCall) : SafariWorld :=
  { s with calls := s.calls ++ [c] }

/-- The rule list of a call when it is a call of `safari.extension.setContentBlocker`. -/
def SafariCall.installed : SafariCall → Option (List Entry)
  | .safari_extension_setContentBlocker json => some json
  | _ => none

/-- The payload of a call when it is a `CONTENT_BLOCKER_UPDATED` notification. -/
def SafariCall.updated : SafariCall → Option (Nat × Bool)
  | .notifyListeners_CONTENT_BLOCKER_UPDATED rulesCount rulesOverLimit =>
    some (rulesCount, rulesOverLimit)
  | _ => none

/-- Whether a call reads rules (request filter, whitelist) or converts them. -/
def SafariCall.readsOrConvertsRules : SafariCall → Bool
  | .requestFilter_getRules => true
  | .whiteListService_getRules => true
  | .whiteListService_getWhiteList => true
  | .convertArray _ _ => true
  | _ => false

/-- The rule lists handed to `safari.extension.setContentBlocker`, oldest first. -/
def SafariWorld.installs (s : SafariWorld) : List (List Entry) :=
  s.calls.filterMap SafariCall.installed

/-- The `CONTENT_BLOCKER_UPDATED` notifications, oldest first. -/
def SafariWorld.updates (s : SafariWorld) : List (Nat × Bool) :=
  s.calls.filterMap SafariCall.updated

/-- The calls that read or convert rules, oldest first. -/
def SafariWorld.ruleReads (s : SafariWorld) : List SafariCall :=
  s.calls.filter SafariCall.readsOrConvertsRules

/-- The loop of `_constructInvertedWhitelistRule` over `domains[i]`, `i` counting from its
second argument: a `'|'` before every domain but the first, then `'~' + domains[i]`. -/
def SafariContentBlocker._constructInvertedWhitelistRule.loop :
    List String → Nat → String → String
  | [], _, invertedWhitelistRule => invertedWhitelistRule
  | domain :: rest, i, invertedWhitelistRule =>
    SafariContentBlocker._constructInvertedWhitelistRule.loop rest (i + 1)
      ((if i > 0 then invertedWhitelistRule ++ "|" else invertedWhitelistRule)
        ++ ("~" ++ domain))

/-- The body of `_constructInvertedWhitelistRule`, given the value of
`whiteListService.getWhiteList()`. -/
def SafariContentBlocker._constructInvertedWhitelistRule.of (domains : Js (List String)) :
    String :=
  match domains with
  | .obj (domain :: rest) =>
    SafariContentBlocker._constructInvertedWhitelistRule.loop (domain :: rest) 0
      ("@@||*$document" ++ ",domain=")
  | _ => "@@||*$document"

/-- `_constructInvertedWhitelistRule()`. -/
def SafariContentBlocker._constructInvertedWhitelistRule (E : SafariEnv) (s : SafariWorld) :
    String × SafariWorld :=
  (SafariContentBlocker._constructInvertedWhitelistRule.of E.whiteList,
    s.log .whiteListService_getWhiteList)

/-- Lines 93 to 102 of `_loadAndConvertRules`: the rules of the request filter, followed by the
rules of the whitelist service in the default whitelist mode, and otherwise by the inverted
whitelist rule when that string is not empty. -/
def SafariContentBlocker._loadAndConvertRules.rules (E : SafariEnv) (s : SafariWorld) :
    List RuleItem × SafariWorld :=
  let s1 := s.log .requestFilter_getRules
  let rules := E.requestFilterRules
  let s2 := s1.log .userSettings_isDefaultWhiteListMode
  if E.isDefaultWhiteListMode then
    (rules ++ E.whiteListRules, s2.log .whiteListService_getRules)
  else
    let inverted := SafariContentBlocker._constructInvertedWhitelistRule E s2
    if JsTruthy.truthy inverted.1 then (rules ++ [RuleItem.text inverted.1], inverted.2)
    else (rules, inverted.2)

/-- `_loadAndConvertRules(rulesLimit, callback)`: the value it passes to `callback`. -/
def SafariContentBlocker._loadAndConvertRules (E : SafariEnv) (rulesLimit : Nat)
    (s : SafariWorld) : Js ConvertResult × SafariWorld :=
  let s1 := s.log .userSettings_isFilteringDisabled
  if E.isFilteringDisabled then
    (.null, s1.log (.Log_info "Disabling content blocker."))
  else
    let s2 := s1.log (.Log_info "Starting loading content blocker.")
    let gathered := SafariContentBlocker._loadAndConvertRules.rules E s2
    let s3 := gathered.2.log (.convertArray gathered.1 rulesLimit)
    let result := E.convertArray gathered.1 rulesLimit
    match result with
    | .obj r => if r.converted.truthy then (result, s3) else (.null, s3)
    | _ => (.null, s3)

/-- `_setSafariContentBlocker(json)`.  Everything is inside `try`; with `json` an array nothing
in it throws.  The inner `setContentBlocker(callback)` reads `self.contentBlockListDirty` and
writes `this.contentBlockListDirty`, `this` being the global object. -/
def SafariContentBlocker._setSafariContentBlocker (json : List Entry) (s : SafariWorld) :
    SafariWorld :=
  let s1 := s.log (.Log_info ("Setting content blocker. Length=" ++ toString json.length))
  let s2 :=
    if !s1.blocker.contentBlockListDirty then
      s1.log (.Log_error
        ("Error setting content blocker: " ++ s1.blocker.lastSetContentBlockerError.toStr))
    else
      { s1 with globalContentBlockListDirty := .obj false }.log
        (.safari_extension_setContentBlocker json)
  s2.log (.Log_info "Content blocker has been set.")

/-- The callback given to `safari.extension.setContentBlocker`, run with the value `error`
that the platform reports. -/
def SafariContentBlocker.setContentBlockerResult (error : Js String) (s : SafariWorld) :
    SafariWorld :=
  if !error.truthy then s
  else
    { s with blocker := { s.blocker with lastSetContentBlockerError := error } }.log
      (.Log_error ("Error setting content blocker: " ++ error.toStr))

/-- The outcome of a step that may throw: the world it ends in, or the thrown exception
together with the world at the time of the throw. -/
abbrev Outcome (α : Type) := Except (String × SafariWorld) α

/-- `_getEmptyBlockerJson()`: the cached array, or the parsed file, which is then cached. -/
def SafariContentBlocker._getEmptyBlockerJson (E : SafariEnv) (s : SafariWorld) :
    Outcome (List Entry × SafariWorld) :=
  match s.blocker.emptyBlockerJSON with
  | .obj json => .ok (json, s)
  | _ =>
    let s1 := s.log (.xhr_get SafariContentBlocker.emptyBlockerUrl)
    match JSON.parse E.emptyBlockerFile with
    | .ok json =>
      .ok (json, { s1 with blocker := { s1.blocker with emptyBlockerJSON := .obj json } })
    | .error e => .error (e, s1)

/-- `_clearFilters()`. -/
def SafariContentBlocker._clearFilters (E : SafariEnv) (s : SafariWorld) :
    Outcome SafariWorld :=
  match SafariContentBlocker._getEmptyBlockerJson E s with
  | .ok (json, s1) => .ok (SafariContentBlocker._setSafariContentBlocker json s1)
  | .error e => .error e

/-- The callback that `updateContentBlocker` passes to `_loadAndConvertRules`. -/
def SafariContentBlocker.updateContentBlocker.callback (E : SafariEnv)
    (result : Js ConvertResult) (s : SafariWorld) : Outcome SafariWorld :=
  match result with
  | .obj r =>
    match r.converted with
    | .obj text =>
      match JSON.parse text with
      | .ok json =>
        let s1 := SafariContentBlocker._setSafariContentBlocker json s
        .ok (s1.log (.notifyListeners_CONTENT_BLOCKER_UPDATED json.length r.overLimit))
      | .error e => .error (e, s)
    | .null => .error ("TypeError: null has no property length", s)
    | .undefined => .error ("SyntaxError: undefined", s)
  | _ => SafariContentBlocker._clearFilters E s

/-- `updateContentBlocker()`: an error is an exception that leaves the callback. -/
def SafariContentBlocker.updateContentBlocker (E : SafariEnv) (s : SafariWorld) :
    Outcome SafariWorld :=
  let loaded := SafariContentBlocker._loadAndConvertRules E SafariContentBlocker.RULES_LIMIT s
  SafariContentBlocker.updateContentBlocker.callback E loaded.1 loaded.2

/-- The worlds that the code reaches from the freshly loaded file by calls of
`updateContentBlocker` (returning or throwing) and by answers of the platform to
`safari.extension.setContentBlocker`, the environment of every call satisfying `good`. -/
inductive SafariWorld.Reachable (good : SafariEnv → Prop) : SafariWorld → Prop where
  | initial : SafariWorld.Reachable good SafariWorld.initial
  | updated (E : SafariEnv) (s t : SafariWorld) :
      good E → SafariWorld.Reachable good s →
      SafariContentBlocker.updateContentBlocker E s = .ok t → SafariWorld.Reachable good t
  | thrown (E : SafariEnv) (s t : SafariWorld) (e : String) :
      good E → SafariWorld.Reachable good s →
      SafariContentBlocker.updateContentBlocker E s = .error (e, t) →
      SafariWorld.Reachable good t
  | answered (error : Js String) (s : SafariWorld) :
      SafariWorld.Reachable good s →
      SafariWorld.Reachable good (SafariContentBlocker.setContentBlockerResult error s)

/-- Modelled from the spec: `SafariContentBlockerConverter.convertArray` (module `converter`)
is not under the sources read here.  The specification says of it: "Converts the combined rule
set to the declarative format, capping the output at `ruleLimit` entries; reports whether the
true count exceeded the cap (`overLimit`)".  Every rule becomes one entry, made by `toEntry`. -/
def SafariContentBlockerConverter.convertArray (toEntry : RuleItem → Entry)
    (rules : List RuleItem) (rulesLimit : Nat) : Js ConvertResult :=
  .obj { converted := .obj (.array ((rules.take rulesLimit).map toEntry)),
         overLimit := decide (rulesLimit < rules.length) }

/-- The invariant of the rule cap: the cached empty blocker JSON and every rule list handed to
`safari.extension.setContentBlocker` so far have at most `RULES_LIMIT` entries. -/
def SafariWorld.WithinLimit (s : SafariWorld) : Prop :=
  (∀ cached, s.blocker.emptyBlockerJSON = Js.obj cached →
    cached.length ≤ SafariContentBlocker.RULES_LIMIT) ∧
  (∀ json, json ∈ s.installs → json.length ≤ SafariContentBlocker.RULES_LIMIT)

/-- The environments of the rule cap: the converter is the one modelled from the spec, and
`config/empty.json` has the content `file`. -/
def SafariEnv.Capped (toEntry : RuleItem → Entry) (file : JsonText) (E : SafariEnv) : Prop :=
  E.convertArray = SafariContentBlockerConverter.convertArray toEntry ∧
  E.emptyBlockerFile = file

/-- Whether a step returned, as opposed to throwing. -/
def Outcome.returned : Outcome SafariWorld → Bool
  | .ok _ => true
  | .error _ => false

/-- The world in which a step ended, whether it returned or threw. -/
def Outcome.worldOf : Outcome SafariWorld → SafariWorld
  | .ok t => t
  | .error (_, t) => t

/-- The selectors of a result of `processGetSelectorsAndScripts`, when it has the property. -/
def SelectorsAndScripts.selectorsOf : SelectorsAndScripts → Option Selectors
  | .payload selectors _ _ _ => some selectors
  | _ => none

/-- The scripts of a result of `processGetSelectorsAndScripts`, when it has the property. -/
def SelectorsAndScripts.scriptsOf : SelectorsAndScripts → Option (Js (List String))
  | .payload _ scripts _ _ => some scripts
  | _ => none

/-! ## `elemHide.js` (Firefox)

The verdict cache of `ElemHide` and the registration of style sheets.  `adguard.tabs`, the
platform style sheet service and `adguard.unload` live outside this file: the first is a
record of functions over its own state, the other two are platform state with a call log. -/

/-- A value kept in the tab metadata under one of the two verdict keys: the boolean `false`
or a rule object. -/
inductive Verdict where
  | no : Verdict
  | rule (r : Rule) : Verdict

instance : JsTruthy Verdict :=
  ⟨fun v => match v with
    | .no => false
    | .rule _ => true⟩

/-- The comparison `value === false`. -/
def Verdict.isFalse : Js Verdict → Bool
  | .obj .no => true
  | _ => false

/-- The expression `rule || false`. -/
def Verdict.orFalse : Js Rule → Verdict
  | .obj r => .rule r
  | _ => .no

/-- The frame record of a tab; `url` is the only property read. -/
structure Frame where
  url : String
  deriving DecidableEq, Repr

instance : JsTruthy Frame := ⟨fun _ => true⟩

/-- The collaborators of the verdict cache: `adguard.tabs` over its state `σ`
(`getTabMetadata(tabId, key)`, `getTabFrame(tabId)`, `updateTabMetadata(tabId, {key: value})`)
and `adguard.requestFilter.findWhiteListRule(url, referrer, type)`. -/
structure TabsService (σ : Type) where
  getTabMetadata : σ → Nat → String → Js Verdict
  getTabFrame : σ → Nat → Js Frame
  updateTabMetadata : σ → Nat → String → Verdict → σ
  findWhiteListRule : String → String → String → Js Rule

/-- The law of a key-value store: reading a key of a tab after writing it gives the value
written. -/
def TabsService.IsStore {σ : Type} (T : TabsService σ) : Prop :=
  ∀ (s : σ) (tabId : Nat) (key : String) (value : Verdict),
    T.getTabMetadata (T.updateTabMetadata s tabId key value) tabId key = Js.obj value

/-- A call made by the verdict cache. -/
inductive ElemHideCall where
  | tabs_getTabMetadata (tabId : Nat) (key : String)
  | tabs_getTabFrame (tabId : Nat)
  | requestFilter_findWhiteListRule (url referrer requestType : String)
  | tabs_updateTabMetadata (tabId : Nat) (key : String) (value : Verdict)

/-- Calls of `requestFilter.findWhiteListRule`. -/
def ElemHideCall.isFindWhiteListRule : ElemHideCall → Bool
  | .requestFilter_findWhiteListRule _ _ _ => true
  | _ => false

/-- Calls of `tabs.updateTabMetadata`. -/
def ElemHideCall.isUpdateTabMetadata : ElemHideCall → Bool
  | .tabs_updateTabMetadata _ _ _ => true
  | _ => false

/-- The state of `adguard.tabs` and the calls made so far. -/
structure ElemHideWorld (σ : Type) where
  tabs : σ
  calls : List ElemHideCall

/-- Appends a call to the log. -/
def ElemHideWorld.log {σ : Type} (w : ElemHideWorld σ) (c : ElemHideCall) : ElemHideWorld σ :=
  { w with calls := w.calls ++ [c] }

/-- `ElemHide._isElemHideWhiteListed(tab)`.  The function has a `return` on the path of the
cached value only: when it computes the verdict it stores it and returns nothing. -/
def ElemHide._isElemHideWhiteListed {σ : Type} (T : TabsService σ) (tab : Tab)
    (w : ElemHideWorld σ) : Js Verdict × ElemHideWorld σ :=
  let elemHideWhiteListRule := T.getTabMetadata w.tabs tab.tabId "elemHideWhiteListRule"
  let w1 := w.log (.tabs_getTabMetadata tab.tabId "elemHideWhiteListRule")
  if elemHideWhiteListRule.truthy || Verdict.isFalse elemHideWhiteListRule then
    (elemHideWhiteListRule, w1)
  else
    let frame := T.getTabFrame w1.tabs tab.tabId
    let w2 := w1.log (.tabs_getTabFrame tab.tabId)
    match frame with
    | .obj f =>
      let found := T.findWhiteListRule f.url f.url "ELEMHIDE"
      let w3 := w2.log (.requestFilter_findWhiteListRule f.url f.url "ELEMHIDE")
      (Js.undefined,
        { tabs := T.updateTabMetadata w3.tabs tab.tabId "elemHideWhiteListRule"
            (Verdict.orFalse found),
          calls := w3.calls ++
            [.tabs_updateTabMetadata tab.tabId "elemHideWhiteListRule"
              (Verdict.orFalse found)] })
    | _ => (Js.undefined, w2)

/-- `ElemHide._isGenericHideWhiteListed(tab)`: the same text with the key
`genericHideWhiteListRule` and the type `GENERICHIDE`. -/
def ElemHide._isGenericHideWhiteListed {σ : Type} (T : TabsService σ) (tab : Tab)
    (w : ElemHideWorld σ) : Js Verdict × ElemHideWorld σ :=
  let genericHideWhiteListRule :=
    T.getTabMetadata w.tabs tab.tabId "genericHideWhiteListRule"
  let w1 := w.log (.tabs_getTabMetadata tab.tabId "genericHideWhiteListRule")
  if genericHideWhiteListRule.truthy || Verdict.isFalse genericHideWhiteListRule then
    (genericHideWhiteListRule, w1)
  else
    let frame := T.getTabFrame w1.tabs tab.tabId
    let w2 := w1.log (.tabs_getTabFrame tab.tabId)
    match frame with
    | .obj f =>
      let found := T.findWhiteListRule f.url f.url "GENERICHIDE"
      let w3 := w2.log (.requestFilter_findWhiteListRule f.url f.url "GENERICHIDE")
      (Js.undefined,
        { tabs := T.updateTabMetadata w3.tabs tab.tabId "genericHideWhiteListRule"
            (Verdict.orFalse found),
          calls := w3.calls ++
            [.tabs_updateTabMetadata tab.tabId "genericHideWhiteListRule"
              (Verdict.orFalse found)] })
    | _ => (Js.undefined, w2)

/-- The common text of `_isElemHideWhiteListed` and `_isGenericHideWhiteListed`, with the
metadata key and the type passed to `findWhiteListRule` as parameters. -/
def ElemHide.verdictFor {σ : Type} (T : TabsService σ) (key contentType : String) (tab : Tab)
    (w : ElemHideWorld σ) : Js Verdict × ElemHideWorld σ :=
  let cached := T.getTabMetadata w.tabs tab.tabId key
  let w1 := w.log (.tabs_getTabMetadata tab.tabId key)
  if cached.truthy || Verdict.isFalse cached then
    (cached, w1)
  else
    let frame := T.getTabFrame w1.tabs tab.tabId
    let w2 := w1.log (.tabs_getTabFrame tab.tabId)
    match frame with
    | .obj f =>
      let found := T.findWhiteListRule f.url f.url contentType
      let w3 := w2.log (.requestFilter_findWhiteListRule f.url f.url contentType)
      (Js.undefined,
        { tabs := T.updateTabMetadata w3.tabs tab.tabId key (Verdict.orFalse found),
          calls := w3.calls ++
            [.tabs_updateTabMetadata tab.tabId key (Verdict.orFalse found)] })
    | _ => (Js.undefined, w2)

/-- The world after `count` calls of `verdictFor` in a row. -/
def ElemHide.repeatVerdictFor {σ : Type} (T : TabsService σ) (key contentType : String)
    (tab : Tab) : Nat → ElemHideWorld σ → ElemHideWorld σ
  | 0, w => w
  | count + 1, w =>
    ElemHide.repeatVerdictFor T key contentType tab count
      (ElemHide.verdictFor T key contentType tab w).2

/-- The world after `count` calls of `_isElemHideWhiteListed(tab)` in a row. -/
def ElemHide.repeatElemHide {σ : Type} (T : TabsService σ) (tab : Tab) :
    Nat → ElemHideWorld σ → ElemHideWorld σ
  | 0, w => w
  | count + 1, w =>
    ElemHide.repeatElemHide T tab count (ElemHide._isElemHideWhiteListed T tab w).2

/-- The world after `count` calls of `_isGenericHideWhiteListed(tab)` in a row. -/
def ElemHide.repeatGenericHide {σ : Type} (T : TabsService σ) (tab : Tab) :
    Nat → ElemHideWorld σ → ElemHideWorld σ
  | 0, w => w
  | count + 1, w =>
    ElemHide.repeatGenericHide T tab count (ElemHide._isGenericHideWhiteListed T tab w).2

/-- The file behind a `file:` URI (`uri.file`). -/
structure FileRef where
  path : String
  deriving DecidableEq, Repr

instance : JsTruthy FileRef := ⟨fun _ => true⟩

/-- A style sheet URI, seen through the properties `_applyCssStyleSheet` reads: `path` and
`file` (absent on a URI that is not backed by a file); `spec` is the text of the URI. -/
structure Uri where
  spec : String
  path : String
  file : Js FileRef
  deriving DecidableEq, Repr

instance : JsTruthy Uri := ⟨fun _ => true⟩

/-- What the platform answers: `uri.file.exists()`, and whether
`styleSheetService.loadAndRegisterSheet` can load the sheet (it throws when it cannot). -/
structure StylePlatform where
  fileExists : FileRef → Bool
  canLoad : Uri → Bool

/-- A call made while registering a style sheet. -/
inductive StyleCall where
  | sheetRegistered (uri : Uri)
  | loadAndRegisterSheet (uri : Uri)
  | unregisterSheet (uri : Uri)
  | unload_when (uri : Uri)
  | file_exists (file : FileRef)
  | console_info (text : String)
  | console_debug (text : String)
  | console_error (uri : Js Uri) (ex : String)
  deriving DecidableEq, Repr

/-- The user sheets registered in the style sheet service, the hooks registered with
`adguard.unload.when` (each unloads the URI it is bound to), and the calls made so far. -/
structure StyleWorld where
  registered : List Uri
  unloadHooks : List Uri
  calls : List StyleCall
  deriving DecidableEq, Repr

/-- Appends a call to the log. -/
def StyleWorld.log (w : StyleWorld) (c : StyleCall) : StyleWorld :=
  { w with calls := w.calls ++ [c] }

/-- `sheetRegistered(uri)` of `styleService`. -/
def styleService.sheetRegistered (uri : Uri) (w : StyleWorld) : Bool × StyleWorld :=
  (decide (uri ∈ w.registered), w.log (.sheetRegistered uri))

/-- `styleService.loadUserSheetByUri(uri)`.  An exception of `loadAndRegisterSheet` leaves the
function before the unload hook is registered. -/
def styleService.loadUserSheetByUri (P : StylePlatform) (uri : Uri) (w : StyleWorld) :
    Except (String × StyleWorld) StyleWorld :=
  let registered := styleService.sheetRegistered uri w
  if registered.1 then .ok registered.2
  else
    let w1 := registered.2.log (.loadAndRegisterSheet uri)
    if P.canLoad uri then
      .ok { registered := w1.registered ++ [uri],
            unloadHooks := w1.unloadHooks ++ [uri],
            calls := w1.calls ++ [.unload_when uri] }
    else .error ("NS_ERROR_FAILURE", w1)

/-- `styleService.unloadUserSheetByUri(uri)`. -/
def styleService.unloadUserSheetByUri (uri : Uri) (w : StyleWorld) : StyleWorld :=
  let registered := styleService.sheetRegistered uri w
  if registered.1 then
    { registered.2 with
      registered := registered.2.registered.erase uri,
      calls := registered.2.calls ++ [.unregisterSheet uri] }
  else registered.2

/-- The `try` block of `ElemHide._applyCssStyleSheet(uri, needCheckFileExist)`. -/
def ElemHide._applyCssStyleSheet.tryBlock (P : StylePlatform) (uri : Js Uri)
    (needCheckFileExist : Js Bool) (w : StyleWorld) : Except (String × StyleWorld) StyleWorld :=
  match uri with
  | .obj u =>
    let missing : Bool × StyleWorld :=
      if needCheckFileExist.truthy then
        match u.file with
        | .obj f => (!P.fileExists f, w.log (.file_exists f))
        | _ => (false, w)
      else (false, w)
    if missing.1 then
      .ok (missing.2.log (.console_info ("Adguard addon: Css stylesheet cannot apply file: " ++
        u.path ++ " because file does not exist")))
    else
      match styleService.loadUserSheetByUri P u
          (styleService.unloadUserSheetByUri u missing.2) with
      | .ok w2 =>
        .ok (w2.log (.console_debug "styles hiding elements are successfully registered."))
      | .error e => .error e
  | _ => .ok w

/-- `ElemHide._applyCssStyleSheet(uri, needCheckFileExist)`: the `try` block, and the `catch`
block that logs the exception. -/
def ElemHide._applyCssStyleSheet (P : StylePlatform) (uri : Js Uri)
    (needCheckFileExist : Js Bool) (w : StyleWorld) : Except (String × StyleWorld) StyleWorld :=
  match ElemHide._applyCssStyleSheet.tryBlock P uri needCheckFileExist w with
  | .ok w1 => .ok w1
  | .error (ex, w1) => .ok (w1.log (.console_error uri ex))

/-- The world an outcome ends in. -/
def StyleWorld.ofOutcome : Except (String × StyleWorld) StyleWorld → StyleWorld
  | .ok w => w
  | .error (_, w) => w

/-- Whether an outcome is a normal return. -/
def StyleWorld.returned : Except (String × StyleWorld) StyleWorld → Bool
  | .ok _ => true
  | .error _ => false

/-! ## `content-message-handler.js` -/

/-- The method `slice(start, end)` of an array, for indices that are natural numbers. -/
def Array.slice {α : Type} (xs : List α) (start stop : Nat) : List α :=
  (xs.take stop).drop start

/-- The array `result.slice(offset, offset + limit)` for a number `limit` and an `offset` that
may be absent: `slice` reads `undefined` as 0 and the sum `undefined + limit`, which is not a
number, as 0; `null + limit` is `limit`. -/
def Array.sliceFrom {α : Type} (xs : List α) (offset : Js Nat) (limit : Nat) : List α :=
  match offset with
  | .obj o => Array.slice xs o (o + limit)
  | .null => Array.slice xs 0 limit
  | .undefined => Array.slice xs 0 0

/-- The loop of `searchWhiteListDomains` from the entry `domains[i]` on; `result` holds the
entries pushed so far. -/
def searchWhiteListDomains.loop (containsIgnoreCase : String → String → Bool)
    (text : Js String) : List String → List String → List String
  | [], result => result
  | domain :: rest, result =>
    if !text.truthy || containsIgnoreCase domain text.toStr then
      searchWhiteListDomains.loop containsIgnoreCase text rest (result ++ [domain])
    else searchWhiteListDomains.loop containsIgnoreCase text rest result

/-- `searchWhiteListDomains(offset, limit, text)`; `domains` is what
`adguard.whitelist.getWhiteListDomains()` returns and `containsIgnoreCase` is
`adguard.utils.strings.containsIgnoreCase`. -/
def searchWhiteListDomains (containsIgnoreCase : String → String → Bool)
    (domains : List String) (offset limit : Js Nat) (text : Js String) : List String :=
  let result := searchWhiteListDomains.loop containsIgnoreCase text domains []
  match limit with
  | .obj l => if limit.truthy then Array.sliceFrom result offset l else result
  | _ => result

/-- The loop of `searchUserRules` from the entry `userRules[i]` on; `result` holds the entries
pushed so far. -/
def searchUserRules.loop (containsIgnoreCase : String → String → Bool)
    (text : Js String) : List String → List String → List String
  | [], result => result
  | ruleText :: rest, result =>
    if !text.truthy || containsIgnoreCase ruleText text.toStr then
      searchUserRules.loop containsIgnoreCase text rest (result ++ [ruleText])
    else searchUserRules.loop containsIgnoreCase text rest result

/-- `searchUserRules(offset, limit, text)`; `userRules` is what `adguard.userrules.getRules()`
returns. -/
def searchUserRules (containsIgnoreCase : String → String → Bool)
    (userRules : List String) (offset limit : Js Nat) (text : Js String) : List String :=
  let result := searchUserRules.loop containsIgnoreCase text userRules []
  match limit with
  | .obj l => if limit.truthy then Array.sliceFrom result offset l else result
  | _ => result

/-- How the statements of a `case` of a `switch` end: with `break`, with `return` on every
path, or by running on into the statements of the next `case`. -/
inductive CaseEnd where
  | breaks | returns | fallsThrough
  deriving DecidableEq, Repr

/-- One `case` of a `switch` over strings: its label and how its statements end.  The
statements themselves are named by the label. -/
structure SwitchCase where
  label : String
  ends : CaseEnd
  deriving DecidableEq, Repr

/-- The statement lists run from a `case` on: each one that falls through hands over to the
next, and after the last the `default` clause runs.  The result is the labels of the statement
lists run and whether the `default` clause was reached. -/
def SwitchCase.runFrom : List SwitchCase → List String × Bool
  | [] => ([], true)
  | c :: rest =>
    match c.ends with
    | .fallsThrough => (c.label :: (SwitchCase.runFrom rest).1, (SwitchCase.runFrom rest).2)
    | _ => ([c.label], false)

/-- The statement `switch (value)`: the first `case` whose label is strictly equal to the
value is entered; without one the `default` clause, which stands last, runs. -/
def SwitchCase.dispatch (value : Js String) : List SwitchCase → List String × Bool
  | [] => ([], true)
  | c :: rest =>
    if value = Js.obj c.label then SwitchCase.runFrom (c :: rest)
    else SwitchCase.dispatch value rest

/-- A message from a content script; `type` is the property the dispatch reads. -/
structure Message where
  type : Js String
  deriving DecidableEq, Repr

/-- The `case` clauses of `handleMessage`, in the order of the source. -/
def handleMessage.cases : List SwitchCase :=
  [
    { label := "unWhiteListFrame", ends := .breaks },
    { label := "addEventListener", ends := .returns },
    { label := "removeListener", ends := .breaks },
    { label := "initializeFrameScript", ends := .returns },
    { label := "changeUserSetting", ends := .breaks },
    { label := "checkRequestFilterReady", ends := .returns },
    { label := "checkIntegrationStatus", ends := .returns },
    { label := "disableIntegration", ends := .breaks },
    { label := "enableIntegration", ends := .breaks },
    { label := "addAndEnableFilter", ends := .breaks },
    { label := "removeAntiBannerFilter", ends := .breaks },
    { label := "enableAntiBannerFilter", ends := .breaks },
    { label := "disableAntiBannerFilter", ends := .breaks },
    { label := "getWhiteListDomains", ends := .returns },
    { label := "getUserFilters", ends := .returns },
    { label := "checkAntiBannerFiltersUpdate", ends := .breaks },
    { label := "getAntiBannerFiltersForOptionsPage", ends := .returns },
    { label := "changeDefaultWhiteListMode", ends := .breaks },
    { label := "clearUserFilter", ends := .breaks },
    { label := "clearWhiteListFilter", ends := .breaks },
    { label := "addWhiteListDomains", ends := .breaks },
    { label := "removeWhiteListDomain", ends := .breaks },
    { label := "addUserFilterRules", ends := .breaks },
    { label := "onFiltersSubscriptionChange", ends := .breaks },
    { label := "getFiltersMetadata", ends := .returns },
    { label := "openThankYouPage", ends := .breaks },
    { label := "openExtensionStore", ends := .breaks },
    { label := "openFilteringLog", ends := .breaks },
    { label := "openExportRulesTab", ends := .breaks },
    { label := "openSafebrowsingTrusted", ends := .breaks },
    { label := "openTab", ends := .breaks },
    { label := "resetBlockedAdsCount", ends := .breaks },
    { label := "getSelectorsAndScripts", ends := .returns },
    { label := "checkWebSocketRequest", ends := .returns },
    { label := "processShouldCollapse", ends := .returns },
    { label := "processShouldCollapseMany", ends := .returns },
    { label := "loadAssistant", ends := .returns },
    { label := "addUserRule", ends := .breaks },
    { label := "removeUserRule", ends := .breaks },
    { label := "onOpenFilteringLogPage", ends := .breaks },
    { label := "onCloseFilteringLogPage", ends := .breaks },
    { label := "reloadTabById", ends := .breaks },
    { label := "clearEventsByTabId", ends := .breaks },
    { label := "getTabFrameInfoById", ends := .returns },
    { label := "getFilteringInfoByTabId", ends := .returns },
    { label := "synchronizeOpenTabs", ends := .returns },
    { label := "checkSubscriptionUrl", ends := .returns },
    { label := "enableSubscription", ends := .returns },
    { label := "addWhiteListDomainPopup", ends := .breaks },
    { label := "removeWhiteListDomainPopup", ends := .breaks },
    { label := "changeApplicationFilteringDisabled", ends := .breaks },
    { label := "openSiteReportTab", ends := .breaks },
    { label := "openSettingsTab", ends := .breaks },
    { label := "openAssistant", ends := .breaks },
    { label := "resizePanelPopup", ends := .breaks },
    { label := "sendFeedback", ends := .breaks } ]

/-- `handleMessage(message, sender, callback)` as a dispatch: the labels of the statement
lists it runs, or the string thrown by the `default` clause together with the labels of the
statement lists run before it. -/
def handleMessage (message : Message) : Except (String × List String) (List String) :=
  let run := SwitchCase.dispatch message.type handleMessage.cases
  if run.2 then .error ("Unknown message: " ++ "[object Object]", run.1)
  else .ok run.1

/-! ## `service-client.js`

The download of the rules of a subscription.  A request in flight holds its handlers as
closures; the world keeps the request, and the handlers are passed again when the platform
delivers the event that completes it. -/

/-- The white space and line terminators that `String.prototype.trim` removes. -/
def Char.isJsWhiteSpace (c : Char) : Bool :=
  c.toNat = 0x09 || c.toNat = 0x0A || c.toNat = 0x0B || c.toNat = 0x0C || c.toNat = 0x0D ||
  c.toNat = 0x20 || c.toNat = 0xA0 || c.toNat = 0x1680 ||
  (0x2000 ≤ c.toNat && c.toNat ≤ 0x200A) ||
  c.toNat = 0x2028 || c.toNat = 0x2029 || c.toNat = 0x202F || c.toNat = 0x205F ||
  c.toNat = 0x3000 || c.toNat = 0xFEFF

/-- The method `trim()` of a string. -/
def String.jsTrim (s : String) : String :=
  String.mk ((s.data.dropWhile Char.isJsWhiteSpace).reverse.dropWhile
    Char.isJsWhiteSpace).reverse

/-- A carriage return or a line feed. -/
def Char.isLineBreak (c : Char) : Bool :=
  c = '\r' || c = '\n'

/-- The loop of `split(/[\r\n]+/)`: `current` is the piece read so far, `inBreak` tells
whether the last character read belongs to a run of line breaks. -/
def String.splitLineBreaks.loop (current : List Char) (inBreak : Bool) :
    List Char → List String
  | [] => [String.mk current]
  | c :: rest =>
    if Char.isLineBreak c then
      if inBreak then String.splitLineBreaks.loop current true rest
      else String.mk current :: String.splitLineBreaks.loop [] true rest
    else String.splitLineBreaks.loop (current ++ [c]) false rest

/-- The method `split(/[\r\n]+/)` of a string. -/
def String.splitLineBreaks (s : String) : List String :=
  String.splitLineBreaks.loop [] false s.data

/-- An `XMLHttpRequest`, seen through `status` and `responseText`. -/
structure XMLHttpRequest where
  status : Nat
  responseText : Js String
  deriving DecidableEq, Repr

/-- The event that completes a request: `load` with the state of the request, or `error`,
`abort`, `timeout`. -/
inductive XhrEvent where
  | load (request : XMLHttpRequest)
  | error (request : XMLHttpRequest)
  | abort (request : XMLHttpRequest)
  | timeout (request : XMLHttpRequest)
  deriving DecidableEq, Repr

/-- What the platform does with a request: `sendThrows url` is the exception that
`open`, `setRequestHeader`, `overrideMimeType` or `send` throws for the URL, if any. -/
structure XhrPlatform where
  sendThrows : String → Option String

/-- A request that was sent: its URL and content type, and whether `onload` and the three
error handlers were set. -/
structure SentRequest where
  url : String
  contentType : String
  onload : Bool
  onerror : Bool
  deriving DecidableEq, Repr

/-- The keys of `loadingSubscriptions`, the requests sent and not completed, and the state `κ`
of the callers, which the callbacks work on. -/
structure BackendWorld (κ : Type) where
  loadingSubscriptions : List String
  inFlight : List SentRequest
  caller : κ
  deriving DecidableEq, Repr

/-- `executeRequestAsync(url, contentType, successCallback, errorCallback)` up to its return:
when the `try` block throws, the error callback is called with the exception; otherwise the
request is in flight. -/
def executeRequestAsync {κ : Type} (P : XhrPlatform) (url contentType : String)
    (successCallback : Option (XMLHttpRequest → BackendWorld κ → BackendWorld κ))
    (errorCallback : Option (XMLHttpRequest → Js String → BackendWorld κ → BackendWorld κ))
    (w : BackendWorld κ) : BackendWorld κ :=
  match P.sendThrows url with
  | some ex =>
    match errorCallback with
    | some callback => callback { status := 0, responseText := .obj "" } (.obj ex) w
    | none => w
  | none =>
    { w with
      inFlight := w.inFlight ++
        [{ url := url, contentType := contentType, onload := successCallback.isSome,
           onerror := errorCallback.isSome }] }

/-- The handlers set by `executeRequestAsync`, run when the platform completes the request:
`onload` calls `successCallback(request)`; `onerror`, `onabort` and `ontimeout` call
`errorCallback(request)`, without a cause. -/
def executeRequestAsync.complete {κ : Type} (url contentType : String)
    (successCallback : Option (XMLHttpRequest → BackendWorld κ → BackendWorld κ))
    (errorCallback : Option (XMLHttpRequest → Js String → BackendWorld κ → BackendWorld κ))
    (event : XhrEvent) (w : BackendWorld κ) : BackendWorld κ :=
  let w1 : BackendWorld κ :=
    { w with
      inFlight := w.inFlight.erase
        { url := url, contentType := contentType, onload := successCallback.isSome,
          onerror := errorCallback.isSome } }
  match event with
  | .load request =>
    match successCallback with
    | some callback => callback request w1
    | none => w1
  | .error request | .abort request | .timeout request =>
    match errorCallback with
    | some callback => callback request .undefined w1
    | none => w1

/-- The function `success` of `loadFilterRulesBySubscriptionUrl`. -/
def loadFilterRulesBySubscriptionUrl.success {κ : Type} (url : String)
    (successCallback : List String → BackendWorld κ → BackendWorld κ)
    (errorCallback : XMLHttpRequest → Js String → BackendWorld κ → BackendWorld κ)
    (response : XMLHttpRequest) (w : BackendWorld κ) : BackendWorld κ :=
  let w1 : BackendWorld κ :=
    { w with loadingSubscriptions := w.loadingSubscriptions.filter (fun key => key != url) }
  if response.status ≠ 200 then
    errorCallback response (.obj ("wrong status code: " ++ toString response.status)) w1
  else
    let responseText :=
      String.jsTrim
        (if response.responseText.truthy then response.responseText.toStr else "")
    if responseText.length = 0 then
      errorCallback response (.obj "filter rules missing") w1
    else
      let lines := String.splitLineBreaks responseText
      match lines with
      | first :: rest =>
        if first.data.head? = some '[' then successCallback rest w1
        else successCallback lines w1
      | [] => successCallback lines w1

/-- The function `error` of `loadFilterRulesBySubscriptionUrl`. -/
def loadFilterRulesBySubscriptionUrl.error {κ : Type} (url : String)
    (errorCallback : XMLHttpRequest → Js String → BackendWorld κ → BackendWorld κ)
    (request : XMLHttpRequest) (cause : Js String) (w : BackendWorld κ) : BackendWorld κ :=
  errorCallback request cause
    { w with loadingSubscriptions := w.loadingSubscriptions.filter (fun key => key != url) }

/-- `loadFilterRulesBySubscriptionUrl(url, successCallback, errorCallback)` up to its
return. -/
def loadFilterRulesBySubscriptionUrl {κ : Type} (P : XhrPlatform) (url : String)
    (successCallback : List String → BackendWorld κ → BackendWorld κ)
    (errorCallback : XMLHttpRequest → Js String → BackendWorld κ → BackendWorld κ)
    (w : BackendWorld κ) : BackendWorld κ :=
  if url ∈ w.loadingSubscriptions then w
  else
    executeRequestAsync P url "text/plain"
      (some (loadFilterRulesBySubscriptionUrl.success url successCallback errorCallback))
      (some (loadFilterRulesBySubscriptionUrl.error url errorCallback))
      { w with loadingSubscriptions := w.loadingSubscriptions ++ [url] }

/-- The completion of the request made by
`loadFilterRulesBySubscriptionUrl(url, successCallback, errorCallback)`. -/
def loadFilterRulesBySubscriptionUrl.complete {κ : Type} (url : String)
    (successCallback : List String → BackendWorld κ → BackendWorld κ)
    (errorCallback : XMLHttpRequest → Js String → BackendWorld κ → BackendWorld κ)
    (event : XhrEvent) (w : BackendWorld κ) : BackendWorld κ :=
  executeRequestAsync.complete url "text/plain"
    (some (loadFilterRulesBySubscriptionUrl.success url successCallback errorCallback))
    (some (loadFilterRulesBySubscriptionUrl.error url errorCallback)) event w

/-! ## Example data -/

/-- The rule `@@||site.example^$document`: a whitelist rule that includes DOCUMENT. -/
def Example.documentRule : Rule :=
  { ruleText := "@@||site.example^$document", filterId := 100, whiteListRule := Js.obj true,
    checkContentTypeIncluded := fun t => t == "DOCUMENT",
    checkContentType := fun _ => true }

/-- The rule `@@||site.example^$urlblock`: a whitelist rule without DOCUMENT scope. -/
def Example.urlblockRule : Rule :=
  { ruleText := "@@||site.example^$urlblock", filterId := 100, whiteListRule := Js.obj true,
    checkContentTypeIncluded := fun t => t == "URLBLOCK",
    checkContentType := fun t => t == "URLBLOCK" }

/-- The rule `||evil.example^`: a blocking rule. -/
def Example.blockingRule : Rule :=
  { ruleText := "||evil.example^", filterId := 2, whiteListRule := Js.obj false,
    checkContentTypeIncluded := fun _ => false,
    checkContentType := fun _ => false }

/-- Whether the string `s` starts with `start` (`adguard.utils.strings.startWith`). -/
def Example.startWith (s start : String) : Bool :=
  start.data.isPrefixOf s.data

/-- A Rule Matcher holding `||evil.example^` only: it blocks every URL that starts with
`http://evil.example/`, unless the caller passes a whitelist rule as hint, which then wins. -/
def Example.findRuleForRequest (requestUrl : String) (hint : Js Rule) : Js Rule :=
  match hint with
  | .obj h => .obj h
  | _ => if Example.startWith requestUrl "http://evil.example/" then .obj Example.blockingRule else .null

/-- Collaborators over a trivial state: integration inactive, filtering enabled, no cached
frame rule, no whitelist rule, and the Rule Matcher of `Example.findRuleForRequest`. -/
def Example.collaborators : Collaborators Unit :=
  { integration_isActive := fun _ => false
    settings_isFilteringDisabled := fun _ => false
    frames_getFrameWhiteListRule := fun _ _ => .null
    frames_getFrameUrl := fun _ _ _ => .obj "http://site.example/"
    frames_getMainFrameUrl := fun _ _ => .obj "http://site.example/"
    frames_isTabAdguardDetected := fun _ _ => false
    frames_isIncognitoTab := fun _ _ => false
    frames_getFrameDomain := fun _ _ => .obj "site.example"
    requestFilter_findWhiteListRule := fun _ _ _ _ => .null
    requestFilter_findRuleForRequest := fun _ url _ _ hint => Example.findRuleForRequest url hint
    utils_url_isHttpRequest := fun url =>
      Example.startWith url "http://" || Example.startWith url "https://"
    utils_filters_isUserFilterRule := fun r => r.filterId == 0
    utils_filters_isWhiteListFilterRule := fun r => r.filterId == 100
    exec := fun s _ => s
    requestFilter_isReady := fun _ => true
    requestFilter_shouldCollapseAllElements := fun _ => false
    requestFilter_getSelectorsForUrl := fun _ _ _ =>
      { css := .obj ["#ad", ".banner"], extendedCss := .obj [] }
    requestFilter_getInjectedSelectorsForUrl := fun _ _ _ =>
      { css := .obj ["#ad"], extendedCss := .obj [] }
    requestFilter_getScriptsForUrl := fun _ _ => .obj ["window.adsbygoogle = 0"]
    frames_isTabWhiteListed := fun _ _ => false
    frames_isTabProtectionDisabled := fun _ _ => false
    frames_isTabWhiteListedForSafebrowsing := fun _ _ => false
    settings_collectHitsCount := fun _ => false
    prefs_useGlobalStyleSheet := fun _ => false
    isModuleSupported := fun _ => true
    utils_browser_isFirefoxBrowser := true
    utils_browser_isContentBlockerEnabled := false
    utils_browser_isShadowDomSupported := false
    utils_browser_getSafebrowsingBackUrl := fun _ _ => .obj "about:blank"
    utils_url_getDomainName := fun url =>
      match url with
      | .obj "http://site.example/" => .obj "site.example"
      | .obj "http://tracker.example/" => .obj "tracker.example"
      | _ => .null }

/-- The collaborators of `Example.collaborators`, with a rule cached on the frame. -/
def Example.withCachedRule (r : Rule) : Collaborators Unit :=
  { Example.collaborators with frames_getFrameWhiteListRule := fun _ _ => .obj r }

/-- The collaborators of `Example.collaborators`, with filtering globally disabled. -/
def Example.filteringDisabled : Collaborators Unit :=
  { Example.collaborators with settings_isFilteringDisabled := fun _ => true }

/-- A tab. -/
def Example.tab : Js Tab := .obj { tabId := 1 }

/-- The world at the start of an example run: nothing logged yet. -/
def Example.world : World Unit := { ext := (), calls := [] }

/-- A request for a script of `evil.example` from a page of `site.example`. -/
def Example.scriptRequest : RequestDetails :=
  { tab := Example.tab, requestUrl := "http://evil.example/ad.js",
    requestType := RequestType.SCRIPT, frameId := .obj 0, requestFrameId := .obj 0,
    referrerUrl := .obj "http://site.example/" }

/-- A navigation to `http://evil.example/`. -/
def Example.documentRequest : RequestDetails :=
  { tab := Example.tab, requestUrl := "http://evil.example/",
    requestType := RequestType.DOCUMENT, frameId := .obj 0, requestFrameId := .obj 0,
    referrerUrl := .null }

/-- The entry that the example converter makes of a rule: its text, marked. -/
def Example.toEntry : RuleItem → Entry
  | .rule ruleText => "entry:" ++ ruleText
  | .text t => "entry:" ++ t

/-- A Safari environment: filtering enabled, inverted whitelist mode with the domains `a.com`
and `b.com`, two rules in the request filter, and the converter modelled from the spec. -/
def Example.safariEnv : SafariEnv :=
  { isFilteringDisabled := false
    isDefaultWhiteListMode := false
    requestFilterRules := [RuleItem.rule "||evil.example^", RuleItem.rule "||ads.example^"]
    whiteListRules := [RuleItem.rule "@@//a.com^$document", RuleItem.rule "@@//b.com^$document"]
    whiteList := .obj ["a.com", "b.com"]
    convertArray := SafariContentBlockerConverter.convertArray Example.toEntry
    emptyBlockerFile := .array ["ignore-previous-rules"] }

/-- The environment of `Example.safariEnv`, with filtering globally disabled. -/
def Example.safariDisabled : SafariEnv :=
  { Example.safariEnv with isFilteringDisabled := true }

/-- The environment of `Example.safariEnv`, with a converter whose `converted` string is not
JSON. -/
def Example.safariMalformed : SafariEnv :=
  { Example.safariEnv with
    convertArray := fun _ _ =>
      .obj { converted := .obj (.malformed "[oops"), overLimit := false } }

/-- The environment of `Example.safariEnv`, with a converter that returns `null`. -/
def Example.safariNoResult : SafariEnv :=
  { Example.safariEnv with convertArray := fun _ _ => .null }

/-- The rule `@@||site.example^$elemhide`: a whitelist rule that excepts ELEMHIDE only. -/
def Example.elemhideRule : Rule :=
  { ruleText := "@@||site.example^$elemhide", filterId := 100, whiteListRule := Js.obj true,
    checkContentTypeIncluded := fun t => t == "ELEMHIDE",
    checkContentType := fun t => t == "ELEMHIDE" }

/-- The rule `$websocket`: a blocking rule for every websocket. -/
def Example.websocketRule : Rule :=
  { ruleText := "$websocket", filterId := 2, whiteListRule := Js.obj false,
    checkContentTypeIncluded := fun _ => false,
    checkContentType := fun _ => false }

/-- The collaborators of `Example.collaborators`, with a Rule Matcher that blocks every
websocket and a frame at `http://tracker.example/`. -/
def Example.websocketBlocker : Collaborators Unit :=
  { Example.collaborators with
    frames_getFrameUrl := fun _ _ _ => .obj "http://tracker.example/"
    requestFilter_findRuleForRequest := fun _ _ _ requestType _ =>
      if requestType = RequestType.WEBSOCKET then .obj Example.websocketRule else .null }

/-- The collaborators of `Example.collaborators`, with a Rule Matcher that blocks the websocket
`ws://adguardwebsocket.check/tracker.example` and nothing else; the frame 1 of a tab shows
`http://tracker.example/`, every other frame `http://site.example/`. -/
def Example.trackerProbeBlocker : Collaborators Unit :=
  { Example.collaborators with
    frames_getFrameUrl := fun _ _ frameId =>
      if frameId = Js.obj 1 then .obj "http://tracker.example/" else .obj "http://site.example/"
    requestFilter_findRuleForRequest := fun _ url _ requestType _ =>
      if requestType = RequestType.WEBSOCKET ∧
          url = "ws://adguardwebsocket.check/tracker.example" then
        .obj Example.websocketRule
      else .null }

/-- The collaborators of `Example.collaborators`, with integration active and a Rule Matcher
that has not finished loading. -/
def Example.notReadyIntegration : Collaborators Unit :=
  { Example.collaborators with
    integration_isActive := fun _ => true
    requestFilter_isReady := fun _ => false }

/-- The collaborators of `Example.collaborators`, with integration active. -/
def Example.integrationActive : Collaborators Unit :=
  { Example.collaborators with integration_isActive := fun _ => true }

/-- The collaborators of `Example.collaborators` (Firefox), with the collection of hit
statistics switched on. -/
def Example.firefoxCollectingHits : Collaborators Unit :=
  { Example.collaborators with settings_collectHitsCount := fun _ => true }

/-- The response of a frame of `tracker.example`, with two headers. -/
def Example.subdocumentResponse : RequestDetails :=
  { tab := Example.tab, requestUrl := "http://tracker.example/frame.html",
    requestType := RequestType.SUBDOCUMENT, frameId := .obj 1, requestFrameId := .obj 0,
    referrerUrl := .obj "http://site.example/",
    responseHeaders := [{ name := "Content-Type", value := "text/html" },
      { name := "Content-Security-Policy", value := "default-src https:" }] }

/-- The response of a frame of `site.example`, the frame 0 of the tab. -/
def Example.siteSubdocumentResponse : RequestDetails :=
  { tab := Example.tab, requestUrl := "http://site.example/frame.html",
    requestType := RequestType.SUBDOCUMENT, frameId := .obj 0, requestFrameId := .obj 0,
    referrerUrl := .obj "http://site.example/",
    responseHeaders := [{ name := "Content-Type", value := "text/html" }] }

/-- Two collapse requests of a page: an image of `evil.example` and an image of the page. -/
def Example.collapseRequests : List CollapseRequest :=
  [{ elementUrl := "http://evil.example/banner.png", requestType := RequestType.IMAGE,
     requestId := 7, collapse := .undefined },
   { elementUrl := "http://site.example/logo.png", requestType := RequestType.IMAGE,
     requestId := 8, collapse := .undefined }]

/-- The rule `@@||cdn.example^` of a subscribed filter list (filter 2): an exception rule. -/
def Example.exceptionRule : Rule :=
  { ruleText := "@@||cdn.example^", filterId := 2, whiteListRule := Js.obj true,
    checkContentTypeIncluded := fun _ => false,
    checkContentType := fun _ => false }

/-- The response of the navigation to `http://site.example/`. -/
def Example.documentResponse : RequestDetails :=
  { tab := Example.tab, requestUrl := "http://site.example/",
    requestType := RequestType.DOCUMENT, frameId := .obj 0, requestFrameId := .obj 0,
    referrerUrl := .null }

/-- The rule `@@||site.example^$generichide`. -/
def Example.genericHideRule : Rule :=
  { ruleText := "@@||site.example^$generichide", filterId := 100, whiteListRule := Js.obj true,
    checkContentTypeIncluded := fun t => t == "GENERICHIDE",
    checkContentType := fun t => t == "GENERICHIDE" }

/-- A tab registry: the frame record of each tab, and the metadata entries, newest first. -/
structure Example.TabsState where
  frames : List (Nat × Frame)
  metadata : List (Nat × String × Verdict)

/-- The newest metadata entry of a tab under a key, `undefined` when there is none. -/
def Example.lookupMetadata (tabId : Nat) (key : String) :
    List (Nat × String × Verdict) → Js Verdict
  | [] => .undefined
  | (t, k, v) :: rest =>
    if t = tabId ∧ k = key then .obj v else Example.lookupMetadata tabId key rest

/-- The frame record of a tab, `undefined` when there is none. -/
def Example.lookupFrame (tabId : Nat) : List (Nat × Frame) → Js Frame
  | [] => .undefined
  | (t, f) :: rest => if t = tabId then .obj f else Example.lookupFrame tabId rest

/-- A tab registry that keeps its metadata as a key-value store, and a Rule Matcher holding the
exception rules `@@||site.example^$elemhide` and `@@||site.example^$generichide`. -/
def Example.tabsService : TabsService Example.TabsState :=
  { getTabMetadata := fun s tabId key => Example.lookupMetadata tabId key s.metadata
    getTabFrame := fun s tabId => Example.lookupFrame tabId s.frames
    updateTabMetadata := fun s tabId key value =>
      { s with metadata := (tabId, key, value) :: s.metadata }
    findWhiteListRule := fun url _ contentType =>
      if Example.startWith url "http://site.example/" then
        if contentType = "ELEMHIDE" then .obj Example.elemhideRule
        else if contentType = "GENERICHIDE" then .obj Example.genericHideRule
        else .null
      else .null }

/-- Tab 1 shows `http://site.example/`, tab 2 shows `http://other.example/`; no verdict is
cached. -/
def Example.freshTabs : ElemHideWorld Example.TabsState :=
  { tabs :=
      { frames := [(1, { url := "http://site.example/" }), (2, { url := "http://other.example/" })],
        metadata := [] },
    calls := [] }

/-- The style sheet of the element hiding rules, a file in the profile directory. -/
def Example.sheetUri : Uri :=
  { spec := "file:///profile/adguard/elemhide.css", path := "/profile/adguard/elemhide.css",
    file := .obj { path := "/profile/adguard/elemhide.css" } }

/-- A platform with the given files on disk: a sheet backed by a file loads when the file
exists, any other sheet loads. -/
def Example.stylePlatform (files : List String) : StylePlatform :=
  { fileExists := fun f => decide (f.path ∈ files)
    canLoad := fun u =>
      match u.file with
      | .obj f => decide (f.path ∈ files)
      | _ => true }

/-- No sheet registered, no unload hook, nothing logged. -/
def Example.noSheets : StyleWorld := { registered := [], unloadHooks := [], calls := [] }

/-- A case-insensitive substring test, standing for `utils.strings.containsIgnoreCase`. -/
def Example.containsIgnoreCase (str searchString : String) : Bool :=
  (str.data.map Char.toLower).tails.any
    (fun rest => (searchString.data.map Char.toLower).isPrefixOf rest)

/-- Four user rules. -/
def Example.userRules : List String :=
  ["||Ads.example^", "||cdn.example^", "@@||ADS.example^$document", "##.ads"]

/-- The URL of a subscription. -/
def Example.subscriptionUrl : String := "https://lists.example/ads.txt"

/-- A success callback that records the rules it is given and whether the URL of the
subscription was still among the loading ones when it ran. -/
def Example.recordRules (lines : List String)
    (w : BackendWorld (List (String × List String × Bool))) :
    BackendWorld (List (String × List String × Bool)) :=
  { w with
    caller := w.caller ++
      [("success", lines, decide (Example.subscriptionUrl ∈ w.loadingSubscriptions))] }

/-- An error callback that records the cause it is given and whether the URL of the
subscription was still among the loading ones when it ran. -/
def Example.recordError (_request : XMLHttpRequest) (cause : Js String)
    (w : BackendWorld (List (String × List String × Bool))) :
    BackendWorld (List (String × List String × Bool)) :=
  { w with
    caller := w.caller ++
      [("error", [cause.toStr], decide (Example.subscriptionUrl ∈ w.loadingSubscriptions))] }

/-- Nothing is loading, no request is in flight, no callback has run. -/
def Example.idleBackend : BackendWorld (List (String × List String × Bool)) :=
  { loadingSubscriptions := [], inFlight := [], caller := [] }

/-- A platform on which no request throws while it is sent. -/
def Example.xhrPlatform : XhrPlatform := { sendThrows := fun _ => none }

/-- A platform on which every request throws while it is sent. -/
def Example.xhrOffline : XhrPlatform := { sendThrows := fun _ => some "NS_ERROR_FAILURE" }

/-! ## Theorems: the request decision engine -/

/-- C3: for every rule value (null, undefined or a rule object), `isRequestBlockedByRule` is
truthy exactly when the rule exists and its `whiteListRule` property is falsy. -/
theorem isRequestBlockedByRule_truthy_iff (requestRule : Js Rule) :
    (isRequestBlockedByRule requestRule).truthy = true ↔
      ∃ r : Rule, requestRule = Js.obj r ∧ r.whiteListRule.truthy = false := by
  cases requestRule with
  | null => simp [isRequestBlockedByRule, Js.truthy]
  | undefined => simp [isRequestBlockedByRule, Js.truthy]
  | obj r => simp [isRequestBlockedByRule, Js.truthy, JsTruthy.truthy]

/-- C1: with integration inactive and filtering enabled, when the frame of the tab carries a
cached whitelist rule `r` that includes DOCUMENT, `getRuleForRequest` returns exactly `r` for
every request URL, referrer and request type; the only collaborator calls it makes are the two
guards and the read of the cached rule, so the Rule Matcher is not called; and the verdict is
not blocked when `r` is a whitelist rule. -/
theorem getRuleForRequest_cached_document_rule {σ : Type} (A : Collaborators σ) (w : World σ)
    (tab : Js Tab) (requestUrl : String) (referrerUrl : Js String) (requestType : RequestType)
    (r : Rule)
    (hint : A.integration_isActive w.ext = false)
    (hfil : A.settings_isFilteringDisabled w.ext = false)
    (hcache : A.frames_getFrameWhiteListRule w.ext tab = Js.obj r)
    (hdoc : r.checkContentTypeIncluded "DOCUMENT" = true) :
    (getRuleForRequest A tab requestUrl referrerUrl requestType w).1 = Js.obj r ∧
    (getRuleForRequest A tab requestUrl referrerUrl requestType w).2.calls =
      w.calls ++ [Call.integration_isActive, Call.settings_isFilteringDisabled,
        Call.frames_getFrameWhiteListRule tab] ∧
    (getRuleForRequest A tab requestUrl referrerUrl requestType w).2.requestFilterCalls =
      w.requestFilterCalls ∧
    (getRuleForRequest A tab requestUrl referrerUrl requestType w).2.ext = w.ext ∧
    (r.whiteListRule.truthy = true →
      (isRequestBlockedByRule
        (getRuleForRequest A tab requestUrl referrerUrl requestType w).1).truthy = false) := by
  have h : getRuleForRequest A tab requestUrl referrerUrl requestType w =
      (Js.obj r, ((w.query Call.integration_isActive).query
        Call.settings_isFilteringDisabled).query (Call.frames_getFrameWhiteListRule tab)) := by
    simp [getRuleForRequest, World.query, hint, hfil, hcache, hdoc]
  rw [h]
  refine ⟨rfl, ?_, ?_, rfl, ?_⟩
  · simp [World.query]
  · simp [World.query, World.requestFilterCalls, Call.isRequestFilterCall]
  · intro hw
    simp [isRequestBlockedByRule, Js.truthy, JsTruthy.truthy] at hw ⊢
    exact hw

/-- Witness of C1: the page `site.example` is whitelisted by a cached `$document` rule; the
request for `http://evil.example/ad.js` gets that rule and is not blocked. -/
theorem getRuleForRequest_cached_document_rule_witness :
    (getRuleForRequest (Example.withCachedRule Example.documentRule) Example.tab
      "http://evil.example/ad.js" (Js.obj "http://site.example/") RequestType.SCRIPT
      Example.world).1 = Js.obj Example.documentRule ∧
    (getRuleForRequest (Example.withCachedRule Example.documentRule) Example.tab
      "http://evil.example/ad.js" (Js.obj "http://site.example/") RequestType.SCRIPT
      Example.world).2.requestFilterCalls = [] :=
  have h := getRuleForRequest_cached_document_rule (Example.withCachedRule Example.documentRule)
    Example.world Example.tab "http://evil.example/ad.js" (Js.obj "http://site.example/")
    RequestType.SCRIPT Example.documentRule rfl rfl rfl rfl
  ⟨h.1, h.2.2.1⟩

/-- C2, as stated, fails: the frame carries the cached rule `@@||site.example^$urlblock`, which
has no DOCUMENT scope.  `getRuleForRequest` hands that cached rule to the Rule Matcher as the
hint and gets it back, whereas `findRuleForRequest` with the hint
`findWhiteListRule(requestUrl, referrerUrl, DOCUMENT)` (which is null) is the blocking rule. -/
theorem getRuleForRequest_cached_rule_without_document_counterexample :
    (Example.withCachedRule Example.urlblockRule).integration_isActive Example.world.ext = false ∧
    (Example.withCachedRule Example.urlblockRule).settings_isFilteringDisabled
      Example.world.ext = false ∧
    (Example.withCachedRule Example.urlblockRule).frames_getFrameWhiteListRule
      Example.world.ext Example.tab = Js.obj Example.urlblockRule ∧
    Example.urlblockRule.checkContentTypeIncluded "DOCUMENT" = false ∧
    (getRuleForRequest (Example.withCachedRule Example.urlblockRule) Example.tab
      "http://evil.example/ad.js" (Js.obj "http://site.example/") RequestType.SCRIPT
      Example.world).1 = Js.obj Example.urlblockRule ∧
    (Example.withCachedRule Example.urlblockRule).requestFilter_findRuleForRequest
      Example.world.ext "http://evil.example/ad.js" (Js.obj "http://site.example/")
      RequestType.SCRIPT
      ((Example.withCachedRule Example.urlblockRule).requestFilter_findWhiteListRule
        Example.world.ext "http://evil.example/ad.js" (Js.obj "http://site.example/")
        RequestType.DOCUMENT) = Js.obj Example.blockingRule ∧
    Example.urlblockRule.ruleText ≠ Example.blockingRule.ruleText := by
  refine ⟨rfl, rfl, rfl, by decide, ?_, ?_, by decide⟩
  · simp [getRuleForRequest, World.query, Example.withCachedRule, Example.collaborators,
      Example.world, Example.urlblockRule, Example.findRuleForRequest]
  · simp [Example.withCachedRule, Example.collaborators, Example.findRuleForRequest]
    decide

/-- C2, amended: with integration inactive and filtering enabled, when the frame carries no
cached whitelist rule, `getRuleForRequest` is `findRuleForRequest` with the hint
`findWhiteListRule(requestUrl, referrerUrl, DOCUMENT)`; when the frame carries a cached rule
without DOCUMENT scope, it is `findRuleForRequest` with that cached rule as the hint, and
`findWhiteListRule` is not called. -/
theorem getRuleForRequest_delegates_to_rule_matcher {σ : Type} (A : Collaborators σ)
    (w : World σ) (tab : Js Tab) (requestUrl : String) (referrerUrl : Js String)
    (requestType : RequestType)
    (hint : A.integration_isActive w.ext = false)
    (hfil : A.settings_isFilteringDisabled w.ext = false) :
    ((A.frames_getFrameWhiteListRule w.ext tab).truthy = false →
      (getRuleForRequest A tab requestUrl referrerUrl requestType w).1 =
        A.requestFilter_findRuleForRequest w.ext requestUrl referrerUrl requestType
          (A.requestFilter_findWhiteListRule w.ext requestUrl referrerUrl
            RequestType.DOCUMENT) ∧
      (getRuleForRequest A tab requestUrl referrerUrl requestType w).2.calls =
        w.calls ++ [Call.integration_isActive, Call.settings_isFilteringDisabled,
          Call.frames_getFrameWhiteListRule tab,
          Call.requestFilter_findWhiteListRule requestUrl referrerUrl RequestType.DOCUMENT,
          Call.requestFilter_findRuleForRequest requestUrl referrerUrl requestType
            (A.requestFilter_findWhiteListRule w.ext requestUrl referrerUrl
              RequestType.DOCUMENT)]) ∧
    (∀ r : Rule, A.frames_getFrameWhiteListRule w.ext tab = Js.obj r →
      r.checkContentTypeIncluded "DOCUMENT" = false →
      (getRuleForRequest A tab requestUrl referrerUrl requestType w).1 =
        A.requestFilter_findRuleForRequest w.ext requestUrl referrerUrl requestType
          (Js.obj r) ∧
      (getRuleForRequest A tab requestUrl referrerUrl requestType w).2.calls =
        w.calls ++ [Call.integration_isActive, Call.settings_isFilteringDisabled,
          Call.frames_getFrameWhiteListRule tab,
          Call.requestFilter_findRuleForRequest requestUrl referrerUrl requestType
            (Js.obj r)]) := by
  constructor
  · intro hno
    cases hc : A.frames_getFrameWhiteListRule w.ext tab with
    | null => simp [getRuleForRequest, World.query, hint, hfil, hc]
    | undefined => simp [getRuleForRequest, World.query, hint, hfil, hc]
    | obj r => simp [hc, Js.truthy, JsTruthy.truthy] at hno
  · intro r hc hdoc
    simp [getRuleForRequest, World.query, hint, hfil, hc, hdoc]

/-- Witness of the amended C2, in both of its cases: without a cached rule the script of
`evil.example` gets the blocking rule; with the cached `$urlblock` rule it gets that rule. -/
theorem getRuleForRequest_delegates_to_rule_matcher_witness :
    (getRuleForRequest Example.collaborators Example.tab "http://evil.example/ad.js"
      (Js.obj "http://site.example/") RequestType.SCRIPT Example.world).1 =
      Js.obj Example.blockingRule ∧
    (getRuleForRequest (Example.withCachedRule Example.urlblockRule) Example.tab
      "http://evil.example/ad.js" (Js.obj "http://site.example/") RequestType.SCRIPT
      Example.world).1 = Js.obj Example.urlblockRule :=
  ⟨((getRuleForRequest_delegates_to_rule_matcher Example.collaborators Example.world
      Example.tab "http://evil.example/ad.js" (Js.obj "http://site.example/")
      RequestType.SCRIPT rfl rfl).1 rfl).1.trans (by
        simp [Example.collaborators, Example.findRuleForRequest]; decide),
   ((getRuleForRequest_delegates_to_rule_matcher (Example.withCachedRule Example.urlblockRule)
      Example.world Example.tab "http://evil.example/ad.js" (Js.obj "http://site.example/")
      RequestType.SCRIPT rfl rfl).2 Example.urlblockRule rfl (by decide)).1⟩

/-- C6: when integration is active or filtering is disabled, `getRuleForRequest` returns `null`
for every tab, URL, referrer and request type; it reads neither the frame record nor the Rule
Matcher, leaves the collaborator state as it is, and the verdict is not blocked. -/
theorem getRuleForRequest_disabled {σ : Type} (A : Collaborators σ) (w : World σ)
    (tab : Js Tab) (requestUrl : String) (referrerUrl : Js String) (requestType : RequestType)
    (hoff : A.integration_isActive w.ext = true ∨ A.settings_isFilteringDisabled w.ext = true) :
    (getRuleForRequest A tab requestUrl referrerUrl requestType w).1 = Js.null ∧
    (getRuleForRequest A tab requestUrl referrerUrl requestType w).2.frameReads =
      w.frameReads ∧
    (getRuleForRequest A tab requestUrl referrerUrl requestType w).2.requestFilterCalls =
      w.requestFilterCalls ∧
    (getRuleForRequest A tab requestUrl referrerUrl requestType w).2.ext = w.ext ∧
    (isRequestBlockedByRule
      (getRuleForRequest A tab requestUrl referrerUrl requestType w).1).truthy = false := by
  by_cases hint : A.integration_isActive w.ext = true
  · have h : getRuleForRequest A tab requestUrl referrerUrl requestType w =
        (Js.null, w.query Call.integration_isActive) := by
      simp [getRuleForRequest, World.query, hint]
    rw [h]
    simp [World.query, World.frameReads, World.requestFilterCalls, Call.isFrameRead,
      Call.isRequestFilterCall, isRequestBlockedByRule, Js.truthy]
  · have hfil : A.settings_isFilteringDisabled w.ext = true := by
      rcases hoff with h | h
      · exact absurd h hint
      · exact h
    have h : getRuleForRequest A tab requestUrl referrerUrl requestType w =
        (Js.null, (w.query Call.integration_isActive).query
          Call.settings_isFilteringDisabled) := by
      simp [getRuleForRequest, World.query, hint, hfil]
    rw [h]
    simp [World.query, World.frameReads, World.requestFilterCalls, Call.isFrameRead,
      Call.isRequestFilterCall, isRequestBlockedByRule, Js.truthy]

/-- Witness of C6: with filtering disabled the script of `evil.example`, which the Rule Matcher
would block, gets no rule and the Rule Matcher is not called. -/
theorem getRuleForRequest_disabled_witness :
    (getRuleForRequest Example.filteringDisabled Example.tab "http://evil.example/ad.js"
      (Js.obj "http://site.example/") RequestType.SCRIPT Example.world).1 = Js.null ∧
    (getRuleForRequest Example.filteringDisabled Example.tab "http://evil.example/ad.js"
      (Js.obj "http://site.example/") RequestType.SCRIPT Example.world).2.requestFilterCalls
      = [] :=
  have h := getRuleForRequest_disabled Example.filteringDisabled Example.world Example.tab
    "http://evil.example/ad.js" (Js.obj "http://site.example/") RequestType.SCRIPT
    (Or.inr rfl)
  ⟨h.1, h.2.2.1⟩

/-- C4, as stated, fails: the decision engine has no guard for DOCUMENT.  For the navigation to
`http://evil.example/`, with the Rule Matcher holding `||evil.example^`, `getRuleForRequest`
followed by `isRequestBlockedByRule` yields blocked. -/
theorem decision_engine_blocks_document_counterexample :
    (isRequestBlockedByRule
      (getRuleForRequest Example.collaborators Example.tab "http://evil.example/"
        (Js.obj "http://site.example/") RequestType.DOCUMENT Example.world).1).truthy = true := by
  have h : (getRuleForRequest Example.collaborators Example.tab "http://evil.example/"
      (Js.obj "http://site.example/") RequestType.DOCUMENT Example.world).1 =
      Js.obj Example.blockingRule := by
    simp [getRuleForRequest, World.query, Example.collaborators, Example.world,
      Example.findRuleForRequest]
    decide
  rw [h]
  rfl

/-- C4, amended: for every request with requestType = DOCUMENT, whatever the rule set, the
referrer and the tab state, `onBeforeRequest` never yields blocked: it returns `true`, and it
does so without calling the Rule Matcher. -/
theorem onBeforeRequest_document_never_blocked {σ : Type} (A : Collaborators σ)
    (d : RequestDetails) (w : World σ) (hdoc : d.requestType = RequestType.DOCUMENT) :
    (onBeforeRequest A d w).1 = true ∧
    (onBeforeRequest A d w).2.requestFilterCalls = w.requestFilterCalls := by
  have h : onBeforeRequest A d w =
      (true, (onBeforeRequest.pre A d w).command A
        (Call.listeners_notifyListeners_UPDATE_TAB_BUTTON_STATE d.tab true)) := by
    simp [onBeforeRequest, onBeforeRequest.pre, hdoc]
  rw [h]
  refine ⟨rfl, ?_⟩
  simp only [onBeforeRequest.pre, onBeforeRequest.checkIntegration,
    onBeforeRequest.recordFrame, hdoc]
  by_cases hdet : A.frames_isTabAdguardDetected
      (A.exec w.ext (Call.frames_recordFrame d.tab d.frameId d.requestUrl
        RequestType.DOCUMENT)) d.tab = true <;>
    simp [World.command, World.query, World.requestFilterCalls, Call.isRequestFilterCall, hdet]

/-- Witness of the amended C4: the navigation to `http://evil.example/`, which the decision
engine alone would block, is let through by `onBeforeRequest`. -/
theorem onBeforeRequest_document_never_blocked_witness :
    (onBeforeRequest Example.collaborators Example.documentRequest Example.world).1 = true :=
  (onBeforeRequest_document_never_blocked Example.collaborators Example.documentRequest
    Example.world rfl).1

/-- C5: `onBeforeRequest` returns `false` exactly when the request type is not DOCUMENT, the URL
is an HTTP(S) URL, and the rule that `getRuleForRequest` returns for the request (with the
referrer of `getReferrerUrl`) is blocking.  It returns `true` for every DOCUMENT request, every
URL that is not HTTP(S) and every request whose rule is absent or a whitelist rule.  A DOCUMENT
request only refreshes the frame record, probes the cooperating application and resets the tab
button; a request that is not HTTP(S) only refreshes the frame record (SUBDOCUMENT) or does
nothing: in both cases no call of `getRuleForRequest` or `postProcessRequest` is made. -/
theorem onBeforeRequest_blocks_iff {σ : Type} (A : Collaborators σ) (d : RequestDetails)
    (w : World σ) :
    ((onBeforeRequest A d w).1 = false ↔
      d.requestType ≠ RequestType.DOCUMENT ∧ A.utils_url_isHttpRequest d.requestUrl = true ∧
      (isRequestBlockedByRule
        (getRuleForRequest A d.tab d.requestUrl
          (getReferrerUrl A d (onBeforeRequest.pre A d w)).1 d.requestType
          (getReferrerUrl A d (onBeforeRequest.pre A d w)).2).1).truthy = true) ∧
    (d.requestType = RequestType.DOCUMENT →
      onBeforeRequest A d w =
        (true, (onBeforeRequest.pre A d w).command A
          (Call.listeners_notifyListeners_UPDATE_TAB_BUTTON_STATE d.tab true)) ∧
      (onBeforeRequest.pre A d w).calls =
        w.calls ++ [Call.frames_recordFrame d.tab d.frameId d.requestUrl RequestType.DOCUMENT,
          Call.frames_isTabAdguardDetected d.tab] ++
          (if A.frames_isTabAdguardDetected
              (A.exec w.ext (Call.frames_recordFrame d.tab d.frameId d.requestUrl
                RequestType.DOCUMENT)) d.tab
            then [Call.integration_checkTabWhiteListRule d.tab d.requestUrl] else [])) ∧
    (d.requestType ≠ RequestType.DOCUMENT → A.utils_url_isHttpRequest d.requestUrl = false →
      (onBeforeRequest A d w).1 = true ∧
      (onBeforeRequest A d w).2.calls =
        w.calls ++ (if d.requestType = RequestType.SUBDOCUMENT
          then [Call.frames_recordFrame d.tab d.frameId d.requestUrl RequestType.SUBDOCUMENT]
          else [])) ∧
    ((isRequestBlockedByRule
        (getRuleForRequest A d.tab d.requestUrl
          (getReferrerUrl A d (onBeforeRequest.pre A d w)).1 d.requestType
          (getReferrerUrl A d (onBeforeRequest.pre A d w)).2).1).truthy = false →
      (onBeforeRequest A d w).1 = true) := by
  refine ⟨?_, ?_, ?_, ?_⟩
  · by_cases hdoc : d.requestType = RequestType.DOCUMENT
    · simp [onBeforeRequest, hdoc]
    · by_cases hhttp : A.utils_url_isHttpRequest d.requestUrl = true
      · simp [onBeforeRequest, onBeforeRequest.pre, hdoc, hhttp]
      · simp [onBeforeRequest, hdoc, hhttp]
  · intro hdoc
    refine ⟨by simp [onBeforeRequest, onBeforeRequest.pre, hdoc], ?_⟩
    simp only [onBeforeRequest.pre, onBeforeRequest.checkIntegration,
      onBeforeRequest.recordFrame, hdoc]
    by_cases hdet : A.frames_isTabAdguardDetected
        (A.exec w.ext (Call.frames_recordFrame d.tab d.frameId d.requestUrl
          RequestType.DOCUMENT)) d.tab = true <;>
      simp [World.command, World.query, hdet]
  · intro hdoc hhttp
    by_cases hsub : d.requestType = RequestType.SUBDOCUMENT
    · simp [onBeforeRequest, onBeforeRequest.checkIntegration, onBeforeRequest.recordFrame,
        hhttp, hsub, World.command]
    · simp [onBeforeRequest, onBeforeRequest.checkIntegration, onBeforeRequest.recordFrame,
        hdoc, hhttp, hsub]
  · intro hfree
    by_cases hdoc : d.requestType = RequestType.DOCUMENT
    · simp [onBeforeRequest, hdoc]
    · by_cases hhttp : A.utils_url_isHttpRequest d.requestUrl = true
      · simp [onBeforeRequest, onBeforeRequest.pre, hdoc, hhttp] at hfree ⊢
        exact hfree
      · simp [onBeforeRequest, hdoc, hhttp]

/-- Witness of C5: the script `http://evil.example/ad.js` requested by a page of `site.example`
is blocked by `onBeforeRequest`, and the navigation to `http://evil.example/` is let through
after three collaborator calls, none of them to the decision engine. -/
theorem onBeforeRequest_blocks_iff_witness :
    (onBeforeRequest Example.collaborators Example.scriptRequest Example.world).1 = false ∧
    (onBeforeRequest Example.collaborators Example.documentRequest Example.world).2.calls =
      [Call.frames_recordFrame Example.tab (Js.obj 0) "http://evil.example/"
          RequestType.DOCUMENT,
        Call.frames_isTabAdguardDetected Example.tab,
        Call.listeners_notifyListeners_UPDATE_TAB_BUTTON_STATE Example.tab true] :=
  ⟨(onBeforeRequest_blocks_iff Example.collaborators Example.scriptRequest Example.world).1.mpr
      ⟨by decide, by decide, by
        simp [getRuleForRequest, getReferrerUrl, World.query, Example.collaborators,
          Example.scriptRequest, Example.findRuleForRequest, Js.truthy, JsTruthy.truthy,
          isRequestBlockedByRule]
        have hp : Example.startWith "http://evil.example/ad.js" "http://evil.example/" = true := by
          decide
        simp [hp, Example.blockingRule, isRequestBlockedByRule, Js.truthy, JsTruthy.truthy]⟩,
    by
      have h := ((onBeforeRequest_blocks_iff Example.collaborators Example.documentRequest
        Example.world).2.1 rfl)
      rw [h.1]
      simp only [World.command]
      rw [h.2]
      rfl⟩

/-! ## Theorems: the Safari content blocker -/

section SafariLemmas

open SafariContentBlocker

theorem SafariWorld.installs_log (s : SafariWorld) (c : SafariCall) :
    (s.log c).installs = s.installs ++ c.installed.toList := by
  cases h : c.installed <;> simp [SafariWorld.log, SafariWorld.installs, List.filterMap_append, h]

theorem SafariWorld.updates_log (s : SafariWorld) (c : SafariCall) :
    (s.log c).updates = s.updates ++ c.updated.toList := by
  cases h : c.updated <;> simp [SafariWorld.log, SafariWorld.updates, List.filterMap_append, h]

theorem SafariWorld.ruleReads_log (s : SafariWorld) (c : SafariCall) :
    (s.log c).ruleReads = s.ruleReads ++ (if c.readsOrConvertsRules then [c] else []) := by
  cases h : c.readsOrConvertsRules <;>
    simp [SafariWorld.log, SafariWorld.ruleReads, List.filter_append, h]

/-- With the dirty flag of the object set, `_setSafariContentBlocker` calls the platform once
and leaves the object as it was: the flag that it clears is the one of the global object. -/
theorem setSafariContentBlocker_of_dirty (json : List Entry) (s : SafariWorld)
    (hdirty : s.blocker.contentBlockListDirty = true) :
    _setSafariContentBlocker json s =
      { blocker := s.blocker, globalContentBlockListDirty := Js.obj false,
        calls := s.calls ++
          [SafariCall.Log_info ("Setting content blocker. Length=" ++ toString json.length),
           SafariCall.safari_extension_setContentBlocker json,
           SafariCall.Log_info "Content blocker has been set."] } := by
  simp [_setSafariContentBlocker, SafariWorld.log, hdirty]

/-- Whatever the flag, `_setSafariContentBlocker` does not touch the object. -/
theorem setSafariContentBlocker_blocker (json : List Entry) (s : SafariWorld) :
    (_setSafariContentBlocker json s).blocker = s.blocker := by
  unfold _setSafariContentBlocker
  by_cases h : s.blocker.contentBlockListDirty = true <;> simp [SafariWorld.log, h]

/-- The world after `_loadAndConvertRules`: only the log has grown, by calls that are neither
installs nor notifications. -/
theorem loadAndConvertRules_world (E : SafariEnv) (rulesLimit : Nat) (s : SafariWorld) :
    (_loadAndConvertRules E rulesLimit s).2.blocker = s.blocker ∧
    (_loadAndConvertRules E rulesLimit s).2.installs = s.installs ∧
    (_loadAndConvertRules E rulesLimit s).2.updates = s.updates := by
  unfold _loadAndConvertRules _loadAndConvertRules.rules
    SafariContentBlocker._constructInvertedWhitelistRule
  by_cases hdis : E.isFilteringDisabled = true
  · simp [hdis, SafariWorld.installs, SafariWorld.updates, List.filterMap_append,
      SafariCall.installed, SafariCall.updated, SafariWorld.log]
  · by_cases hmode : E.isDefaultWhiteListMode = true
    · simp only [hdis, hmode, if_true, if_false, Bool.false_eq_true]
      split <;> (try split) <;>
        simp [SafariWorld.installs, SafariWorld.updates, List.filterMap_append,
          SafariCall.installed, SafariCall.updated, SafariWorld.log]
    · simp only [hdis, hmode, if_true, if_false, Bool.false_eq_true]
      split <;> split <;> (try split) <;>
        simp [SafariWorld.installs, SafariWorld.updates, List.filterMap_append,
          SafariCall.installed, SafariCall.updated, SafariWorld.log]

end SafariLemmas

section InvertedWhitelist

open SafariContentBlocker

theorem intercalate_go_append (p sep : String) (l : List String) (acc : String) :
    String.intercalate.go (p ++ acc) sep l = p ++ String.intercalate.go acc sep l := by
  induction l generalizing acc with
  | nil => simp [String.intercalate.go]
  | cons a as ih =>
    simp only [String.intercalate.go]
    rw [String.append_assoc, String.append_assoc, ih, String.append_assoc]

/-- After the first domain the loop of `_constructInvertedWhitelistRule` is the tail of a join
with the separator `|`. -/
theorem constructInvertedWhitelistRule_loop_join (rest : List String) (i : Nat) (acc : String)
    (hi : 0 < i) :
    _constructInvertedWhitelistRule.loop rest i acc =
      String.intercalate.go acc "|" (rest.map (fun domain => "~" ++ domain)) := by
  induction rest generalizing i acc with
  | nil => simp [_constructInvertedWhitelistRule.loop, String.intercalate.go]
  | cons d ds ih =>
    simp only [_constructInvertedWhitelistRule.loop, List.map_cons, String.intercalate.go]
    rw [if_pos hi, ih (i + 1) _ (Nat.succ_pos i)]

/-- The inverted whitelist rule of a non-empty domain list, in closed form. -/
theorem constructInvertedWhitelistRule_of_cons (d : String) (ds : List String) :
    _constructInvertedWhitelistRule.of (Js.obj (d :: ds)) =
      "@@||*$document,domain=" ++
        String.intercalate "|" ((d :: ds).map (fun domain => "~" ++ domain)) := by
  have hbase : ("@@||*$document" ++ ",domain=" : String) = "@@||*$document,domain=" := by decide
  simp only [_constructInvertedWhitelistRule.of, _constructInvertedWhitelistRule.loop,
    List.map_cons, String.intercalate]
  rw [if_neg (Nat.lt_irrefl 0), constructInvertedWhitelistRule_loop_join _ _ _ Nat.one_pos,
    intercalate_go_append, hbase]

/-- The inverted whitelist rule is never the empty string. -/
theorem constructInvertedWhitelistRule_of_truthy (domains : Js (List String)) :
    JsTruthy.truthy (_constructInvertedWhitelistRule.of domains) = true := by
  have hlen : ∀ t : String, 0 < t.length → JsTruthy.truthy t = true := by
    intro t ht
    simp only [JsTruthy.truthy, bne_iff_ne, ne_eq]
    intro h
    rw [h] at ht
    exact absurd ht (by decide)
  apply hlen
  match domains with
  | .null => decide
  | .undefined => decide
  | .obj [] => decide
  | .obj (d :: ds) =>
    rw [constructInvertedWhitelistRule_of_cons, String.length_append]
    have : ("@@||*$document,domain=" : String).length = 22 := by decide
    omega

end InvertedWhitelist

/-- C10: `_constructInvertedWhitelistRule` returns `@@||*$document` when the whitelist domain
list is empty or absent; for a non-empty list it returns `@@||*$document,domain=` followed by
the listed domains, each negated with `~`, in list order, joined by `|`; for `a.com`, `b.com`
it is `@@||*$document,domain=~a.com|~b.com`.  The result is never empty, so in the inverted mode
the rules handed to the converter are the active rules followed by exactly that one rule,
whatever the size of the whitelist, whereas in the default mode they are the active rules
followed by `whiteListService.getRules()`. -/
theorem constructInvertedWhitelistRule_spec (E : SafariEnv) (s : SafariWorld) :
    (SafariContentBlocker._constructInvertedWhitelistRule.of Js.null = "@@||*$document" ∧
      SafariContentBlocker._constructInvertedWhitelistRule.of Js.undefined = "@@||*$document" ∧
      SafariContentBlocker._constructInvertedWhitelistRule.of (Js.obj []) = "@@||*$document") ∧
    (∀ (d : String) (ds : List String),
      SafariContentBlocker._constructInvertedWhitelistRule.of (Js.obj (d :: ds)) =
        "@@||*$document,domain=" ++
          String.intercalate "|" ((d :: ds).map (fun domain => "~" ++ domain))) ∧
    SafariContentBlocker._constructInvertedWhitelistRule.of (Js.obj ["a.com", "b.com"]) =
      "@@||*$document,domain=~a.com|~b.com" ∧
    (SafariContentBlocker._constructInvertedWhitelistRule E s).1 =
      SafariContentBlocker._constructInvertedWhitelistRule.of E.whiteList ∧
    (SafariContentBlocker._constructInvertedWhitelistRule E s).1 ≠ "" ∧
    (E.isDefaultWhiteListMode = false →
      (SafariContentBlocker._loadAndConvertRules.rules E s).1 =
        E.requestFilterRules ++
          [RuleItem.text (SafariContentBlocker._constructInvertedWhitelistRule.of E.whiteList)] ∧
      (SafariContentBlocker._loadAndConvertRules.rules E s).1.length =
        E.requestFilterRules.length + 1) ∧
    (E.isDefaultWhiteListMode = true →
      (SafariContentBlocker._loadAndConvertRules.rules E s).1 =
        E.requestFilterRules ++ E.whiteListRules) := by
  have htruthy := constructInvertedWhitelistRule_of_truthy E.whiteList
  refine ⟨⟨rfl, rfl, rfl⟩, constructInvertedWhitelistRule_of_cons, by decide, rfl, ?_, ?_, ?_⟩
  · intro h
    have h2 : SafariContentBlocker._constructInvertedWhitelistRule.of E.whiteList = "" := h
    rw [h2] at htruthy
    exact absurd htruthy (by decide)
  · intro hmode
    simp [SafariContentBlocker._loadAndConvertRules.rules,
      SafariContentBlocker._constructInvertedWhitelistRule, hmode, htruthy]
  · intro hmode
    simp [SafariContentBlocker._loadAndConvertRules.rules, hmode]

/-- Witness of C10: in the inverted mode with the whitelist `a.com`, `b.com` the two active
rules are followed by the single rule `@@||*$document,domain=~a.com|~b.com`. -/
theorem constructInvertedWhitelistRule_spec_witness :
    (SafariContentBlocker._loadAndConvertRules.rules Example.safariEnv SafariWorld.initial).1 =
      [RuleItem.rule "||evil.example^", RuleItem.rule "||ads.example^",
        RuleItem.text "@@||*$document,domain=~a.com|~b.com"] :=
  ((constructInvertedWhitelistRule_spec Example.safariEnv SafariWorld.initial).2.2.2.2.2.1
    rfl).1.trans (by decide)

section SafariSteps

open SafariContentBlocker

/-- The rules gathered by `_loadAndConvertRules` do not depend on the world. -/
theorem loadAndConvertRules_rules_fst (E : SafariEnv) (s t : SafariWorld) :
    (_loadAndConvertRules.rules E s).1 = (_loadAndConvertRules.rules E t).1 := by
  unfold _loadAndConvertRules.rules SafariContentBlocker._constructInvertedWhitelistRule
  by_cases hmode : E.isDefaultWhiteListMode = true
  · simp [hmode]
  · simp only [hmode, if_false, Bool.false_eq_true]
    split <;> rfl

/-- With filtering disabled `_loadAndConvertRules` passes `null` to its callback after the
guard and one log line. -/
theorem loadAndConvertRules_of_disabled (E : SafariEnv) (rulesLimit : Nat) (s : SafariWorld)
    (hdis : E.isFilteringDisabled = true) :
    _loadAndConvertRules E rulesLimit s =
      (Js.null, (s.log SafariCall.userSettings_isFilteringDisabled).log
        (SafariCall.Log_info "Disabling content blocker.")) := by
  simp [_loadAndConvertRules, hdis]

/-- The empty blocker JSON that `_getEmptyBlockerJson` returns depends on the object only. -/
theorem getEmptyBlockerJson_of_file (E : SafariEnv) (s : SafariWorld) (fileJson : List Entry)
    (hfile : E.emptyBlockerFile = JsonText.array fileJson) :
    ∃ json t, _getEmptyBlockerJson E s = Except.ok (json, t) ∧
      (∀ cached, s.blocker.emptyBlockerJSON = Js.obj cached → json = cached) ∧
      (s.blocker.emptyBlockerJSON.truthy = false → json = fileJson) ∧
      t.blocker.contentBlockListDirty = s.blocker.contentBlockListDirty ∧
      t.blocker.emptyBlockerJSON = Js.obj json ∧
      t.installs = s.installs ∧ t.updates = s.updates ∧ t.ruleReads = s.ruleReads := by
  unfold _getEmptyBlockerJson
  cases hc : s.blocker.emptyBlockerJSON with
  | obj cached =>
    refine ⟨cached, s, rfl, ?_, ?_, rfl, hc, rfl, rfl, rfl⟩
    · intro c h
      exact (Js.obj.inj h)
    · intro h
      simp [Js.truthy, JsTruthy.truthy] at h
  | null =>
    simp only [hfile, JSON.parse]
    refine ⟨fileJson, _, rfl, ?_, fun _ => rfl, rfl, rfl, ?_, ?_, ?_⟩
    · intro c h
      cases h
    · simp [SafariWorld.log, SafariWorld.installs, List.filterMap_append, SafariCall.installed]
    · simp [SafariWorld.log, SafariWorld.updates, List.filterMap_append, SafariCall.updated]
    · simp [SafariWorld.log, SafariWorld.ruleReads, List.filter_append,
        SafariCall.readsOrConvertsRules]
  | undefined =>
    simp only [hfile, JSON.parse]
    refine ⟨fileJson, _, rfl, ?_, fun _ => rfl, rfl, rfl, ?_, ?_, ?_⟩
    · intro c h
      cases h
    · simp [SafariWorld.log, SafariWorld.installs, List.filterMap_append, SafariCall.installed]
    · simp [SafariWorld.log, SafariWorld.updates, List.filterMap_append, SafariCall.updated]
    · simp [SafariWorld.log, SafariWorld.ruleReads, List.filter_append,
        SafariCall.readsOrConvertsRules]

/-- No outcome of `updateContentBlocker`, returned or thrown, changes the dirty flag of the
object. -/
theorem updateContentBlocker_dirty (E : SafariEnv) (s t : SafariWorld) (e : String)
    (h : updateContentBlocker E s = Except.ok t ∨ updateContentBlocker E s = Except.error (e, t)) :
    t.blocker.contentBlockListDirty = s.blocker.contentBlockListDirty := by
  have hload := (loadAndConvertRules_world E RULES_LIMIT s).1
  unfold updateContentBlocker updateContentBlocker.callback at h
  generalize _loadAndConvertRules E RULES_LIMIT s = loaded at h hload
  obtain ⟨result, s1⟩ := loaded
  simp only at h hload
  have hclear : ∀ t, (_clearFilters E s1 = Except.ok t ∨ _clearFilters E s1 = Except.error (e, t)) →
      t.blocker.contentBlockListDirty = s.blocker.contentBlockListDirty := by
    intro t ht
    unfold _clearFilters _getEmptyBlockerJson at ht
    cases hc : s1.blocker.emptyBlockerJSON with
    | obj cached =>
      simp only [hc] at ht
      rcases ht with ht | ht
      · have := Except.ok.inj ht
        rw [← this, setSafariContentBlocker_blocker, hload]
      · cases ht
    | null =>
      simp only [hc] at ht
      cases hp : JSON.parse E.emptyBlockerFile with
      | ok json =>
        simp only [hp] at ht
        rcases ht with ht | ht
        · have := Except.ok.inj ht
          rw [← this, setSafariContentBlocker_blocker]
          simp [SafariWorld.log, hload]
        · cases ht
      | error err =>
        simp only [hp] at ht
        rcases ht with ht | ht
        · cases ht
        · have := Except.error.inj ht
          have h2 := (Prod.mk.inj this).2
          rw [← h2]
          simp [SafariWorld.log, hload]
    | undefined =>
      simp only [hc] at ht
      cases hp : JSON.parse E.emptyBlockerFile with
      | ok json =>
        simp only [hp] at ht
        rcases ht with ht | ht
        · have := Except.ok.inj ht
          rw [← this, setSafariContentBlocker_blocker]
          simp [SafariWorld.log, hload]
        · cases ht
      | error err =>
        simp only [hp] at ht
        rcases ht with ht | ht
        · cases ht
        · have := Except.error.inj ht
          have h2 := (Prod.mk.inj this).2
          rw [← h2]
          simp [SafariWorld.log, hload]
  cases result with
  | null => exact hclear t h
  | undefined => exact hclear t h
  | obj r =>
    simp only at h
    cases hconv : r.converted with
    | null =>
      simp only [hconv] at h
      rcases h with h | h
      · cases h
      · have := (Prod.mk.inj (Except.error.inj h)).2
        rw [← this, hload]
    | undefined =>
      simp only [hconv] at h
      rcases h with h | h
      · cases h
      · have := (Prod.mk.inj (Except.error.inj h)).2
        rw [← this, hload]
    | obj text =>
      simp only [hconv] at h
      cases hp : JSON.parse text with
      | ok json =>
        simp only [hp] at h
        rcases h with h | h
        · have := Except.ok.inj h
          rw [← this]
          simp [SafariWorld.log, setSafariContentBlocker_blocker, hload]
        · cases h
      | error err =>
        simp only [hp] at h
        rcases h with h | h
        · cases h
        · have := (Prod.mk.inj (Except.error.inj h)).2
          rw [← this, hload]

/-- In every reachable world the dirty flag of the object is still set: the only assignment
to a `contentBlockListDirty` is the one to the global object. -/
theorem reachable_dirty (good : SafariEnv → Prop) (s : SafariWorld)
    (h : SafariWorld.Reachable good s) : s.blocker.contentBlockListDirty = true := by
  induction h with
  | initial => rfl
  | updated E s t _ _ hstep ih =>
    rw [updateContentBlocker_dirty E s t "" (Or.inl hstep), ih]
  | thrown E s t e _ _ hstep ih =>
    rw [updateContentBlocker_dirty E s t e (Or.inr hstep), ih]
  | answered error s _ ih =>
    unfold setContentBlockerResult
    split
    · exact ih
    · simpa [SafariWorld.log] using ih

end SafariSteps

section RuleCap

open SafariContentBlocker

theorem withinLimit_log (s : SafariWorld) (c : SafariCall) (h : s.WithinLimit)
    (hc : ∀ json, c.installed = some json → json.length ≤ RULES_LIMIT) :
    (s.log c).WithinLimit := by
  refine ⟨h.1, ?_⟩
  intro json hmem
  rw [SafariWorld.installs_log, List.mem_append] at hmem
  rcases hmem with hmem | hmem
  · exact h.2 json hmem
  · exact hc json (by simpa [Option.mem_toList] using hmem)

theorem withinLimit_setSafariContentBlocker (json : List Entry) (s : SafariWorld)
    (h : s.WithinLimit) (hjson : json.length ≤ RULES_LIMIT) :
    (_setSafariContentBlocker json s).WithinLimit := by
  unfold _setSafariContentBlocker
  apply withinLimit_log _ _ _ (by intro j hj; cases hj)
  have h1 := withinLimit_log s
    (SafariCall.Log_info ("Setting content blocker. Length=" ++ toString json.length)) h
    (by intro j hj; cases hj)
  split
  · exact withinLimit_log _ _ h1 (by intro j hj; cases hj)
  · refine withinLimit_log _ _ ⟨h1.1, h1.2⟩ ?_
    intro j hj
    simp only [SafariCall.installed, Option.some.injEq] at hj
    rw [← hj]
    exact hjson

theorem withinLimit_loadAndConvertRules (E : SafariEnv) (rulesLimit : Nat) (s : SafariWorld)
    (h : s.WithinLimit) : (_loadAndConvertRules E rulesLimit s).2.WithinLimit := by
  obtain ⟨hb, hi, _⟩ := loadAndConvertRules_world E rulesLimit s
  refine ⟨?_, ?_⟩
  · rw [hb]
    exact h.1
  · rw [hi]
    exact h.2

/-- What `_loadAndConvertRules` passes to the callback is `null` or the result of the converter
for the gathered rules and the given cap. -/
theorem loadAndConvertRules_result (E : SafariEnv) (rulesLimit : Nat) (s : SafariWorld) :
    (_loadAndConvertRules E rulesLimit s).1 = Js.null ∨
    (_loadAndConvertRules E rulesLimit s).1 =
      E.convertArray (_loadAndConvertRules.rules E s).1 rulesLimit := by
  unfold _loadAndConvertRules
  by_cases hdis : E.isFilteringDisabled = true
  · simp [hdis]
  · simp only [hdis, if_false, Bool.false_eq_true]
    rw [loadAndConvertRules_rules_fst E _ s]
    split
    · split
      · right
        rfl
      · left
        rfl
    · left
      rfl

theorem withinLimit_clearFilters (E : SafariEnv) (s t : SafariWorld) (e : String)
    (h : s.WithinLimit)
    (hfile : ∀ l, E.emptyBlockerFile = JsonText.array l → l.length ≤ RULES_LIMIT)
    (hstep : _clearFilters E s = Except.ok t ∨ _clearFilters E s = Except.error (e, t)) :
    t.WithinLimit := by
  have hxhr : (s.log (SafariCall.xhr_get emptyBlockerUrl)).WithinLimit :=
    withinLimit_log _ _ h (by intro j hj; cases hj)
  unfold _clearFilters _getEmptyBlockerJson at hstep
  cases hc : s.blocker.emptyBlockerJSON with
  | obj cached =>
    simp only [hc] at hstep
    rcases hstep with hstep | hstep
    · rw [← Except.ok.inj hstep]
      exact withinLimit_setSafariContentBlocker _ _ h (h.1 cached hc)
    · cases hstep
  | null =>
    simp only [hc] at hstep
    cases hf : E.emptyBlockerFile with
    | array l =>
      simp only [hf, JSON.parse] at hstep
      rcases hstep with hstep | hstep
      · rw [← Except.ok.inj hstep]
        refine withinLimit_setSafariContentBlocker _ _ ⟨?_, hxhr.2⟩ (hfile l hf)
        intro c hcached
        rw [← Js.obj.inj hcached]
        exact hfile l hf
      · cases hstep
    | malformed text =>
      simp only [hf, JSON.parse] at hstep
      rcases hstep with hstep | hstep
      · cases hstep
      · rw [← (Prod.mk.inj (Except.error.inj hstep)).2]
        exact hxhr
  | undefined =>
    simp only [hc] at hstep
    cases hf : E.emptyBlockerFile with
    | array l =>
      simp only [hf, JSON.parse] at hstep
      rcases hstep with hstep | hstep
      · rw [← Except.ok.inj hstep]
        refine withinLimit_setSafariContentBlocker _ _ ⟨?_, hxhr.2⟩ (hfile l hf)
        intro c hcached
        rw [← Js.obj.inj hcached]
        exact hfile l hf
      · cases hstep
    | malformed text =>
      simp only [hf, JSON.parse] at hstep
      rcases hstep with hstep | hstep
      · cases hstep
      · rw [← (Prod.mk.inj (Except.error.inj hstep)).2]
        exact hxhr

theorem withinLimit_callback (E : SafariEnv) (result : Js ConvertResult) (s t : SafariWorld)
    (e : String) (h : s.WithinLimit)
    (hfile : ∀ l, E.emptyBlockerFile = JsonText.array l → l.length ≤ RULES_LIMIT)
    (hres : ∀ r json, result = Js.obj r → r.converted = Js.obj (JsonText.array json) →
      json.length ≤ RULES_LIMIT)
    (hstep : updateContentBlocker.callback E result s = Except.ok t ∨
      updateContentBlocker.callback E result s = Except.error (e, t)) :
    t.WithinLimit := by
  unfold updateContentBlocker.callback at hstep
  cases result with
  | null => exact withinLimit_clearFilters E s t e h hfile hstep
  | undefined => exact withinLimit_clearFilters E s t e h hfile hstep
  | obj r =>
    simp only at hstep
    cases hconv : r.converted with
    | null =>
      simp only [hconv] at hstep
      rcases hstep with hstep | hstep
      · cases hstep
      · rw [← (Prod.mk.inj (Except.error.inj hstep)).2]
        exact h
    | undefined =>
      simp only [hconv] at hstep
      rcases hstep with hstep | hstep
      · cases hstep
      · rw [← (Prod.mk.inj (Except.error.inj hstep)).2]
        exact h
    | obj text =>
      simp only [hconv] at hstep
      cases text with
      | array json =>
        simp only [JSON.parse] at hstep
        rcases hstep with hstep | hstep
        · rw [← Except.ok.inj hstep]
          exact withinLimit_log _ _
            (withinLimit_setSafariContentBlocker _ _ h (hres r json rfl hconv))
            (by intro j hj; cases hj)
        · cases hstep
      | malformed bad =>
        simp only [JSON.parse] at hstep
        rcases hstep with hstep | hstep
        · cases hstep
        · rw [← (Prod.mk.inj (Except.error.inj hstep)).2]
          exact h

/-- The list that the converter modelled from the spec makes has at most `rulesLimit`
entries. -/
theorem convertArray_length_le (toEntry : RuleItem → Entry) (rules : List RuleItem)
    (rulesLimit : Nat) (r : ConvertResult) (json : List Entry)
    (hr : SafariContentBlockerConverter.convertArray toEntry rules rulesLimit = Js.obj r)
    (hjson : r.converted = Js.obj (JsonText.array json)) : json.length ≤ rulesLimit := by
  unfold SafariContentBlockerConverter.convertArray at hr
  have hr2 := Js.obj.inj hr
  rw [← hr2] at hjson
  have hj := JsonText.array.inj (Js.obj.inj hjson)
  rw [← hj, List.length_map, List.length_take]
  exact Nat.min_le_left _ _

theorem withinLimit_updateContentBlocker (toEntry : RuleItem → Entry) (file : JsonText)
    (hfile : ∀ l, file = JsonText.array l → l.length ≤ RULES_LIMIT)
    (E : SafariEnv) (hE : E.Capped toEntry file) (s t : SafariWorld) (e : String)
    (h : s.WithinLimit)
    (hstep : updateContentBlocker E s = Except.ok t ∨
      updateContentBlocker E s = Except.error (e, t)) :
    t.WithinLimit := by
  unfold updateContentBlocker at hstep
  refine withinLimit_callback E _ _ t e (withinLimit_loadAndConvertRules E RULES_LIMIT s h)
    (by intro l hl; exact hfile l (hE.2 ▸ hl)) ?_ hstep
  intro r json hr hjson
  rcases loadAndConvertRules_result E RULES_LIMIT s with hnull | hconv
  · rw [hnull] at hr
    cases hr
  · rw [hconv, hE.1] at hr
    exact convertArray_length_le toEntry _ _ r json hr hjson

/-- In every world reachable with the converter modelled from the spec and an empty blocker
file within the cap, all installed rule lists are within the cap. -/
theorem reachable_withinLimit (toEntry : RuleItem → Entry) (file : JsonText)
    (hfile : ∀ l, file = JsonText.array l → l.length ≤ RULES_LIMIT) (s : SafariWorld)
    (h : SafariWorld.Reachable (SafariEnv.Capped toEntry file) s) : s.WithinLimit := by
  induction h with
  | initial =>
    refine ⟨?_, ?_⟩
    · intro c hc
      cases hc
    · intro j hj
      simp [SafariWorld.installs, SafariWorld.initial] at hj
  | updated E s t hE _ hstep ih =>
    exact withinLimit_updateContentBlocker toEntry file hfile E hE s t "" ih (Or.inl hstep)
  | thrown E s t e hE _ hstep ih =>
    exact withinLimit_updateContentBlocker toEntry file hfile E hE s t e ih (Or.inr hstep)
  | answered error s _ ih =>
    unfold setContentBlockerResult
    split
    · exact ih
    · exact withinLimit_log _ _ ⟨ih.1, ih.2⟩ (by intro j hj; cases hj)

end RuleCap

section SafariClaims

open SafariContentBlocker

/-- With filtering enabled and a converter result whose `converted` is truthy,
`_loadAndConvertRules` passes that result on, the converter call being the last call. -/
theorem loadAndConvertRules_of_enabled (E : SafariEnv) (rulesLimit : Nat) (s : SafariWorld)
    (r : ConvertResult) (hen : E.isFilteringDisabled = false)
    (hres : E.convertArray (_loadAndConvertRules.rules E s).1 rulesLimit = Js.obj r)
    (htruthy : r.converted.truthy = true) :
    _loadAndConvertRules E rulesLimit s =
      (Js.obj r, (_loadAndConvertRules.rules E
          ((s.log SafariCall.userSettings_isFilteringDisabled).log
            (SafariCall.Log_info "Starting loading content blocker."))).2.log
        (SafariCall.convertArray (_loadAndConvertRules.rules E s).1 rulesLimit)) := by
  unfold _loadAndConvertRules
  simp only [hen, if_false, Bool.false_eq_true]
  rw [loadAndConvertRules_rules_fst E _ s, hres]
  simp [htruthy]

/-- The effect of `_setSafariContentBlocker` on the projections of the log when the dirty flag
of the object is set. -/
theorem setSafariContentBlocker_effects (json : List Entry) (s : SafariWorld)
    (hdirty : s.blocker.contentBlockListDirty = true) :
    (_setSafariContentBlocker json s).installs = s.installs ++ [json] ∧
    (_setSafariContentBlocker json s).updates = s.updates ∧
    (_setSafariContentBlocker json s).ruleReads = s.ruleReads := by
  rw [setSafariContentBlocker_of_dirty json s hdirty]
  simp [SafariWorld.installs, SafariWorld.updates, SafariWorld.ruleReads,
    List.filterMap_append, List.filter_append, SafariCall.installed, SafariCall.updated,
    SafariCall.readsOrConvertsRules]

/-- When `_getEmptyBlockerJson` returns `json` in a world, it returns `json` in every world
with the same object, and adds no install, notification or rule read. -/
theorem getEmptyBlockerJson_same_object (E : SafariEnv) (s s2 t0 : SafariWorld)
    (json : List Entry) (hobj : s2.blocker = s.blocker)
    (hempty : _getEmptyBlockerJson E s = Except.ok (json, t0)) :
    ∃ t2, _getEmptyBlockerJson E s2 = Except.ok (json, t2) ∧
      t2.blocker.contentBlockListDirty = s2.blocker.contentBlockListDirty ∧
      t2.installs = s2.installs ∧ t2.updates = s2.updates ∧ t2.ruleReads = s2.ruleReads := by
  have hlog : (s2.log (SafariCall.xhr_get emptyBlockerUrl)).installs = s2.installs ∧
      (s2.log (SafariCall.xhr_get emptyBlockerUrl)).updates = s2.updates ∧
      (s2.log (SafariCall.xhr_get emptyBlockerUrl)).ruleReads = s2.ruleReads := by
    simp [SafariWorld.log, SafariWorld.installs, SafariWorld.updates, SafariWorld.ruleReads,
      List.filterMap_append, List.filter_append, SafariCall.installed, SafariCall.updated,
      SafariCall.readsOrConvertsRules]
  have hcache : s2.blocker.emptyBlockerJSON = s.blocker.emptyBlockerJSON := by rw [hobj]
  unfold _getEmptyBlockerJson at hempty ⊢
  cases hc : s.blocker.emptyBlockerJSON with
  | obj cached =>
    simp only [hc] at hempty
    simp only [hcache, hc]
    have hj := (Prod.mk.inj (Except.ok.inj hempty)).1
    exact ⟨s2, by rw [hj], rfl, rfl, rfl, rfl⟩
  | null =>
    simp only [hc] at hempty
    simp only [hcache, hc]
    cases hf : E.emptyBlockerFile with
    | array l =>
      simp only [hf, JSON.parse] at hempty ⊢
      have hj := (Prod.mk.inj (Except.ok.inj hempty)).1
      rw [hj]
      exact ⟨_, rfl, rfl, hlog.1, hlog.2.1, hlog.2.2⟩
    | malformed text =>
      simp only [hf, JSON.parse] at hempty
      cases hempty
  | undefined =>
    simp only [hc] at hempty
    simp only [hcache, hc]
    cases hf : E.emptyBlockerFile with
    | array l =>
      simp only [hf, JSON.parse] at hempty ⊢
      have hj := (Prod.mk.inj (Except.ok.inj hempty)).1
      rw [hj]
      exact ⟨_, rfl, rfl, hlog.1, hlog.2.1, hlog.2.2⟩
    | malformed text =>
      simp only [hf, JSON.parse] at hempty
      cases hempty

end SafariClaims

/-- C9: when `userSettings.isFilteringDisabled()` is true, the compile step passes `null` to
the callback, and `updateContentBlocker` returns without throwing after handing the empty
blocker JSON (the value of `_getEmptyBlockerJson`) to the platform: one install, no
`CONTENT_BLOCKER_UPDATED` notification, no read or conversion of any rule, and the same outcome
for every content of the request filter and the whitelist.  The world is any world that the
code reaches; that `_getEmptyBlockerJson` has a value means that the array is cached already
or that `config/empty.json` is well-formed. -/
theorem updateContentBlocker_filtering_disabled (E : SafariEnv) (s t0 : SafariWorld)
    (json : List Entry)
    (hreach : SafariWorld.Reachable (fun _ => True) s)
    (hdis : E.isFilteringDisabled = true)
    (hempty : SafariContentBlocker._getEmptyBlockerJson E s = Except.ok (json, t0)) :
    (SafariContentBlocker._loadAndConvertRules E SafariContentBlocker.RULES_LIMIT s).1
      = Js.null ∧
    Outcome.returned (SafariContentBlocker.updateContentBlocker E s) = true ∧
    (Outcome.worldOf (SafariContentBlocker.updateContentBlocker E s)).installs =
      s.installs ++ [json] ∧
    (Outcome.worldOf (SafariContentBlocker.updateContentBlocker E s)).updates = s.updates ∧
    (Outcome.worldOf (SafariContentBlocker.updateContentBlocker E s)).ruleReads =
      s.ruleReads ∧
    (∀ F : SafariEnv, F.isFilteringDisabled = true → F.emptyBlockerFile = E.emptyBlockerFile →
      SafariContentBlocker.updateContentBlocker F s =
        SafariContentBlocker.updateContentBlocker E s) := by
  have hload := loadAndConvertRules_of_disabled E SafariContentBlocker.RULES_LIMIT s hdis
  have hdirty := reachable_dirty _ s hreach
  obtain ⟨t2, ht2, hd2, hi2, hu2, hr2⟩ := getEmptyBlockerJson_same_object E s
    ((s.log SafariCall.userSettings_isFilteringDisabled).log
      (SafariCall.Log_info "Disabling content blocker.")) t0 json rfl hempty
  have hstep : SafariContentBlocker.updateContentBlocker E s =
      Except.ok (SafariContentBlocker._setSafariContentBlocker json t2) := by
    simp only [SafariContentBlocker.updateContentBlocker, hload,
      SafariContentBlocker.updateContentBlocker.callback,
      SafariContentBlocker._clearFilters, ht2]
  have heff := setSafariContentBlocker_effects json t2 (by rw [hd2]; exact hdirty)
  refine ⟨by rw [hload], by rw [hstep]; rfl, ?_, ?_, ?_, ?_⟩
  · rw [hstep]
    simp only [Outcome.worldOf]
    rw [heff.1, hi2]
    simp [SafariWorld.log, SafariWorld.installs, List.filterMap_append, SafariCall.installed]
  · rw [hstep]
    simp only [Outcome.worldOf]
    rw [heff.2.1, hu2]
    simp [SafariWorld.log, SafariWorld.updates, List.filterMap_append, SafariCall.updated]
  · rw [hstep]
    simp only [Outcome.worldOf]
    rw [heff.2.2, hr2]
    simp [SafariWorld.log, SafariWorld.ruleReads, List.filter_append,
      SafariCall.readsOrConvertsRules]
  · intro F hF hfile
    have hloadF := loadAndConvertRules_of_disabled F SafariContentBlocker.RULES_LIMIT s hF
    simp only [SafariContentBlocker.updateContentBlocker, hload, hloadF,
      SafariContentBlocker.updateContentBlocker.callback,
      SafariContentBlocker._clearFilters, SafariContentBlocker._getEmptyBlockerJson, hfile]

/-- Witness of C9: with filtering disabled, in the freshly loaded world, the two rules of the
request filter and the whitelist are not read, and the one entry of `config/empty.json` is
installed. -/
theorem updateContentBlocker_filtering_disabled_witness :
    Outcome.returned
      (SafariContentBlocker.updateContentBlocker Example.safariDisabled SafariWorld.initial)
      = true ∧
    (Outcome.worldOf
      (SafariContentBlocker.updateContentBlocker Example.safariDisabled
        SafariWorld.initial)).installs = [["ignore-previous-rules"]] ∧
    (Outcome.worldOf
      (SafariContentBlocker.updateContentBlocker Example.safariDisabled
        SafariWorld.initial)).ruleReads = [] :=
  have h := updateContentBlocker_filtering_disabled Example.safariDisabled SafariWorld.initial
    { SafariWorld.initial with
      blocker := { SafariWorld.initial.blocker with
        emptyBlockerJSON := Js.obj ["ignore-previous-rules"] }
      calls := [SafariCall.xhr_get "config/empty.json"] }
    ["ignore-previous-rules"] SafariWorld.Reachable.initial rfl rfl
  ⟨h.2.1, h.2.2.1, h.2.2.2.2.1⟩

/-- C8, evaluated on the code: in the freshly loaded world `_setSafariContentBlocker` is called
twice with the same rule list, the platform answering `null` (success) in between and nothing
else happening.  After the first call the dirty flag of the `SafariContentBlocker` object is
still set (the flag that was cleared is the property of the global object), and
`safari.extension.setContentBlocker` has been invoked twice, not once. -/
theorem setSafariContentBlocker_twice_installs_twice :
    (SafariContentBlocker._setSafariContentBlocker ["entry:||evil.example^"]
      SafariWorld.initial).blocker.contentBlockListDirty = true ∧
    (SafariContentBlocker._setSafariContentBlocker ["entry:||evil.example^"]
      SafariWorld.initial).globalContentBlockListDirty = Js.obj false ∧
    (SafariContentBlocker._setSafariContentBlocker ["entry:||evil.example^"]
      SafariWorld.initial).installs = [["entry:||evil.example^"]] ∧
    (SafariContentBlocker._setSafariContentBlocker ["entry:||evil.example^"]
      (SafariContentBlocker.setContentBlockerResult Js.null
        (SafariContentBlocker._setSafariContentBlocker ["entry:||evil.example^"]
          SafariWorld.initial))).installs =
      [["entry:||evil.example^"], ["entry:||evil.example^"]] := by
  refine ⟨rfl, rfl, ?_, ?_⟩ <;>
    simp [SafariContentBlocker._setSafariContentBlocker,
      SafariContentBlocker.setContentBlockerResult, SafariWorld.initial,
      SafariContentBlocker.initial, SafariWorld.log, SafariWorld.installs,
      SafariCall.installed, Js.truthy]

/-- C7: with the converter modelled from the spec and an empty blocker file within the cap,
every rule list handed to `safari.extension.setContentBlocker`, before and after a call of
`updateContentBlocker`, has at most `RULES_LIMIT` entries.  With filtering enabled the call
returns; its last rule-related call is `convertArray(rules, RULES_LIMIT)`; it installs one
list, of at most `RULES_LIMIT` entries; and the `CONTENT_BLOCKER_UPDATED` event carries the
length of that list and the `overLimit` flag of the converter, which is `true` for
`RULES_LIMIT + 1` gathered rules and `false` for `RULES_LIMIT` gathered rules. -/
theorem updateContentBlocker_rules_limit (toEntry : RuleItem → Entry) (file : JsonText)
    (E : SafariEnv) (s : SafariWorld)
    (hfile : ∀ l, file = JsonText.array l → l.length ≤ SafariContentBlocker.RULES_LIMIT)
    (hreach : SafariWorld.Reachable (SafariEnv.Capped toEntry file) s)
    (hE : E.Capped toEntry file) (hen : E.isFilteringDisabled = false) :
    (∀ json, json ∈ s.installs → json.length ≤ SafariContentBlocker.RULES_LIMIT) ∧
    (∀ json, json ∈ (Outcome.worldOf (SafariContentBlocker.updateContentBlocker E s)).installs →
      json.length ≤ SafariContentBlocker.RULES_LIMIT) ∧
    Outcome.returned (SafariContentBlocker.updateContentBlocker E s) = true ∧
    (∃ before, (Outcome.worldOf (SafariContentBlocker.updateContentBlocker E s)).ruleReads =
      before ++ [SafariCall.convertArray (SafariContentBlocker._loadAndConvertRules.rules E s).1
        SafariContentBlocker.RULES_LIMIT]) ∧
    (Outcome.worldOf (SafariContentBlocker.updateContentBlocker E s)).installs =
      s.installs ++ [(((SafariContentBlocker._loadAndConvertRules.rules E s).1.take
        SafariContentBlocker.RULES_LIMIT).map toEntry)] ∧
    (((SafariContentBlocker._loadAndConvertRules.rules E s).1.take
      SafariContentBlocker.RULES_LIMIT).map toEntry).length ≤ SafariContentBlocker.RULES_LIMIT ∧
    (Outcome.worldOf (SafariContentBlocker.updateContentBlocker E s)).updates =
      s.updates ++ [((((SafariContentBlocker._loadAndConvertRules.rules E s).1.take
          SafariContentBlocker.RULES_LIMIT).map toEntry).length,
        decide (SafariContentBlocker.RULES_LIMIT <
          (SafariContentBlocker._loadAndConvertRules.rules E s).1.length))] ∧
    ((SafariContentBlocker._loadAndConvertRules.rules E s).1.length =
        SafariContentBlocker.RULES_LIMIT + 1 →
      (Outcome.worldOf (SafariContentBlocker.updateContentBlocker E s)).updates =
        s.updates ++ [(SafariContentBlocker.RULES_LIMIT, true)]) ∧
    ((SafariContentBlocker._loadAndConvertRules.rules E s).1.length =
        SafariContentBlocker.RULES_LIMIT →
      (Outcome.worldOf (SafariContentBlocker.updateContentBlocker E s)).updates =
        s.updates ++ [(SafariContentBlocker.RULES_LIMIT, false)]) := by
  have hdirty := reachable_dirty _ s hreach
  have hlimit := reachable_withinLimit toEntry file hfile s hreach
  have hres : E.convertArray (SafariContentBlocker._loadAndConvertRules.rules E s).1
      SafariContentBlocker.RULES_LIMIT =
      Js.obj (ConvertResult.mk
        (Js.obj (JsonText.array
          (((SafariContentBlocker._loadAndConvertRules.rules E s).1.take
            SafariContentBlocker.RULES_LIMIT).map toEntry)))
        (decide (SafariContentBlocker.RULES_LIMIT <
          (SafariContentBlocker._loadAndConvertRules.rules E s).1.length))) := by
    rw [hE.1]
    rfl
  have hload := loadAndConvertRules_of_enabled E SafariContentBlocker.RULES_LIMIT s _ hen hres rfl
  obtain ⟨hb, hi, hu⟩ := loadAndConvertRules_world E SafariContentBlocker.RULES_LIMIT s
  rw [hload] at hb hi hu
  simp only at hb hi hu
  have hstep : SafariContentBlocker.updateContentBlocker E s = Except.ok
      ((SafariContentBlocker._setSafariContentBlocker
        (((SafariContentBlocker._loadAndConvertRules.rules E s).1.take
          SafariContentBlocker.RULES_LIMIT).map toEntry)
        ((SafariContentBlocker._loadAndConvertRules.rules E
          ((s.log SafariCall.userSettings_isFilteringDisabled).log
            (SafariCall.Log_info "Starting loading content blocker."))).2.log
          (SafariCall.convertArray (SafariContentBlocker._loadAndConvertRules.rules E s).1
            SafariContentBlocker.RULES_LIMIT))).log
        (SafariCall.notifyListeners_CONTENT_BLOCKER_UPDATED
          (((SafariContentBlocker._loadAndConvertRules.rules E s).1.take
            SafariContentBlocker.RULES_LIMIT).map toEntry).length
          (decide (SafariContentBlocker.RULES_LIMIT <
            (SafariContentBlocker._loadAndConvertRules.rules E s).1.length)))) := by
    simp only [SafariContentBlocker.updateContentBlocker, hload,
      SafariContentBlocker.updateContentBlocker.callback, JSON.parse]
  have heff := setSafariContentBlocker_effects
    (((SafariContentBlocker._loadAndConvertRules.rules E s).1.take
      SafariContentBlocker.RULES_LIMIT).map toEntry) _ (by rw [hb]; exact hdirty)
  have hlen : (((SafariContentBlocker._loadAndConvertRules.rules E s).1.take
      SafariContentBlocker.RULES_LIMIT).map toEntry).length ≤
      SafariContentBlocker.RULES_LIMIT := by
    rw [List.length_map, List.length_take]
    exact Nat.min_le_left _ _
  have hinst : (Outcome.worldOf (SafariContentBlocker.updateContentBlocker E s)).installs =
      s.installs ++ [(((SafariContentBlocker._loadAndConvertRules.rules E s).1.take
        SafariContentBlocker.RULES_LIMIT).map toEntry)] := by
    rw [hstep]
    simp only [Outcome.worldOf]
    rw [SafariWorld.installs_log, heff.1, hi]
    simp [SafariCall.installed]
  have hupd : (Outcome.worldOf (SafariContentBlocker.updateContentBlocker E s)).updates =
      s.updates ++ [((((SafariContentBlocker._loadAndConvertRules.rules E s).1.take
          SafariContentBlocker.RULES_LIMIT).map toEntry).length,
        decide (SafariContentBlocker.RULES_LIMIT <
          (SafariContentBlocker._loadAndConvertRules.rules E s).1.length))] := by
    rw [hstep]
    simp only [Outcome.worldOf]
    rw [SafariWorld.updates_log, heff.2.1, hu]
    simp [SafariCall.updated]
  refine ⟨hlimit.2, ?_, by rw [hstep]; rfl, ?_, hinst, hlen, hupd, ?_, ?_⟩
  · intro json hmem
    rw [hinst, List.mem_append, List.mem_singleton] at hmem
    rcases hmem with hmem | hmem
    · exact hlimit.2 json hmem
    · rw [hmem]
      exact hlen
  · refine ⟨((SafariContentBlocker._loadAndConvertRules.rules E
      ((s.log SafariCall.userSettings_isFilteringDisabled).log
        (SafariCall.Log_info "Starting loading content blocker."))).2).ruleReads, ?_⟩
    rw [hstep]
    simp only [Outcome.worldOf]
    rw [SafariWorld.ruleReads_log, heff.2.2, SafariWorld.ruleReads_log]
    simp [SafariCall.readsOrConvertsRules]
  · intro hcount
    rw [hupd, List.length_map, List.length_take, hcount]
    simp
  · intro hcount
    rw [hupd, List.length_map, List.length_take, hcount]
    simp

/-- Witness of C7: in the freshly loaded world, with two rules in the request filter and the
inverted whitelist rule, three entries are installed and reported, within the cap. -/
theorem updateContentBlocker_rules_limit_witness :
    Outcome.returned
      (SafariContentBlocker.updateContentBlocker Example.safariEnv SafariWorld.initial) = true ∧
    (Outcome.worldOf
      (SafariContentBlocker.updateContentBlocker Example.safariEnv
        SafariWorld.initial)).installs =
      [["entry:||evil.example^", "entry:||ads.example^",
        "entry:@@||*$document,domain=~a.com|~b.com"]] ∧
    (Outcome.worldOf
      (SafariContentBlocker.updateContentBlocker Example.safariEnv
        SafariWorld.initial)).updates = [(3, false)] :=
  have h := updateContentBlocker_rules_limit Example.toEntry
    (JsonText.array ["ignore-previous-rules"]) Example.safariEnv SafariWorld.initial
    (by
      intro l hl
      rw [← JsonText.array.inj hl]
      decide)
    SafariWorld.Reachable.initial ⟨rfl, rfl⟩ rfl
  ⟨h.2.2.1, h.2.2.2.2.1.trans (by decide), h.2.2.2.2.2.2.1.trans (by decide)⟩

section ConverterFailure

open SafariContentBlocker

/-- With filtering enabled and a converter result that is `null`, `undefined` or has a falsy
`converted`, `_loadAndConvertRules` passes `null` on; only the log has grown. -/
theorem loadAndConvertRules_of_failure (E : SafariEnv) (rulesLimit : Nat) (s : SafariWorld)
    (hen : E.isFilteringDisabled = false)
    (hfail : ∀ r, E.convertArray (_loadAndConvertRules.rules E s).1 rulesLimit = Js.obj r →
      r.converted.truthy = false) :
    (_loadAndConvertRules E rulesLimit s).1 = Js.null := by
  unfold _loadAndConvertRules
  simp only [hen, if_false, Bool.false_eq_true]
  rw [loadAndConvertRules_rules_fst E _ s]
  cases hres : E.convertArray (_loadAndConvertRules.rules E s).1 rulesLimit with
  | null => rfl
  | undefined => rfl
  | obj r => simp [hfail r hres]

end ConverterFailure

/-- C11, as stated, fails: the converter returns a result whose `converted` string `[oops` is
not JSON.  `JSON.parse` throws inside the callback of `updateContentBlocker`, which has no
`try`: the call does not return, and nothing is installed. -/
theorem updateContentBlocker_malformed_json_counterexample :
    Outcome.returned
      (SafariContentBlocker.updateContentBlocker Example.safariMalformed SafariWorld.initial)
      = false ∧
    (Outcome.worldOf
      (SafariContentBlocker.updateContentBlocker Example.safariMalformed
        SafariWorld.initial)).installs = [] := by
  decide

/-- C11, amended: for a converter result that is `null`, `undefined`, or whose `converted`
field is empty or absent, the callback of `updateContentBlocker` raises no exception and
installs the empty blocker JSON (the value of `_getEmptyBlockerJson`), with no
`CONTENT_BLOCKER_UPDATED` notification.  The world is any world that the code reaches. -/
theorem updateContentBlocker_converter_failure (E : SafariEnv) (s t0 : SafariWorld)
    (json : List Entry)
    (hreach : SafariWorld.Reachable (fun _ => True) s)
    (hen : E.isFilteringDisabled = false)
    (hempty : SafariContentBlocker._getEmptyBlockerJson E s = Except.ok (json, t0))
    (hfail : ∀ r, E.convertArray (SafariContentBlocker._loadAndConvertRules.rules E s).1
      SafariContentBlocker.RULES_LIMIT = Js.obj r → r.converted.truthy = false) :
    Outcome.returned (SafariContentBlocker.updateContentBlocker E s) = true ∧
    (Outcome.worldOf (SafariContentBlocker.updateContentBlocker E s)).installs =
      s.installs ++ [json] ∧
    (Outcome.worldOf (SafariContentBlocker.updateContentBlocker E s)).updates = s.updates := by
  have hnull := loadAndConvertRules_of_failure E SafariContentBlocker.RULES_LIMIT s hen hfail
  obtain ⟨hb, hi, hu⟩ := loadAndConvertRules_world E SafariContentBlocker.RULES_LIMIT s
  have hdirty := reachable_dirty _ s hreach
  obtain ⟨t2, ht2, hd2, hi2, hu2, _⟩ := getEmptyBlockerJson_same_object E s
    (SafariContentBlocker._loadAndConvertRules E SafariContentBlocker.RULES_LIMIT s).2 t0 json
    hb hempty
  have hstep : SafariContentBlocker.updateContentBlocker E s =
      Except.ok (SafariContentBlocker._setSafariContentBlocker json t2) := by
    simp only [SafariContentBlocker.updateContentBlocker, hnull,
      SafariContentBlocker.updateContentBlocker.callback,
      SafariContentBlocker._clearFilters, ht2]
  have heff := setSafariContentBlocker_effects json t2 (by rw [hd2, hb]; exact hdirty)
  refine ⟨by rw [hstep]; rfl, ?_, ?_⟩
  · rw [hstep]
    simp only [Outcome.worldOf]
    rw [heff.1, hi2, hi]
  · rw [hstep]
    simp only [Outcome.worldOf]
    rw [heff.2.1, hu2, hu]

/-- Witness of the amended C11: the converter returns `null`; the one entry of
`config/empty.json` is installed and nothing is reported. -/
theorem updateContentBlocker_converter_failure_witness :
    Outcome.returned
      (SafariContentBlocker.updateContentBlocker Example.safariNoResult SafariWorld.initial)
      = true ∧
    (Outcome.worldOf
      (SafariContentBlocker.updateContentBlocker Example.safariNoResult
        SafariWorld.initial)).installs = [["ignore-previous-rules"]] ∧
    (Outcome.worldOf
      (SafariContentBlocker.updateContentBlocker Example.safariNoResult
        SafariWorld.initial)).updates = [] :=
  updateContentBlocker_converter_failure Example.safariNoResult SafariWorld.initial
    { SafariWorld.initial with
      blocker := { SafariWorld.initial.blocker with
        emptyBlockerJSON := Js.obj ["ignore-previous-rules"] }
      calls := [SafariCall.xhr_get "config/empty.json"] }
    ["ignore-previous-rules"] SafariWorld.Reachable.initial rfl rfl
    (by
      intro r hr
      cases hr)

/-- The callback given to the platform: a truthy error is stored in
`lastSetContentBlockerError` and handed to the callback of the caller, which logs it; an
answer of `null`, `undefined` or the empty string changes nothing and reaches no callback. -/
theorem setContentBlockerResult_records (s : SafariWorld) (error : Js String) :
    (error.truthy = true →
      (SafariContentBlocker.setContentBlockerResult error s).blocker.lastSetContentBlockerError
        = error ∧
      (SafariContentBlocker.setContentBlockerResult error s).calls =
        s.calls ++ [SafariCall.Log_error ("Error setting content blocker: " ++ error.toStr)]) ∧
    (error.truthy = false → SafariContentBlocker.setContentBlockerResult error s = s) := by
  refine ⟨?_, ?_⟩
  · intro h
    simp [SafariContentBlocker.setContentBlockerResult, h, SafariWorld.log]
  · intro h
    simp [SafariContentBlocker.setContentBlockerResult, h]

/-- C12, evaluated on the code (the defect of C8): in the freshly loaded world
`_setSafariContentBlocker` is called with a rule list and the platform reports the error
`Extension compilation failed`, which is stored and logged.  The dirty flag of the object is
still set, so a second call with the same rule list does not receive the stored error: it
calls `safari.extension.setContentBlocker` again and logs no error. -/
theorem setContentBlocker_error_not_replayed :
    (SafariContentBlocker.setContentBlockerResult (Js.obj "Extension compilation failed")
      (SafariContentBlocker._setSafariContentBlocker ["entry:||evil.example^"]
        SafariWorld.initial)).blocker =
      { emptyBlockerJSON := Js.null, contentBlockListDirty := true,
        lastSetContentBlockerError := Js.obj "Extension compilation failed" } ∧
    (SafariContentBlocker._setSafariContentBlocker ["entry:||evil.example^"]
      (SafariContentBlocker.setContentBlockerResult (Js.obj "Extension compilation failed")
        (SafariContentBlocker._setSafariContentBlocker ["entry:||evil.example^"]
          SafariWorld.initial))).calls =
      [SafariCall.Log_info "Setting content blocker. Length=1",
       SafariCall.safari_extension_setContentBlocker ["entry:||evil.example^"],
       SafariCall.Log_info "Content blocker has been set.",
       SafariCall.Log_error "Error setting content blocker: Extension compilation failed",
       SafariCall.Log_info "Setting content blocker. Length=1",
       SafariCall.safari_extension_setContentBlocker ["entry:||evil.example^"],
       SafariCall.Log_info "Content blocker has been set."] := by
  decide

/-! ## Theorems: selectors, scripts and collapsing -/

section EngineLemmas

/-- `getRuleForRequest` makes queries only: the collaborator state is left as it is. -/
theorem getRuleForRequest_ext {σ : Type} (A : Collaborators σ) (tab : Js Tab)
    (requestUrl : String) (referrerUrl : Js String) (requestType : RequestType) (w : World σ) :
    (getRuleForRequest A tab requestUrl referrerUrl requestType w).2.ext = w.ext := by
  unfold getRuleForRequest
  simp only [World.query]
  split
  · rfl
  · split
    · rfl
    · split
      · split <;> rfl
      · rfl

/-- The rule that `getRuleForRequest` returns depends on the collaborator state only, not on
the call log. -/
theorem getRuleForRequest_fst_congr {σ : Type} (A : Collaborators σ) (tab : Js Tab)
    (requestUrl : String) (referrerUrl : Js String) (requestType : RequestType)
    (w v : World σ) (hext : w.ext = v.ext) :
    (getRuleForRequest A tab requestUrl referrerUrl requestType w).1 =
      (getRuleForRequest A tab requestUrl referrerUrl requestType v).1 := by
  unfold getRuleForRequest
  simp only [World.query, hext]
  split
  · rfl
  · split
    · rfl
    · split
      · split <;> rfl
      · rfl

/-- The calls that `getRuleForRequest` adds to the log are queries: no command, hence no log
event, notification or statistic. -/
theorem getRuleForRequest_calls {σ : Type} (A : Collaborators σ) (tab : Js Tab)
    (requestUrl : String) (referrerUrl : Js String) (requestType : RequestType) (w : World σ) :
    ∃ extra, (getRuleForRequest A tab requestUrl referrerUrl requestType w).2.calls =
        w.calls ++ extra ∧ extra.filter Call.isCommand = [] ∧
      extra.filter Call.isFilteringLogEvent = [] ∧ extra.filter Call.isNotification = [] ∧
      extra.filter Call.isStatistic = [] := by
  have step : ∀ (v : World σ) (c : Call), c.isCommand = false →
      c.isFilteringLogEvent = false → c.isNotification = false → c.isStatistic = false →
      (∃ extra, v.calls = w.calls ++ extra ∧ extra.filter Call.isCommand = [] ∧
        extra.filter Call.isFilteringLogEvent = [] ∧ extra.filter Call.isNotification = [] ∧
        extra.filter Call.isStatistic = []) →
      (∃ extra, (v.query c).calls = w.calls ++ extra ∧ extra.filter Call.isCommand = [] ∧
        extra.filter Call.isFilteringLogEvent = [] ∧ extra.filter Call.isNotification = [] ∧
        extra.filter Call.isStatistic = []) := by
    intro v c h1 h2 h3 h4 hv
    obtain ⟨extra, he, f1, f2, f3, f4⟩ := hv
    refine ⟨extra ++ [c], ?_, ?_, ?_, ?_, ?_⟩
    · simp [World.query, he]
    · simp [List.filter_append, f1, h1]
    · simp [List.filter_append, f2, h2]
    · simp [List.filter_append, f3, h3]
    · simp [List.filter_append, f4, h4]
  have base : ∃ extra, w.calls = w.calls ++ extra ∧ extra.filter Call.isCommand = [] ∧
      extra.filter Call.isFilteringLogEvent = [] ∧ extra.filter Call.isNotification = [] ∧
      extra.filter Call.isStatistic = [] := ⟨[], by simp, rfl, rfl, rfl, rfl⟩
  have h1 := step w Call.integration_isActive rfl rfl rfl rfl base
  have h2 := step _ Call.settings_isFilteringDisabled rfl rfl rfl rfl h1
  have h3 := step _ (Call.frames_getFrameWhiteListRule tab) rfl rfl rfl rfl h2
  unfold getRuleForRequest
  dsimp only
  split
  · exact h1
  · split
    · exact h2
    · split
      · split
        · exact h3
        · exact step _ _ rfl rfl rfl rfl h3
      · exact step _ _ rfl rfl rfl rfl (step _ _ rfl rfl rfl rfl h3)

end EngineLemmas

/-- C16: for every non-null tab, when `requestFilter.isReady()` is false,
`processGetSelectorsAndScripts` returns exactly `{requestFilterReady: false}`, whatever the
integration, filtering and whitelist state; its only collaborator call is `isReady`, so no
selectors and no scripts are fetched. -/
theorem processGetSelectorsAndScripts_not_ready {σ : Type} (A : Collaborators σ)
    (w : World σ) (tab : Js Tab) (t : Tab) (documentUrl : String) (genericHide : Js Bool)
    (htab : tab = Js.obj t) (hready : A.requestFilter_isReady w.ext = false) :
    (processGetSelectorsAndScripts A tab documentUrl genericHide w).1 =
      SelectorsAndScripts.notReady ∧
    (processGetSelectorsAndScripts A tab documentUrl genericHide w).1 ≠
      SelectorsAndScripts.empty ∧
    (processGetSelectorsAndScripts A tab documentUrl genericHide w).2.calls =
      w.calls ++ [Call.requestFilter_isReady] ∧
    (processGetSelectorsAndScripts A tab documentUrl genericHide w).2.ext = w.ext := by
  have h : processGetSelectorsAndScripts A tab documentUrl genericHide w =
      (SelectorsAndScripts.notReady, w.query Call.requestFilter_isReady) := by
    simp [processGetSelectorsAndScripts, htab, Js.truthy, JsTruthy.truthy, World.query, hready]
  rw [h]
  exact ⟨rfl, by simp, rfl, rfl⟩

/-- Witness of C16: integration is active and the Rule Matcher is not ready; the answer is
`{requestFilterReady: false}`. -/
theorem processGetSelectorsAndScripts_not_ready_witness :
    (processGetSelectorsAndScripts Example.notReadyIntegration Example.tab
      "http://site.example/" Js.undefined Example.world).1 = SelectorsAndScripts.notReady :=
  (processGetSelectorsAndScripts_not_ready Example.notReadyIntegration Example.world
    Example.tab { tabId := 1 } "http://site.example/" Js.undefined rfl rfl).1

/-- C17, as stated, fails: integration mode is active, but the Rule Matcher is not ready and
the tab is not null, so the answer is `{requestFilterReady: false}` and not `{}`. -/
theorem processGetSelectorsAndScripts_integration_not_ready_counterexample :
    Example.notReadyIntegration.integration_isActive Example.world.ext = true ∧
    (processGetSelectorsAndScripts Example.notReadyIntegration Example.tab
      "http://site.example/" Js.undefined Example.world).1 = SelectorsAndScripts.notReady ∧
    (processGetSelectorsAndScripts Example.notReadyIntegration Example.tab
      "http://site.example/" Js.undefined Example.world).1 ≠ SelectorsAndScripts.empty := by
  refine ⟨rfl, rfl, ?_⟩
  intro h
  cases h

/-- C17, amended: `processGetSelectorsAndScripts` returns the empty object `{}` whenever the
Rule Matcher is ready and integration mode is active, filtering is globally disabled, or the
tab is document-whitelisted (and also for a null tab); no selectors and no scripts are
fetched. -/
theorem processGetSelectorsAndScripts_empty {σ : Type} (A : Collaborators σ) (w : World σ)
    (tab : Js Tab) (documentUrl : String) (genericHide : Js Bool)
    (hready : A.requestFilter_isReady w.ext = true)
    (hoff : A.integration_isActive w.ext = true ∨ A.settings_isFilteringDisabled w.ext = true ∨
      A.frames_isTabWhiteListed w.ext tab = true) :
    (processGetSelectorsAndScripts A tab documentUrl genericHide w).1 =
      SelectorsAndScripts.empty ∧
    (processGetSelectorsAndScripts A tab documentUrl genericHide w).2.calls.filter
      Call.isSelectorFetch = w.calls.filter Call.isSelectorFetch ∧
    (processGetSelectorsAndScripts A tab documentUrl genericHide w).2.calls.filter
      Call.isScriptFetch = w.calls.filter Call.isScriptFetch := by
  unfold processGetSelectorsAndScripts
  by_cases htab : tab.truthy = true
  · by_cases hint : A.integration_isActive w.ext = true
    · simp [htab, hready, hint, World.query, Call.isSelectorFetch, Call.isScriptFetch]
    · by_cases hfil : A.settings_isFilteringDisabled w.ext = true
      · simp [htab, hready, hint, hfil, World.query, Call.isSelectorFetch, Call.isScriptFetch]
      · have hwl : A.frames_isTabWhiteListed w.ext tab = true := by
          rcases hoff with h | h | h
          · exact absurd h hint
          · exact absurd h hfil
          · exact h
        simp [htab, hready, hint, hfil, hwl, World.query, Call.isSelectorFetch,
          Call.isScriptFetch]
  · simp [htab]

/-- Witness of the amended C17: integration is active and the Rule Matcher is ready; the
answer is `{}`. -/
theorem processGetSelectorsAndScripts_empty_witness :
    (processGetSelectorsAndScripts Example.integrationActive Example.tab
      "http://site.example/" Js.undefined Example.world).1 = SelectorsAndScripts.empty :=
  (processGetSelectorsAndScripts_empty Example.integrationActive Example.world Example.tab
    "http://site.example/" Js.undefined rfl (Or.inl rfl)).1

/-- The loop of `processShouldCollapseMany` annotates every entry with the verdict for that
entry, computed in the collaborator state of the start, and leaves that state as it is. -/
theorem processShouldCollapseMany_loop {σ : Type} (A : Collaborators σ) (tab : Js Tab)
    (referrerUrl : Js String) (requests : List CollapseRequest) (w v : World σ)
    (hext : v.ext = w.ext) :
    (processShouldCollapseMany.loop A tab referrerUrl requests v).1 =
      requests.map (fun request =>
        { request with
          collapse := isRequestBlockedByRule
            (getRuleForRequest A tab request.elementUrl referrerUrl request.requestType w).1 }) ∧
    (processShouldCollapseMany.loop A tab referrerUrl requests v).2.ext = w.ext := by
  induction requests generalizing v with
  | nil => exact ⟨rfl, hext⟩
  | cons request rest ih =>
    have hnext : (getRuleForRequest A tab request.elementUrl referrerUrl request.requestType
        v).2.ext = w.ext := by
      rw [getRuleForRequest_ext, hext]
    obtain ⟨ih1, ih2⟩ := ih _ hnext
    simp only [processShouldCollapseMany.loop, List.map_cons]
    refine ⟨?_, ih2⟩
    rw [ih1, getRuleForRequest_fst_congr A tab request.elementUrl referrerUrl
      request.requestType v w hext]

/-- C20: for a non-null tab, `processShouldCollapseMany` returns the entries in the same order
and number, the `collapse` property of every entry being the value of
`processShouldCollapse(tab, entry.elementUrl, referrerUrl, entry.requestType)` and every other
property being as before; for a null tab the list is returned as it is. -/
theorem processShouldCollapseMany_spec {σ : Type} (A : Collaborators σ) (tab : Js Tab)
    (referrerUrl : Js String) (requests : List CollapseRequest) (w : World σ) :
    (tab.truthy = true →
      (processShouldCollapseMany A tab referrerUrl requests w).1 =
        requests.map (fun request =>
          { elementUrl := request.elementUrl, requestType := request.requestType,
            requestId := request.requestId,
            collapse := (processShouldCollapse A tab request.elementUrl referrerUrl
              request.requestType w).1 }) ∧
      (processShouldCollapseMany A tab referrerUrl requests w).1.length = requests.length ∧
      (processShouldCollapseMany A tab referrerUrl requests w).2.ext = w.ext) ∧
    (tab.truthy = false →
      processShouldCollapseMany A tab referrerUrl requests w = (requests, w)) := by
  constructor
  · intro htab
    obtain ⟨h1, h2⟩ := processShouldCollapseMany_loop A tab referrerUrl requests w w rfl
    have hmany : processShouldCollapseMany A tab referrerUrl requests w =
        processShouldCollapseMany.loop A tab referrerUrl requests w := by
      simp [processShouldCollapseMany, htab]
    have hone : ∀ request : CollapseRequest,
        (processShouldCollapse A tab request.elementUrl referrerUrl request.requestType w).1 =
          isRequestBlockedByRule (getRuleForRequest A tab request.elementUrl referrerUrl
            request.requestType w).1 := by
      intro request
      simp [processShouldCollapse, htab]
    rw [hmany, h1]
    refine ⟨?_, by simp, h2⟩
    apply List.map_congr_left
    intro request _
    rw [hone]
  · intro htab
    simp [processShouldCollapseMany, htab]

/-- Witness of C20: of the two images of the page, the one of `evil.example` is marked for
collapsing and the one of the page is not; order and request ids are kept. -/
theorem processShouldCollapseMany_spec_witness :
    (processShouldCollapseMany Example.collaborators Example.tab (Js.obj "http://site.example/")
      Example.collapseRequests Example.world).1 =
      [{ elementUrl := "http://evil.example/banner.png", requestType := RequestType.IMAGE,
         requestId := 7, collapse := Js.obj true },
       { elementUrl := "http://site.example/logo.png", requestType := RequestType.IMAGE,
         requestId := 8, collapse := Js.null }] :=
  ((processShouldCollapseMany_spec Example.collaborators Example.tab
    (Js.obj "http://site.example/") Example.collapseRequests Example.world).1 rfl).1.trans
    (by decide)

/-! ## Theorems: the response stage -/

section ResponseLemmas

/-- `processRequestResponse` throws exactly for a DOCUMENT response with a null tab. -/
theorem processRequestResponse_returned {σ : Type} (A : Collaborators σ) (tab : Js Tab)
    (requestUrl : String) (referrerUrl : Js String) (requestType : RequestType) (w : World σ) :
    Thrown.returned (processRequestResponse A tab requestUrl referrerUrl requestType w) = false ↔
      requestType = RequestType.DOCUMENT ∧ tab.truthy = false := by
  unfold processRequestResponse
  by_cases hdoc : requestType = RequestType.DOCUMENT
  · cases tab with
    | null => simp [hdoc, Thrown.returned, Js.truthy]
    | undefined => simp [hdoc, Thrown.returned, Js.truthy]
    | obj t =>
      simp only [hdoc, if_true, Js.truthy, JsTruthy.truthy]
      split <;> (try split) <;> simp [Thrown.returned]
  · simp only [hdoc, if_false, false_and, iff_false]
    split <;> (try split) <;> simp [Thrown.returned]

/-- The statements of `onHeadersReceived` before the websocket check throw exactly for a
DOCUMENT response with a null tab. -/
theorem onHeadersReceived_pre_returned {σ : Type} (A : Collaborators σ) (d : RequestDetails)
    (w : World σ) :
    Thrown.returned (onHeadersReceived.pre A d w) = false ↔
      d.requestType = RequestType.DOCUMENT ∧ d.tab.truthy = false := by
  rw [← processRequestResponse_returned A d.tab d.requestUrl (getReferrerUrl A d w).1
    d.requestType (getReferrerUrl A d w).2]
  unfold onHeadersReceived.pre
  dsimp only
  cases processRequestResponse A d.tab d.requestUrl (getReferrerUrl A d w).1 d.requestType
      (getReferrerUrl A d w).2 with
  | error e => simp [Thrown.returned]
  | ok w1 =>
    dsimp only
    split <;> simp [Thrown.returned]

end ResponseLemmas

/-- C15, as stated, fails: the probe of `onHeadersReceived` for a frame of `site.example`,
evaluated by `checkWebSocketRequest`, adds an event for the probe URL
`ws://adguardwebsocket.check/site.example` to the filtering log. -/
theorem checkWebSocketRequest_logs_probe_counterexample :
    onHeadersReceived.websocketCheckUrl Example.collaborators (Js.obj "http://site.example/") =
      "ws://adguardwebsocket.check/site.example" ∧
    ((checkWebSocketRequest Example.collaborators Example.tab
      "ws://adguardwebsocket.check/site.example" (Js.obj "http://site.example/")
      Example.world).2.calls.filter Call.isFilteringLogEvent).length = 1 := by
  constructor
  · decide
  · simp [checkWebSocketRequest, getRuleForRequest, World.query, World.command,
      Example.collaborators, Example.world, Example.tab, Js.truthy, JsTruthy.truthy,
      Call.isFilteringLogEvent, List.filter_cons]

/-- C15, amended: for a non-null tab, evaluating the websocket probe makes the queries of
`getRuleForRequest` and then exactly one command, the `filteringLog.addEvent` for the probe URL
with type WEBSOCKET and the rule found; it raises no notification and records no statistic.
For a null tab it does nothing. -/
theorem checkWebSocketRequest_effects {σ : Type} (A : Collaborators σ) (tab : Js Tab)
    (requestUrl : String) (referrerUrl : Js String) (w : World σ) :
    (tab.truthy = true →
      (checkWebSocketRequest A tab requestUrl referrerUrl w).1 =
        isRequestBlockedByRule
          (getRuleForRequest A tab requestUrl referrerUrl RequestType.WEBSOCKET w).1 ∧
      (checkWebSocketRequest A tab requestUrl referrerUrl w).2.calls.filter Call.isCommand =
        w.calls.filter Call.isCommand ++
          [Call.filteringLog_addEvent tab requestUrl referrerUrl RequestType.WEBSOCKET
            (getRuleForRequest A tab requestUrl referrerUrl RequestType.WEBSOCKET w).1] ∧
      (checkWebSocketRequest A tab requestUrl referrerUrl w).2.calls.filter
        Call.isNotification = w.calls.filter Call.isNotification ∧
      (checkWebSocketRequest A tab requestUrl referrerUrl w).2.calls.filter
        Call.isStatistic = w.calls.filter Call.isStatistic) ∧
    (tab.truthy = false →
      checkWebSocketRequest A tab requestUrl referrerUrl w = (Js.obj false, w)) := by
  constructor
  · intro htab
    obtain ⟨extra, hcalls, hcmd, _, hnot, hstat⟩ :=
      getRuleForRequest_calls A tab requestUrl referrerUrl RequestType.WEBSOCKET w
    simp only [checkWebSocketRequest, htab, World.command, hcalls, Bool.not_true,
      Bool.false_eq_true, if_false, List.filter_append, hcmd, hnot, hstat]
    simp [Call.isCommand, Call.isNotification, Call.isStatistic]
  · intro htab
    simp [checkWebSocketRequest, htab]

/-- Witness of the amended C15: the probe for the frame of `site.example` is not blocked, and
its only command is the log event. -/
theorem checkWebSocketRequest_effects_witness :
    (checkWebSocketRequest Example.collaborators Example.tab
      "ws://adguardwebsocket.check/site.example" (Js.obj "http://site.example/")
      Example.world).1 = Js.null ∧
    ((checkWebSocketRequest Example.collaborators Example.tab
      "ws://adguardwebsocket.check/site.example" (Js.obj "http://site.example/")
      Example.world).2.calls.filter Call.isStatistic) = [] :=
  have h := (checkWebSocketRequest_effects Example.collaborators Example.tab
    "ws://adguardwebsocket.check/site.example" (Js.obj "http://site.example/")
    Example.world).1 rfl
  ⟨h.1.trans (by
      simp [getRuleForRequest, World.query, Example.collaborators, Example.world,
        Example.findRuleForRequest, isRequestBlockedByRule]
      decide),
    h.2.2.2⟩

/-- C13: `onHeadersReceived` returns a header modification exactly when the request type is
DOCUMENT or SUBDOCUMENT and `checkWebSocketRequest(tab, "ws://adguardwebsocket.check/" +
getDomainName(frameUrl), frameUrl)` is truthy, `frameUrl` being `frames.getFrameUrl(tab,
frameId)` read after the bookkeeping of the response.  In every other case nothing is
returned and `responseHeaders` is as before.  (Nothing is returned also when the call throws,
which happens exactly for a DOCUMENT response with a null tab, before the check.) -/
theorem onHeadersReceived_modifies_iff {σ : Type} (A : Collaborators σ) (d : RequestDetails)
    (w : World σ) :
    ((onHeadersReceived.resultOf (onHeadersReceived A d w)).truthy = true ↔
      (d.requestType = RequestType.DOCUMENT ∨ d.requestType = RequestType.SUBDOCUMENT) ∧
      (checkWebSocketRequest A d.tab
        ("ws://adguardwebsocket.check/" ++
          (A.utils_url_getDomainName
            (A.frames_getFrameUrl (Thrown.worldOf (onHeadersReceived.pre A d w)).ext d.tab
              d.frameId)).toStr)
        (A.frames_getFrameUrl (Thrown.worldOf (onHeadersReceived.pre A d w)).ext d.tab
          d.frameId)
        ((Thrown.worldOf (onHeadersReceived.pre A d w)).query
          (Call.frames_getFrameUrl d.tab d.frameId))).1.truthy = true) ∧
    ((onHeadersReceived.resultOf (onHeadersReceived A d w)).truthy = false →
      onHeadersReceived.resultOf (onHeadersReceived A d w) = Js.undefined ∧
      onHeadersReceived.headersOf d (onHeadersReceived A d w) = d.responseHeaders) ∧
    (Thrown.returned (onHeadersReceived A d w) = false ↔
      d.requestType = RequestType.DOCUMENT ∧ d.tab.truthy = false) := by
  have hthrow := onHeadersReceived_pre_returned A d w
  have hundef : (Js.undefined : Js HeadersModification).truthy = false := rfl
  unfold onHeadersReceived onHeadersReceived.websocketCheckUrl
  cases hpre : onHeadersReceived.pre A d w with
  | error e =>
    rw [hpre] at hthrow
    have hnull := hthrow.mp rfl
    have hcheck : ∀ (u : String) (r : Js String) (v : World σ),
        checkWebSocketRequest A d.tab u r v = (Js.obj false, v) := by
      intro u r v
      simp [checkWebSocketRequest, hnull.2]
    refine ⟨?_, ?_, ?_⟩
    · constructor
      · intro h
        simp only [onHeadersReceived.resultOf] at h
        rw [hundef] at h
        cases h
      · intro h
        have h2 := h.2
        rw [hcheck] at h2
        cases h2
    · intro _
      exact ⟨rfl, rfl⟩
    · simp [Thrown.returned, hnull.1, hnull.2]
  | ok w1 =>
    rw [hpre] at hthrow
    have hok : ¬ (d.requestType = RequestType.DOCUMENT ∧ d.tab.truthy = false) := by
      intro h
      have := hthrow.mpr h
      simp [Thrown.returned] at this
    have hret : ∀ x : HeadersReceived × World σ,
        (Thrown.returned (Except.ok x : Thrown σ (HeadersReceived × World σ)) = false ↔
          d.requestType = RequestType.DOCUMENT ∧ d.tab.truthy = false) := by
      intro x
      constructor
      · intro h
        cases h
      · intro h
        exact absurd h hok
    simp only [Thrown.worldOf]
    by_cases htype : d.requestType = RequestType.DOCUMENT ∨
        d.requestType = RequestType.SUBDOCUMENT
    · rw [if_pos htype]
      by_cases hcheck : (checkWebSocketRequest A d.tab
          ("ws://adguardwebsocket.check/" ++
            (A.utils_url_getDomainName
              (A.frames_getFrameUrl (w1.query (Call.frames_getFrameUrl d.tab d.frameId)).ext
                d.tab d.frameId)).toStr)
          (A.frames_getFrameUrl (w1.query (Call.frames_getFrameUrl d.tab d.frameId)).ext
            d.tab d.frameId)
          (w1.query (Call.frames_getFrameUrl d.tab d.frameId))).1.truthy = true
      · rw [if_pos hcheck]
        refine ⟨?_, ?_, hret _⟩
        · constructor
          · intro _
            exact ⟨htype, hcheck⟩
          · intro _
            rfl
        · intro h
          simp only [onHeadersReceived.resultOf] at h
          cases h
      · rw [if_neg hcheck]
        refine ⟨?_, ?_, hret _⟩
        · constructor
          · intro h
            simp only [onHeadersReceived.resultOf] at h
            rw [hundef] at h
            cases h
          · intro h
            exact absurd h.2 hcheck
        · intro _
          exact ⟨rfl, rfl⟩
    · rw [if_neg htype]
      refine ⟨?_, ?_, hret _⟩
      · constructor
        · intro h
          simp only [onHeadersReceived.resultOf] at h
          rw [hundef] at h
          cases h
        · intro h
          exact absurd h.1 htype
      · intro _
        exact ⟨rfl, rfl⟩

/-- Witness of C13: the Rule Matcher blocks the websocket probe of `tracker.example` and
nothing else.  The response of the frame 1, which shows `http://tracker.example/`, gets a
header modification; the response of the frame 0, which shows `http://site.example/`, gets
none. -/
theorem onHeadersReceived_modifies_iff_witness :
    (onHeadersReceived.resultOf
      (onHeadersReceived Example.trackerProbeBlocker Example.subdocumentResponse
        Example.world)).truthy = true ∧
    (onHeadersReceived.resultOf
      (onHeadersReceived Example.trackerProbeBlocker Example.siteSubdocumentResponse
        Example.world)).truthy = false :=
  ⟨(onHeadersReceived_modifies_iff Example.trackerProbeBlocker Example.subdocumentResponse
      Example.world).1.mpr ⟨Or.inr rfl, by decide⟩,
   by decide⟩

/-- C14: when `onHeadersReceived` returns a modification, its `responseHeaders` are the
response headers of the request, in their order and unaltered, followed by the one entry
`Content-Security-Policy: connect-src http: https:; frame-src http: https:; child-src http:
https:`, and its `modifiedHeaders` is the list of that one entry. -/
theorem onHeadersReceived_appends_csp {σ : Type} (A : Collaborators σ) (d : RequestDetails)
    (w : World σ) (m : HeadersModification)
    (hm : onHeadersReceived.resultOf (onHeadersReceived A d w) = Js.obj m) :
    m.responseHeaders = d.responseHeaders ++ [cspHeader] ∧
    m.modifiedHeaders = [cspHeader] ∧
    onHeadersReceived.headersOf d (onHeadersReceived A d w) =
      d.responseHeaders ++ [cspHeader] ∧
    m.responseHeaders.take d.responseHeaders.length = d.responseHeaders ∧
    m.responseHeaders.length = d.responseHeaders.length + 1 ∧
    cspHeader.name = "Content-Security-Policy" ∧
    cspHeader.value =
      "connect-src http: https:; frame-src http: https:; child-src http: https:" := by
  have hshape : m.responseHeaders = d.responseHeaders ++ [cspHeader] ∧
      m.modifiedHeaders = [cspHeader] ∧
      onHeadersReceived.headersOf d (onHeadersReceived A d w) =
        d.responseHeaders ++ [cspHeader] := by
    unfold onHeadersReceived at hm ⊢
    cases hpre : onHeadersReceived.pre A d w with
    | error e =>
      simp [hpre, onHeadersReceived.resultOf] at hm
    | ok w1 =>
      simp only [hpre] at hm ⊢
      split at hm
      · split at hm
        · rename_i hcheck
          simp only [onHeadersReceived.resultOf] at hm
          have hmm := Js.obj.inj hm
          rw [← hmm]
          rename_i htype
          simp [htype, hcheck, onHeadersReceived.headersOf]
        · simp [onHeadersReceived.resultOf] at hm
      · simp [onHeadersReceived.resultOf] at hm
  obtain ⟨h1, h2, h3⟩ := hshape
  refine ⟨h1, h2, h3, ?_, ?_, rfl, rfl⟩
  · rw [h1, List.take_left']
    rfl
  · rw [h1]
    simp

/-- Witness of C14: the two headers of the response of the frame of `tracker.example`, one of
them a `Content-Security-Policy` header, are kept and the new header comes third. -/
theorem onHeadersReceived_appends_csp_witness :
    onHeadersReceived.headersOf Example.subdocumentResponse
      (onHeadersReceived Example.websocketBlocker Example.subdocumentResponse Example.world) =
      [{ name := "Content-Type", value := "text/html" },
       { name := "Content-Security-Policy", value := "default-src https:" },
       { name := "Content-Security-Policy",
         value := "connect-src http: https:; frame-src http: https:; child-src http: https:" }] :=
  (onHeadersReceived_appends_csp Example.websocketBlocker Example.subdocumentResponse
    Example.world
    { responseHeaders := [{ name := "Content-Type", value := "text/html" },
        { name := "Content-Security-Policy", value := "default-src https:" }, cspHeader],
      modifiedHeaders := [cspHeader] }
    (by decide)).2.2.1

/-! ## Theorems: the selector and script payload -/

section PayloadLemmas

/-- The whitelist rule that `processGetSelectorsAndScripts` resolves: the cached rule of the
frame when there is one, and otherwise the result of `findWhiteListRule` for the document URL
and the URL of the main frame. -/
theorem whitelistRule_fst {σ : Type} (A : Collaborators σ) (tab : Js Tab)
    (documentUrl : String) (v : World σ) :
    ((A.frames_getFrameWhiteListRule v.ext tab).truthy = true →
      (processGetSelectorsAndScripts.whitelistRule A tab documentUrl v).1 =
        A.frames_getFrameWhiteListRule v.ext tab) ∧
    ((A.frames_getFrameWhiteListRule v.ext tab).truthy = false →
      (processGetSelectorsAndScripts.whitelistRule A tab documentUrl v).1 =
        A.requestFilter_findWhiteListRule v.ext documentUrl (A.frames_getMainFrameUrl v.ext tab)
          RequestType.DOCUMENT) := by
  constructor <;> intro h <;>
    simp [processGetSelectorsAndScripts.whitelistRule, World.query, h]

/-- The resolved whitelist rule depends on the collaborator state only. -/
theorem whitelistRule_fst_congr {σ : Type} (A : Collaborators σ) (tab : Js Tab)
    (documentUrl : String) (v w : World σ) (hext : v.ext = w.ext) :
    (processGetSelectorsAndScripts.whitelistRule A tab documentUrl v).1 =
      (processGetSelectorsAndScripts.whitelistRule A tab documentUrl w).1 := by
  simp only [processGetSelectorsAndScripts.whitelistRule, World.query, hext]
  split <;> rfl

/-- Resolving the whitelist rule leaves the collaborator state as it is and fetches neither
selectors nor scripts. -/
theorem whitelistRule_world {σ : Type} (A : Collaborators σ) (tab : Js Tab)
    (documentUrl : String) (v : World σ) :
    (processGetSelectorsAndScripts.whitelistRule A tab documentUrl v).2.ext = v.ext ∧
    (processGetSelectorsAndScripts.whitelistRule A tab documentUrl v).2.calls.filter
      Call.isSelectorFetch = v.calls.filter Call.isSelectorFetch ∧
    (processGetSelectorsAndScripts.whitelistRule A tab documentUrl v).2.calls.filter
      Call.isScriptFetch = v.calls.filter Call.isScriptFetch ∧
    (processGetSelectorsAndScripts.whitelistRule A tab documentUrl v).2.calls.filter
      Call.isGetSelectorsForUrl = v.calls.filter Call.isGetSelectorsForUrl := by
  simp only [processGetSelectorsAndScripts.whitelistRule, World.query]
  split <;>
    simp [List.filter_append, Call.isSelectorFetch, Call.isScriptFetch,
      Call.isGetSelectorsForUrl]

/-- The verdict of `shouldLoadAllSelectors` depends on the collaborator state only. -/
theorem shouldLoadAllSelectors_fst_congr {σ : Type} (A : Collaborators σ)
    (collapseAllElements : Bool) (v w : World σ) (hext : v.ext = w.ext) :
    (shouldLoadAllSelectors A collapseAllElements v).1 =
      (shouldLoadAllSelectors A collapseAllElements w).1 := by
  simp only [shouldLoadAllSelectors, World.query]
  cases A.utils_browser_isFirefoxBrowser <;> simp [hext] <;> split <;> (try split) <;> rfl

/-- `shouldLoadAllSelectors` leaves the collaborator state as it is and fetches neither
selectors nor scripts. -/
theorem shouldLoadAllSelectors_world {σ : Type} (A : Collaborators σ)
    (collapseAllElements : Bool) (v : World σ) :
    (shouldLoadAllSelectors A collapseAllElements v).2.ext = v.ext ∧
    (shouldLoadAllSelectors A collapseAllElements v).2.calls.filter Call.isSelectorFetch =
      v.calls.filter Call.isSelectorFetch ∧
    (shouldLoadAllSelectors A collapseAllElements v).2.calls.filter Call.isScriptFetch =
      v.calls.filter Call.isScriptFetch ∧
    (shouldLoadAllSelectors A collapseAllElements v).2.calls.filter Call.isGetSelectorsForUrl =
      v.calls.filter Call.isGetSelectorsForUrl := by
  simp only [shouldLoadAllSelectors, World.query]
  cases A.utils_browser_isFirefoxBrowser <;> simp <;> split <;> (try split) <;>
    simp [List.filter_append, Call.isSelectorFetch, Call.isScriptFetch,
      Call.isGetSelectorsForUrl]

end PayloadLemmas

section PayloadSteps

/-- The selectors step when the whitelist rule excepts ELEMHIDE: nothing is fetched. -/
theorem selectors_of_elemhide {σ : Type} (A : Collaborators σ) (documentUrl : String)
    (genericHide : Js Bool) (wl : Js Rule) (collapseAllElements : Bool) (v : World σ)
    (hel : (checkContentTypeOf wl "ELEMHIDE").truthy = true) :
    processGetSelectorsAndScripts.selectors A documentUrl genericHide wl collapseAllElements v =
      ({ css := Js.null, extendedCss := Js.null }, v) := by
  simp [processGetSelectorsAndScripts.selectors, hel]

/-- The selectors step when the whitelist rule does not except ELEMHIDE: one fetch, complete
or injected by the verdict of `shouldLoadAllSelectors`, with the generic-hide flag. -/
theorem selectors_of_no_elemhide {σ : Type} (A : Collaborators σ) (documentUrl : String)
    (genericHide : Js Bool) (wl : Js Rule) (collapseAllElements : Bool) (v : World σ)
    (hel : (checkContentTypeOf wl "ELEMHIDE").truthy = false) :
    (processGetSelectorsAndScripts.selectors A documentUrl genericHide wl collapseAllElements
      v).2.ext = v.ext ∧
    (processGetSelectorsAndScripts.selectors A documentUrl genericHide wl collapseAllElements
      v).2.calls.filter Call.isScriptFetch = v.calls.filter Call.isScriptFetch ∧
    ((shouldLoadAllSelectors A collapseAllElements v).1 = true →
      (processGetSelectorsAndScripts.selectors A documentUrl genericHide wl collapseAllElements
        v).1 = A.requestFilter_getSelectorsForUrl v.ext documentUrl
          (Js.or genericHide (checkContentTypeOf wl "GENERICHIDE")) ∧
      (processGetSelectorsAndScripts.selectors A documentUrl genericHide wl collapseAllElements
        v).2.calls.filter Call.isSelectorFetch = v.calls.filter Call.isSelectorFetch ++
          [Call.requestFilter_getSelectorsForUrl documentUrl
            (Js.or genericHide (checkContentTypeOf wl "GENERICHIDE"))]) ∧
    ((shouldLoadAllSelectors A collapseAllElements v).1 = false →
      (processGetSelectorsAndScripts.selectors A documentUrl genericHide wl collapseAllElements
        v).1 = A.requestFilter_getInjectedSelectorsForUrl v.ext documentUrl
          (Js.or genericHide (checkContentTypeOf wl "GENERICHIDE")) ∧
      (processGetSelectorsAndScripts.selectors A documentUrl genericHide wl collapseAllElements
        v).2.calls.filter Call.isSelectorFetch = v.calls.filter Call.isSelectorFetch ++
          [Call.requestFilter_getInjectedSelectorsForUrl documentUrl
            (Js.or genericHide (checkContentTypeOf wl "GENERICHIDE"))] ∧
      (processGetSelectorsAndScripts.selectors A documentUrl genericHide wl collapseAllElements
        v).2.calls.filter Call.isGetSelectorsForUrl =
          v.calls.filter Call.isGetSelectorsForUrl) := by
  obtain ⟨hx, hs, hc, hg⟩ := shouldLoadAllSelectors_world A collapseAllElements v
  by_cases hload : (shouldLoadAllSelectors A collapseAllElements v).1 = true
  · simp [processGetSelectorsAndScripts.selectors, hel, hload, World.query, hx,
      List.filter_append, hs, hc, Call.isSelectorFetch, Call.isScriptFetch]
  · simp only [Bool.not_eq_true] at hload
    simp [processGetSelectorsAndScripts.selectors, hel, hload, World.query, hx,
      List.filter_append, hs, hc, hg, Call.isSelectorFetch, Call.isScriptFetch,
      Call.isGetSelectorsForUrl]

/-- The scripts step: no fetch when the whitelist rule excepts JSINJECT, one fetch
otherwise. -/
theorem scripts_spec {σ : Type} (A : Collaborators σ) (documentUrl : String) (wl : Js Rule)
    (v : World σ) :
    ((checkContentTypeOf wl "JSINJECT").truthy = true →
      processGetSelectorsAndScripts.scripts A documentUrl wl v = (Js.null, v)) ∧
    ((checkContentTypeOf wl "JSINJECT").truthy = false →
      (processGetSelectorsAndScripts.scripts A documentUrl wl v).1 =
        A.requestFilter_getScriptsForUrl v.ext documentUrl ∧
      (processGetSelectorsAndScripts.scripts A documentUrl wl v).2.calls.filter
        Call.isScriptFetch = v.calls.filter Call.isScriptFetch ++
          [Call.requestFilter_getScriptsForUrl documentUrl] ∧
      (processGetSelectorsAndScripts.scripts A documentUrl wl v).2.calls.filter
        Call.isSelectorFetch = v.calls.filter Call.isSelectorFetch ∧
      (processGetSelectorsAndScripts.scripts A documentUrl wl v).2.calls.filter
        Call.isGetSelectorsForUrl = v.calls.filter Call.isGetSelectorsForUrl) := by
  constructor <;> intro h <;>
    simp [processGetSelectorsAndScripts.scripts, h, World.query, List.filter_append,
      Call.isScriptFetch, Call.isSelectorFetch, Call.isGetSelectorsForUrl]

/-- Past its guards `processGetSelectorsAndScripts` is its payload part, run in a world with
the collaborator state and the selector and script fetches of the start. -/
theorem processGetSelectorsAndScripts_of_guards {σ : Type} (A : Collaborators σ)
    (w : World σ) (tab : Js Tab) (documentUrl : String) (genericHide : Js Bool)
    (htab : tab.truthy = true) (hready : A.requestFilter_isReady w.ext = true)
    (hint : A.integration_isActive w.ext = false)
    (hfil : A.settings_isFilteringDisabled w.ext = false)
    (hwhite : A.frames_isTabWhiteListed w.ext tab = false) :
    ∃ v : World σ, v.ext = w.ext ∧
      v.calls.filter Call.isSelectorFetch = w.calls.filter Call.isSelectorFetch ∧
      v.calls.filter Call.isScriptFetch = w.calls.filter Call.isScriptFetch ∧
      v.calls.filter Call.isGetSelectorsForUrl = w.calls.filter Call.isGetSelectorsForUrl ∧
      processGetSelectorsAndScripts A tab documentUrl genericHide w =
        ((SelectorsAndScripts.payload
          (processGetSelectorsAndScripts.selectors A documentUrl genericHide
            (processGetSelectorsAndScripts.whitelistRule A tab documentUrl v).1
            (A.requestFilter_shouldCollapseAllElements w.ext)
            (processGetSelectorsAndScripts.whitelistRule A tab documentUrl v).2).1
          (processGetSelectorsAndScripts.scripts A documentUrl
            (processGetSelectorsAndScripts.whitelistRule A tab documentUrl v).1
            (processGetSelectorsAndScripts.selectors A documentUrl genericHide
              (processGetSelectorsAndScripts.whitelistRule A tab documentUrl v).1
              (A.requestFilter_shouldCollapseAllElements w.ext)
              (processGetSelectorsAndScripts.whitelistRule A tab documentUrl v).2).2).1
          (A.requestFilter_shouldCollapseAllElements w.ext)
          A.utils_browser_isShadowDomSupported),
        (processGetSelectorsAndScripts.scripts A documentUrl
          (processGetSelectorsAndScripts.whitelistRule A tab documentUrl v).1
          (processGetSelectorsAndScripts.selectors A documentUrl genericHide
            (processGetSelectorsAndScripts.whitelistRule A tab documentUrl v).1
            (A.requestFilter_shouldCollapseAllElements w.ext)
            (processGetSelectorsAndScripts.whitelistRule A tab documentUrl v).2).2).2) := by
  refine ⟨((((w.query Call.requestFilter_isReady).query Call.integration_isActive).query
    Call.settings_isFilteringDisabled).query (Call.frames_isTabWhiteListed tab)).query
    Call.requestFilter_shouldCollapseAllElements, rfl, ?_, ?_, ?_, ?_⟩
  · simp [World.query, List.filter_append, Call.isSelectorFetch]
  · simp [World.query, List.filter_append, Call.isScriptFetch]
  · simp [World.query, List.filter_append, Call.isGetSelectorsForUrl]
  · simp [processGetSelectorsAndScripts, processGetSelectorsAndScripts.payload, htab, hready,
      hint, hfil, hwhite, World.query]

end PayloadSteps

section PayloadFacts

/-- The truthiness of `a || b` is the disjunction of the truthiness of `a` and of `b`. -/
theorem Js.or_truthy (a b : Js Bool) : (Js.or a b).truthy = (a.truthy || b.truthy) := by
  unfold Js.or
  cases h : a.truthy <;> simp [h]

/-- The selectors step leaves the collaborator state and the script fetches as they are. -/
theorem selectors_world {σ : Type} (A : Collaborators σ) (documentUrl : String)
    (genericHide : Js Bool) (wl : Js Rule) (collapseAllElements : Bool) (v : World σ) :
    (processGetSelectorsAndScripts.selectors A documentUrl genericHide wl collapseAllElements
      v).2.ext = v.ext ∧
    (processGetSelectorsAndScripts.selectors A documentUrl genericHide wl collapseAllElements
      v).2.calls.filter Call.isScriptFetch = v.calls.filter Call.isScriptFetch := by
  cases hel : (checkContentTypeOf wl "ELEMHIDE").truthy with
  | true =>
    rw [selectors_of_elemhide A documentUrl genericHide wl collapseAllElements v hel]
    exact ⟨rfl, rfl⟩
  | false =>
    obtain ⟨h1, h2, _⟩ :=
      selectors_of_no_elemhide A documentUrl genericHide wl collapseAllElements v hel
    exact ⟨h1, h2⟩

/-- The scripts step leaves the selector fetches as they are. -/
theorem scripts_world {σ : Type} (A : Collaborators σ) (documentUrl : String) (wl : Js Rule)
    (v : World σ) :
    (processGetSelectorsAndScripts.scripts A documentUrl wl v).2.calls.filter
      Call.isSelectorFetch = v.calls.filter Call.isSelectorFetch ∧
    (processGetSelectorsAndScripts.scripts A documentUrl wl v).2.calls.filter
      Call.isGetSelectorsForUrl = v.calls.filter Call.isGetSelectorsForUrl := by
  cases hjs : (checkContentTypeOf wl "JSINJECT").truthy with
  | true =>
    rw [(scripts_spec A documentUrl wl v).1 hjs]
    exact ⟨rfl, rfl⟩
  | false =>
    obtain ⟨_, _, h3, h4⟩ := (scripts_spec A documentUrl wl v).2 hjs
    exact ⟨h3, h4⟩

end PayloadFacts

/-- C18: past the guards of `processGetSelectorsAndScripts`, with `wl` the cached whitelist
rule of the frame or, when there is none, `findWhiteListRule(documentUrl, mainFrameUrl,
DOCUMENT)`: if `wl` excepts ELEMHIDE, no selector fetch is made and `selectors` is
`{css: null, extendedCss: null}`; otherwise the selectors are fetched once, with a flag whose
truthiness is that of `genericHide` or of `wl` excepting GENERICHIDE; if `wl` excepts JSINJECT,
`getScriptsForUrl` is not called and `scripts` is null; otherwise `scripts` is
`getScriptsForUrl(documentUrl)`. -/
theorem processGetSelectorsAndScripts_payload {σ : Type} (A : Collaborators σ) (w : World σ)
    (tab : Js Tab) (documentUrl : String) (genericHide : Js Bool) (wl : Js Rule)
    (htab : tab.truthy = true) (hready : A.requestFilter_isReady w.ext = true)
    (hint : A.integration_isActive w.ext = false)
    (hfil : A.settings_isFilteringDisabled w.ext = false)
    (hwhite : A.frames_isTabWhiteListed w.ext tab = false)
    (hwl : wl = (processGetSelectorsAndScripts.whitelistRule A tab documentUrl w).1) :
    ((A.frames_getFrameWhiteListRule w.ext tab).truthy = true →
      wl = A.frames_getFrameWhiteListRule w.ext tab) ∧
    ((A.frames_getFrameWhiteListRule w.ext tab).truthy = false →
      wl = A.requestFilter_findWhiteListRule w.ext documentUrl
        (A.frames_getMainFrameUrl w.ext tab) RequestType.DOCUMENT) ∧
    ((checkContentTypeOf wl "ELEMHIDE").truthy = true →
      (processGetSelectorsAndScripts A tab documentUrl genericHide w).1.selectorsOf =
        some { css := Js.null, extendedCss := Js.null } ∧
      (processGetSelectorsAndScripts A tab documentUrl genericHide w).2.calls.filter
        Call.isSelectorFetch = w.calls.filter Call.isSelectorFetch) ∧
    ((checkContentTypeOf wl "ELEMHIDE").truthy = false →
      (Js.or genericHide (checkContentTypeOf wl "GENERICHIDE")).truthy =
        (genericHide.truthy || (checkContentTypeOf wl "GENERICHIDE").truthy) ∧
      ((shouldLoadAllSelectors A (A.requestFilter_shouldCollapseAllElements w.ext) w).1 = true →
        (processGetSelectorsAndScripts A tab documentUrl genericHide w).1.selectorsOf =
          some (A.requestFilter_getSelectorsForUrl w.ext documentUrl
            (Js.or genericHide (checkContentTypeOf wl "GENERICHIDE"))) ∧
        (processGetSelectorsAndScripts A tab documentUrl genericHide w).2.calls.filter
          Call.isSelectorFetch = w.calls.filter Call.isSelectorFetch ++
            [Call.requestFilter_getSelectorsForUrl documentUrl
              (Js.or genericHide (checkContentTypeOf wl "GENERICHIDE"))]) ∧
      ((shouldLoadAllSelectors A (A.requestFilter_shouldCollapseAllElements w.ext) w).1 = false →
        (processGetSelectorsAndScripts A tab documentUrl genericHide w).1.selectorsOf =
          some (A.requestFilter_getInjectedSelectorsForUrl w.ext documentUrl
            (Js.or genericHide (checkContentTypeOf wl "GENERICHIDE"))) ∧
        (processGetSelectorsAndScripts A tab documentUrl genericHide w).2.calls.filter
          Call.isSelectorFetch = w.calls.filter Call.isSelectorFetch ++
            [Call.requestFilter_getInjectedSelectorsForUrl documentUrl
              (Js.or genericHide (checkContentTypeOf wl "GENERICHIDE"))])) ∧
    ((checkContentTypeOf wl "JSINJECT").truthy = true →
      (processGetSelectorsAndScripts A tab documentUrl genericHide w).1.scriptsOf =
        some Js.null ∧
      (processGetSelectorsAndScripts A tab documentUrl genericHide w).2.calls.filter
        Call.isScriptFetch = w.calls.filter Call.isScriptFetch) ∧
    ((checkContentTypeOf wl "JSINJECT").truthy = false →
      (processGetSelectorsAndScripts A tab documentUrl genericHide w).1.scriptsOf =
        some (A.requestFilter_getScriptsForUrl w.ext documentUrl) ∧
      (processGetSelectorsAndScripts A tab documentUrl genericHide w).2.calls.filter
        Call.isScriptFetch = w.calls.filter Call.isScriptFetch ++
          [Call.requestFilter_getScriptsForUrl documentUrl]) := by
  obtain ⟨v, hvx, hvs, hvc, _, hR⟩ := processGetSelectorsAndScripts_of_guards A w tab
    documentUrl genericHide htab hready hint hfil hwhite
  have hwlv : (processGetSelectorsAndScripts.whitelistRule A tab documentUrl v).1 = wl := by
    rw [hwl]
    exact whitelistRule_fst_congr A tab documentUrl v w hvx
  obtain ⟨hrx, hrs, hrc, _⟩ := whitelistRule_world A tab documentUrl v
  rw [hwlv] at hR
  generalize (processGetSelectorsAndScripts.whitelistRule A tab documentUrl v).2 = u
    at hR hrx hrs hrc
  have hux : u.ext = w.ext := hrx.trans hvx
  have hus : u.calls.filter Call.isSelectorFetch = w.calls.filter Call.isSelectorFetch :=
    hrs.trans hvs
  have huc : u.calls.filter Call.isScriptFetch = w.calls.filter Call.isScriptFetch :=
    hrc.trans hvc
  have hload : (shouldLoadAllSelectors A (A.requestFilter_shouldCollapseAllElements w.ext) u).1 =
      (shouldLoadAllSelectors A (A.requestFilter_shouldCollapseAllElements w.ext) w).1 :=
    shouldLoadAllSelectors_fst_congr A _ u w hux
  obtain ⟨hsx, hsc⟩ := selectors_world A documentUrl genericHide wl
    (A.requestFilter_shouldCollapseAllElements w.ext) u
  obtain ⟨hks, _⟩ := scripts_world A documentUrl wl
    (processGetSelectorsAndScripts.selectors A documentUrl genericHide wl
      (A.requestFilter_shouldCollapseAllElements w.ext) u).2
  rw [hR]
  simp only [SelectorsAndScripts.selectorsOf, SelectorsAndScripts.scriptsOf]
  refine ⟨?_, ?_, ?_, ?_, ?_, ?_⟩
  · intro h
    rw [hwl]
    exact (whitelistRule_fst A tab documentUrl w).1 h
  · intro h
    rw [hwl]
    exact (whitelistRule_fst A tab documentUrl w).2 h
  · intro hel
    rw [hks, selectors_of_elemhide A documentUrl genericHide wl _ u hel]
    exact ⟨rfl, hus⟩
  · intro hel
    obtain ⟨_, _, hfull, hinj⟩ := selectors_of_no_elemhide A documentUrl genericHide wl
      (A.requestFilter_shouldCollapseAllElements w.ext) u hel
    refine ⟨Js.or_truthy _ _, ?_, ?_⟩
    · intro hl
      obtain ⟨h1, h2⟩ := hfull (hload.trans hl)
      rw [hks, h1, h2, hux, hus]
      exact ⟨rfl, rfl⟩
    · intro hl
      obtain ⟨h1, h2, _⟩ := hinj (hload.trans hl)
      rw [hks, h1, h2, hux, hus]
      exact ⟨rfl, rfl⟩
  · intro hjs
    rw [(scripts_spec A documentUrl wl _).1 hjs]
    exact ⟨rfl, hsc.trans huc⟩
  · intro hjs
    obtain ⟨h1, h2, _⟩ := (scripts_spec A documentUrl wl
      (processGetSelectorsAndScripts.selectors A documentUrl genericHide wl
        (A.requestFilter_shouldCollapseAllElements w.ext) u).2).2 hjs
    rw [h1, h2, hsx, hux, hsc, huc]
    exact ⟨rfl, rfl⟩

/-- Witness of C18: the frame carries the cached rule `@@||site.example^$elemhide`; the result
has no CSS, no selector fetch is made, and the scripts are fetched. -/
theorem processGetSelectorsAndScripts_payload_witness :
    (processGetSelectorsAndScripts (Example.withCachedRule Example.elemhideRule) Example.tab
      "http://site.example/" Js.undefined Example.world).1.selectorsOf =
      some { css := Js.null, extendedCss := Js.null } ∧
    (processGetSelectorsAndScripts (Example.withCachedRule Example.elemhideRule) Example.tab
      "http://site.example/" Js.undefined Example.world).1.scriptsOf =
      some (Js.obj ["window.adsbygoogle = 0"]) :=
  have h := processGetSelectorsAndScripts_payload (Example.withCachedRule Example.elemhideRule)
    Example.world Example.tab "http://site.example/" Js.undefined (Js.obj Example.elemhideRule)
    rfl rfl rfl rfl rfl rfl
  ⟨(h.2.2.1 (by decide)).1, (h.2.2.2.2.2 (by decide)).1⟩

/-- C19: `ElemHide` is the object of the Firefox build (`browser/firefox/lib/elemHide.js`), so
a state in which `ElemHide._isGlobalStyleSheetEnabled()` is true is a state of Firefox.  In
every such state `shouldLoadAllSelectors` returns false, `processGetSelectorsAndScripts` never
calls `getSelectorsForUrl`, and when it fetches selectors (past its guards, the whitelist rule
not excepting ELEMHIDE) the one fetch is a call of `getInjectedSelectorsForUrl`. -/
theorem shouldLoadAllSelectors_global_stylesheet {σ : Type} (A : Collaborators σ)
    (w : World σ) (collapseAllElements : Bool) (tab : Js Tab) (documentUrl : String)
    (genericHide : Js Bool)
    (hfirefox : A.utils_browser_isFirefoxBrowser = true)
    (hglobal : (ElemHide._isGlobalStyleSheetEnabled A w).1 = true) :
    (shouldLoadAllSelectors A collapseAllElements w).1 = false ∧
    (processGetSelectorsAndScripts A tab documentUrl genericHide w).2.calls.filter
      Call.isGetSelectorsForUrl = w.calls.filter Call.isGetSelectorsForUrl ∧
    (tab.truthy = true → A.requestFilter_isReady w.ext = true →
      A.integration_isActive w.ext = false → A.settings_isFilteringDisabled w.ext = false →
      A.frames_isTabWhiteListed w.ext tab = false →
      (checkContentTypeOf (processGetSelectorsAndScripts.whitelistRule A tab documentUrl w).1
        "ELEMHIDE").truthy = false →
      (processGetSelectorsAndScripts A tab documentUrl genericHide w).2.calls.filter
        Call.isSelectorFetch = w.calls.filter Call.isSelectorFetch ++
          [Call.requestFilter_getInjectedSelectorsForUrl documentUrl
            (Js.or genericHide
              (checkContentTypeOf
                (processGetSelectorsAndScripts.whitelistRule A tab documentUrl w).1
                "GENERICHIDE"))]) := by
  have hnever : ∀ (c : Bool) (v : World σ), v.ext = w.ext →
      (shouldLoadAllSelectors A c v).1 = false := by
    intro c v hv
    simp only [ElemHide._isGlobalStyleSheetEnabled, World.query, Bool.or_eq_true] at hglobal
    rcases hglobal with hcol | hpref
    · simp [shouldLoadAllSelectors, World.query, hfirefox, hv, hcol]
    · simp [shouldLoadAllSelectors, World.query, hfirefox, hv, hpref]
  refine ⟨hnever collapseAllElements w rfl, ?_, ?_⟩
  · by_cases htab : tab.truthy = true
    · by_cases hready : A.requestFilter_isReady w.ext = true
      · by_cases hint : A.integration_isActive w.ext = true
        · simp [processGetSelectorsAndScripts, htab, hready, hint, World.query,
            Call.isGetSelectorsForUrl]
        · by_cases hfil : A.settings_isFilteringDisabled w.ext = true
          · simp [processGetSelectorsAndScripts, htab, hready, hint, hfil, World.query,
              Call.isGetSelectorsForUrl]
          · by_cases hwhite : A.frames_isTabWhiteListed w.ext tab = true
            · simp [processGetSelectorsAndScripts, htab, hready, hint, hfil, hwhite,
                World.query, Call.isGetSelectorsForUrl]
            · simp only [Bool.not_eq_true] at hint hfil hwhite
              obtain ⟨v, hvx, _, _, hvg, hR⟩ := processGetSelectorsAndScripts_of_guards A w
                tab documentUrl genericHide htab hready hint hfil hwhite
              obtain ⟨hrx, _, _, hrg⟩ := whitelistRule_world A tab documentUrl v
              rw [hR]
              simp only
              rw [(scripts_world A documentUrl _ _).2]
              cases hel : (checkContentTypeOf
                  (processGetSelectorsAndScripts.whitelistRule A tab documentUrl v).1
                  "ELEMHIDE").truthy with
              | true =>
                rw [selectors_of_elemhide A documentUrl genericHide _ _ _ hel]
                exact hrg.trans hvg
              | false =>
                obtain ⟨_, _, _, hinj⟩ := selectors_of_no_elemhide A documentUrl genericHide
                  (processGetSelectorsAndScripts.whitelistRule A tab documentUrl v).1
                  (A.requestFilter_shouldCollapseAllElements w.ext)
                  (processGetSelectorsAndScripts.whitelistRule A tab documentUrl v).2 hel
                rw [(hinj (hnever _ _ (hrx.trans hvx))).2.2]
                exact hrg.trans hvg
      · simp [processGetSelectorsAndScripts, htab, hready, World.query,
          Call.isGetSelectorsForUrl]
    · simp [processGetSelectorsAndScripts, htab]
  · intro htab hready hint hfil hwhite hel
    obtain ⟨v, hvx, hvs, _, _, hR⟩ := processGetSelectorsAndScripts_of_guards A w tab
      documentUrl genericHide htab hready hint hfil hwhite
    have hwl : (processGetSelectorsAndScripts.whitelistRule A tab documentUrl v).1 =
        (processGetSelectorsAndScripts.whitelistRule A tab documentUrl w).1 :=
      whitelistRule_fst_congr A tab documentUrl v w hvx
    obtain ⟨hrx, hrs, _, _⟩ := whitelistRule_world A tab documentUrl v
    rw [hR]
    simp only
    rw [(scripts_world A documentUrl _ _).1, hwl]
    obtain ⟨_, _, _, hinj⟩ := selectors_of_no_elemhide A documentUrl genericHide
      (processGetSelectorsAndScripts.whitelistRule A tab documentUrl w).1
      (A.requestFilter_shouldCollapseAllElements w.ext)
      (processGetSelectorsAndScripts.whitelistRule A tab documentUrl v).2 hel
    rw [(hinj (hnever _ _ (hrx.trans hvx))).2.1, hrs, hvs]

/-- Witness of C19: on Firefox with the collection of hit statistics switched on,
`shouldLoadAllSelectors` is false, and the page gets its selectors through one call of
`getInjectedSelectorsForUrl`. -/
theorem shouldLoadAllSelectors_global_stylesheet_witness :
    (shouldLoadAllSelectors Example.firefoxCollectingHits false Example.world).1 = false ∧
    (processGetSelectorsAndScripts Example.firefoxCollectingHits Example.tab
      "http://site.example/" Js.undefined Example.world).2.calls.filter
      Call.isGetSelectorsForUrl = [] ∧
    (processGetSelectorsAndScripts Example.firefoxCollectingHits Example.tab
      "http://site.example/" Js.undefined Example.world).2.calls.filter
      Call.isSelectorFetch =
      [Call.requestFilter_getInjectedSelectorsForUrl "http://site.example/" Js.null] :=
  have h := shouldLoadAllSelectors_global_stylesheet Example.firefoxCollectingHits
    Example.world false Example.tab "http://site.example/" Js.undefined rfl rfl
  ⟨h.1, h.2.1, (h.2.2 rfl rfl rfl rfl rfl rfl).trans rfl⟩

/-! ## Theorems: side effects of the decision -/

section PostProcess

/-- When integration is not active, `postProcessRequest` is the notification and the log
event of `postProcessRequest.logged`, followed by the statistics part. -/
theorem postProcessRequest_of_inactive {σ : Type} (A : Collaborators σ) (tab : Js Tab)
    (requestUrl : String) (referrerUrl : Js String) (requestType : RequestType)
    (requestRule : Js Rule) (w : World σ) (hint : A.integration_isActive w.ext = false) :
    postProcessRequest A tab requestUrl referrerUrl requestType requestRule w =
      match requestRule with
      | .obj r =>
        if A.utils_filters_isUserFilterRule r then
          postProcessRequest.logged A tab requestUrl referrerUrl requestType requestRule w
        else if A.utils_filters_isWhiteListFilterRule r then
          postProcessRequest.logged A tab requestUrl referrerUrl requestType requestRule w
        else if A.frames_isIncognitoTab
            (postProcessRequest.logged A tab requestUrl referrerUrl requestType requestRule
              w).ext tab then
          (postProcessRequest.logged A tab requestUrl referrerUrl requestType requestRule
            w).query (Call.frames_isIncognitoTab tab)
        else
          (((postProcessRequest.logged A tab requestUrl referrerUrl requestType requestRule
            w).query (Call.frames_isIncognitoTab tab)).query
              (Call.frames_getFrameDomain tab)).command A
            (Call.hitStats_addRuleHit
              (A.frames_getFrameDomain
                (postProcessRequest.logged A tab requestUrl referrerUrl requestType
                  requestRule w).ext tab)
              r.ruleText r.filterId requestUrl)
      | _ => postProcessRequest.logged A tab requestUrl referrerUrl requestType requestRule w := by
  unfold postProcessRequest postProcessRequest.logged
  cases requestRule <;> simp [World.query, hint]

/-- The notifications and statistics in the log after `postProcessRequest.logged`. -/
theorem postProcessRequest_logged_calls {σ : Type} (A : Collaborators σ) (tab : Js Tab)
    (requestUrl : String) (referrerUrl : Js String) (requestType : RequestType)
    (requestRule : Js Rule) (w : World σ) :
    (postProcessRequest.logged A tab requestUrl referrerUrl requestType requestRule
      w).calls.filter Call.isNotification =
      w.calls.filter Call.isNotification ++
        (if (isRequestBlockedByRule requestRule).truthy = true then
          [Call.listeners_notifyListenersAsync_ADS_BLOCKED requestRule tab 1] else []) ∧
    (postProcessRequest.logged A tab requestUrl referrerUrl requestType requestRule
      w).calls.filter Call.isStatistic = w.calls.filter Call.isStatistic := by
  unfold postProcessRequest.logged
  by_cases hb : (isRequestBlockedByRule requestRule).truthy = true <;>
    simp [World.query, World.command, hb, List.filter_append, Call.isNotification,
      Call.isStatistic]

end PostProcess

/-- C21: `postProcessRequest` raises the `ADS_BLOCKED` notification, with the matched rule, the
tab and the count 1, exactly when integration mode is inactive and the matched rule is
blocking; it raises no other notification; and in integration mode its only collaborator call
is the query `integration.isActive()`. -/
theorem postProcessRequest_notification {σ : Type} (A : Collaborators σ) (tab : Js Tab)
    (requestUrl : String) (referrerUrl : Js String) (requestType : RequestType)
    (requestRule : Js Rule) (w : World σ) :
    (postProcessRequest A tab requestUrl referrerUrl requestType requestRule
      w).calls.filter Call.isNotification =
      w.calls.filter Call.isNotification ++
        (if A.integration_isActive w.ext = false ∧
            (isRequestBlockedByRule requestRule).truthy = true then
          [Call.listeners_notifyListenersAsync_ADS_BLOCKED requestRule tab 1] else []) ∧
    (A.integration_isActive w.ext = true →
      postProcessRequest A tab requestUrl referrerUrl requestType requestRule w =
        w.query Call.integration_isActive ∧
      (postProcessRequest A tab requestUrl referrerUrl requestType requestRule w).ext = w.ext ∧
      (postProcessRequest A tab requestUrl referrerUrl requestType requestRule
        w).calls.filter Call.isCommand = w.calls.filter Call.isCommand) := by
  constructor
  · cases hint : A.integration_isActive w.ext with
    | true =>
      simp [postProcessRequest, World.query, hint, List.filter_append, Call.isNotification]
    | false =>
      obtain ⟨hn, _⟩ := postProcessRequest_logged_calls A tab requestUrl referrerUrl
        requestType requestRule w
      rw [postProcessRequest_of_inactive A tab requestUrl referrerUrl requestType requestRule
        w hint]
      simp only [true_and]
      rw [← hn]
      cases requestRule with
      | null => rfl
      | undefined => rfl
      | obj r =>
        simp only
        split
        · rfl
        · split
          · rfl
          · split <;>
              simp [World.query, World.command, List.filter_append, Call.isNotification]
  · intro hint
    have h : postProcessRequest A tab requestUrl referrerUrl requestType requestRule w =
        w.query Call.integration_isActive := by
      simp [postProcessRequest, World.query, hint]
    rw [h]
    refine ⟨rfl, rfl, ?_⟩
    simp [World.query, List.filter_append, Call.isCommand]

/-- Witness of C21: outside integration mode the blocking rule `||evil.example^` raises one
`ADS_BLOCKED` notification; in integration mode nothing but the query happens. -/
theorem postProcessRequest_notification_witness :
    ((postProcessRequest Example.collaborators Example.tab "http://evil.example/ad.js"
      (Js.obj "http://site.example/") RequestType.SCRIPT (Js.obj Example.blockingRule)
      Example.world).calls.filter Call.isNotification).length = 1 ∧
    (postProcessRequest Example.integrationActive Example.tab "http://evil.example/ad.js"
      (Js.obj "http://site.example/") RequestType.SCRIPT (Js.obj Example.blockingRule)
      Example.world).calls.filter Call.isCommand = [] :=
  have h := postProcessRequest_notification Example.collaborators Example.tab
    "http://evil.example/ad.js" (Js.obj "http://site.example/") RequestType.SCRIPT
    (Js.obj Example.blockingRule) Example.world
  have g := postProcessRequest_notification Example.integrationActive Example.tab
    "http://evil.example/ad.js" (Js.obj "http://site.example/") RequestType.SCRIPT
    (Js.obj Example.blockingRule) Example.world
  ⟨by rw [h.1]; rfl, (g.2 rfl).2.2⟩

/-- C22, as stated, fails: the matched rule is the exception rule `@@||cdn.example^` of a
subscribed filter list.  The request is not blocked, and `postProcessRequest` records a rule
hit for it. -/
theorem postProcessRequest_exception_hit_counterexample :
    (isRequestBlockedByRule (Js.obj Example.exceptionRule)).truthy = false ∧
    ((postProcessRequest Example.collaborators Example.tab "http://cdn.example/lib.js"
      (Js.obj "http://site.example/") RequestType.SCRIPT (Js.obj Example.exceptionRule)
      Example.world).calls.filter Call.isStatistic).length = 1 := by
  constructor
  · rfl
  · simp [postProcessRequest, World.query, World.command, Example.collaborators,
      Example.exceptionRule, Example.world, isRequestBlockedByRule, Js.truthy,
      JsTruthy.truthy, Call.isStatistic, List.filter_cons]

/-- C22, amended: `postProcessRequest` records a rule hit (`hitStats.addRuleHit` with the
domain of the frame, the rule text, the filter id and the request URL) exactly when
integration mode is inactive, a rule was matched (a blocking rule or an exception rule), the
rule comes from neither the user filter nor the whitelist filter, and the tab is not
incognito; without a matched rule no hit is recorded. -/
theorem postProcessRequest_rule_hit {σ : Type} (A : Collaborators σ) (tab : Js Tab)
    (requestUrl : String) (referrerUrl : Js String) (requestType : RequestType)
    (requestRule : Js Rule) (w : World σ) (r : Rule) :
    (requestRule = Js.obj r →
      (postProcessRequest A tab requestUrl referrerUrl requestType requestRule
        w).calls.filter Call.isStatistic =
        w.calls.filter Call.isStatistic ++
          (if A.integration_isActive w.ext = false ∧
              A.utils_filters_isUserFilterRule r = false ∧
              A.utils_filters_isWhiteListFilterRule r = false ∧
              A.frames_isIncognitoTab
                (postProcessRequest.logged A tab requestUrl referrerUrl requestType
                  requestRule w).ext tab = false then
            [Call.hitStats_addRuleHit
              (A.frames_getFrameDomain
                (postProcessRequest.logged A tab requestUrl referrerUrl requestType
                  requestRule w).ext tab)
              r.ruleText r.filterId requestUrl]
          else [])) ∧
    (requestRule.truthy = false →
      (postProcessRequest A tab requestUrl referrerUrl requestType requestRule
        w).calls.filter Call.isStatistic = w.calls.filter Call.isStatistic) := by
  obtain ⟨_, hs⟩ := postProcessRequest_logged_calls A tab requestUrl referrerUrl requestType
    requestRule w
  constructor
  · intro hrule
    cases hint : A.integration_isActive w.ext with
    | true =>
      simp [postProcessRequest, World.query, hint, List.filter_append, Call.isStatistic]
    | false =>
      rw [postProcessRequest_of_inactive A tab requestUrl referrerUrl requestType requestRule
        w hint, ← hs]
      subst hrule
      simp only [true_and]
      cases hu : A.utils_filters_isUserFilterRule r with
      | true => simp
      | false =>
        cases hw : A.utils_filters_isWhiteListFilterRule r with
        | true => simp
        | false =>
          cases hi : A.frames_isIncognitoTab
              (postProcessRequest.logged A tab requestUrl referrerUrl requestType
                (Js.obj r) w).ext tab with
          | true => simp [World.query, List.filter_append, Call.isStatistic]
          | false =>
            simp [World.query, World.command, List.filter_append, Call.isStatistic]
  · intro hrule
    cases hint : A.integration_isActive w.ext with
    | true =>
      simp [postProcessRequest, World.query, hint, List.filter_append, Call.isStatistic]
    | false =>
      rw [postProcessRequest_of_inactive A tab requestUrl referrerUrl requestType requestRule
        w hint, ← hs]
      cases requestRule with
      | null => rfl
      | undefined => rfl
      | obj r0 => simp [Js.truthy, JsTruthy.truthy] at hrule

/-- Witness of the amended C22: the blocking rule `||evil.example^` of filter 2, matched on a
tab that is not incognito, records one hit for the domain `site.example`. -/
theorem postProcessRequest_rule_hit_witness :
    (postProcessRequest Example.collaborators Example.tab "http://evil.example/ad.js"
      (Js.obj "http://site.example/") RequestType.SCRIPT (Js.obj Example.blockingRule)
      Example.world).calls.filter Call.isStatistic =
      [Call.hitStats_addRuleHit (Js.obj "site.example") "||evil.example^" 2
        "http://evil.example/ad.js"] :=
  ((postProcessRequest_rule_hit Example.collaborators Example.tab "http://evil.example/ad.js"
    (Js.obj "http://site.example/") RequestType.SCRIPT (Js.obj Example.blockingRule)
    Example.world Example.blockingRule).1 rfl).trans rfl

/-- C23, as stated, fails: with filtering globally disabled, the response of the navigation to
`http://site.example/` clears the events of the tab and records no log event. -/
theorem processRequestResponse_disabled_counterexample :
    Thrown.returned (processRequestResponse Example.filteringDisabled Example.tab
      "http://site.example/" Js.null RequestType.DOCUMENT Example.world) = true ∧
    (Thrown.worldOf (processRequestResponse Example.filteringDisabled Example.tab
      "http://site.example/" Js.null RequestType.DOCUMENT Example.world)).calls.filter
      Call.isFilteringLogEvent = [] ∧
    ((Thrown.worldOf (processRequestResponse Example.filteringDisabled Example.tab
      "http://site.example/" Js.null RequestType.DOCUMENT Example.world)).calls.filter
      Call.isCommand).length = 1 := by
  refine ⟨rfl, ?_, ?_⟩ <;>
    simp [processRequestResponse, Thrown.worldOf, World.query, World.command,
      Example.filteringDisabled, Example.collaborators, Example.world, Example.tab,
      Call.isFilteringLogEvent, Call.isCommand, List.filter_cons]

/-- C23, amended: for a DOCUMENT response of a non-null tab, `processRequestResponse` first
clears the filtering-log events of the tab; then, when integration is inactive and filtering
is enabled, it accrues a domain view unless the tab is incognito and records exactly one log
event for the request, with the cached whitelist rule of the frame; in integration mode or
with filtering disabled it records nothing.  For every other response it makes no command at
all: no clearing, no log event, no domain view. -/
theorem processRequestResponse_commands {σ : Type} (A : Collaborators σ) (tab : Js Tab)
    (t : Tab) (requestUrl : String) (referrerUrl : Js String) (requestType : RequestType)
    (w : World σ) :
    (requestType = RequestType.DOCUMENT → tab = Js.obj t →
      Thrown.returned
        (processRequestResponse A tab requestUrl referrerUrl requestType w) = true ∧
      (Thrown.worldOf (processRequestResponse A tab requestUrl referrerUrl requestType
        w)).calls.filter Call.isCommand =
        w.calls.filter Call.isCommand ++ [Call.filteringLog_clearEventsByTabId t.tabId] ++
          (if A.integration_isActive
                (A.exec w.ext (Call.filteringLog_clearEventsByTabId t.tabId)) = true ∨
              A.settings_isFilteringDisabled
                (A.exec w.ext (Call.filteringLog_clearEventsByTabId t.tabId)) = true then []
           else
            (if A.frames_isIncognitoTab
                (A.exec w.ext (Call.filteringLog_clearEventsByTabId t.tabId)) tab = true
              then []
              else [Call.hitStats_addDomainView
                (A.frames_getFrameDomain
                  (A.exec w.ext (Call.filteringLog_clearEventsByTabId t.tabId)) tab)]) ++
            [Call.filteringLog_addEvent tab requestUrl referrerUrl RequestType.DOCUMENT
              (A.frames_getFrameWhiteListRule
                (A.exec w.ext (Call.filteringLog_clearEventsByTabId t.tabId)) tab)])) ∧
    (requestType ≠ RequestType.DOCUMENT →
      Thrown.returned
        (processRequestResponse A tab requestUrl referrerUrl requestType w) = true ∧
      (Thrown.worldOf (processRequestResponse A tab requestUrl referrerUrl requestType
        w)).calls.filter Call.isCommand = w.calls.filter Call.isCommand ∧
      (Thrown.worldOf (processRequestResponse A tab requestUrl referrerUrl requestType
        w)).ext = w.ext) := by
  constructor
  · intro hdoc htab
    subst hdoc htab
    cases hint : A.integration_isActive
        (A.exec w.ext (Call.filteringLog_clearEventsByTabId t.tabId)) with
    | true =>
      simp [processRequestResponse, Thrown.returned, Thrown.worldOf, World.query,
        World.command, hint, List.filter_append, Call.isCommand]
    | false =>
      cases hfil : A.settings_isFilteringDisabled
          (A.exec w.ext (Call.filteringLog_clearEventsByTabId t.tabId)) with
      | true =>
        simp [processRequestResponse, Thrown.returned, Thrown.worldOf, World.query,
          World.command, hint, hfil, List.filter_append, Call.isCommand]
      | false =>
        cases hinc : A.frames_isIncognitoTab
            (A.exec w.ext (Call.filteringLog_clearEventsByTabId t.tabId)) (Js.obj t) with
        | true =>
          simp [processRequestResponse, Thrown.returned, Thrown.worldOf, World.query,
            World.command, hint, hfil, hinc, List.filter_append, Call.isCommand]
        | false =>
          simp [processRequestResponse, Thrown.returned, Thrown.worldOf, World.query,
            World.command, hint, hfil, hinc, List.filter_append, Call.isCommand]
  · intro hdoc
    cases hint : A.integration_isActive w.ext with
    | true =>
      simp [processRequestResponse, Thrown.returned, Thrown.worldOf, World.query, hdoc, hint,
        List.filter_append, Call.isCommand]
    | false =>
      cases hfil : A.settings_isFilteringDisabled w.ext with
      | true =>
        simp [processRequestResponse, Thrown.returned, Thrown.worldOf, World.query, hdoc,
          hint, hfil, List.filter_append, Call.isCommand]
      | false =>
        simp [processRequestResponse, Thrown.returned, Thrown.worldOf, World.query, hdoc,
          hint, hfil, List.filter_append, Call.isCommand]

/-- Witness of the amended C23: with filtering enabled the response of the navigation to
`http://site.example/` clears the events of tab 1, accrues a view of `site.example` and
records one log event. -/
theorem processRequestResponse_commands_witness :
    (Thrown.worldOf (processRequestResponse Example.collaborators Example.tab
      "http://site.example/" Js.null RequestType.DOCUMENT Example.world)).calls.filter
      Call.isCommand =
      [Call.filteringLog_clearEventsByTabId 1,
       Call.hitStats_addDomainView (Js.obj "site.example"),
       Call.filteringLog_addEvent Example.tab "http://site.example/" Js.null
         RequestType.DOCUMENT Js.null] :=
  ((processRequestResponse_commands Example.collaborators Example.tab { tabId := 1 }
    "http://site.example/" Js.null RequestType.DOCUMENT Example.world).1 rfl rfl).2.trans rfl

/-! ## Theorems: the debounce of `handlerBehaviorChanged` -/

section Debounce

/-- One of the four events, in a well-formed state: exactly the new timer is pending, due in
3000 ms, and `handlerBehaviorChanged` has not been called. -/
theorem handlerBehaviorListener_arms (event : ListenerEvent) (s : TimerWorld)
    (hwf : s.WellFormed) (hev : event.changesRules = true) :
    (handlerBehaviorListener event s).pending = [(s.nextTimerId, s.now + 3000)] ∧
    (handlerBehaviorListener event s).handlerBehaviorTimeout = some s.nextTimerId ∧
    (handlerBehaviorListener event s).behaviorChanged = s.behaviorChanged ∧
    (handlerBehaviorListener event s).now = s.now := by
  rcases hwf with ⟨hp, ht⟩ | ⟨id, deadline, hp, ht, _⟩
  · cases event <;>
      simp [handlerBehaviorListener, TimerWorld.setTimeout, hp, ht,
        ListenerEvent.changesRules] at hev ⊢
  · cases event <;>
      simp [handlerBehaviorListener, TimerWorld.setTimeout, TimerWorld.clearTimeout, hp, ht,
        ListenerEvent.changesRules] at hev ⊢

/-- Time passing with no timer pending changes the clock only. -/
theorem advance_idle (delta : Nat) (s : TimerWorld) (hp : s.pending = []) :
    s.advance delta = { s with now := s.now + delta } := by
  simp [TimerWorld.advance, TimerWorld.fireDue, hp]

/-- Time passing short of the deadline of the one pending timer changes the clock only. -/
theorem advance_before (delta : Nat) (s : TimerWorld) (id deadline : Nat)
    (hp : s.pending = [(id, deadline)]) (hd : s.now + delta < deadline) :
    s.advance delta = { s with now := s.now + delta } := by
  have hnot : ¬ deadline ≤ s.now + delta := Nat.not_le.mpr hd
  simp [TimerWorld.advance, TimerWorld.fireDue, hp, hnot]

/-- Time passing up to or beyond the deadline of the one pending timer runs its callback once,
at the deadline. -/
theorem advance_after (delta : Nat) (s : TimerWorld) (id deadline : Nat)
    (hp : s.pending = [(id, deadline)]) (hd : deadline ≤ s.now + delta) :
    s.advance delta =
      { now := s.now + delta, nextTimerId := s.nextTimerId, pending := [],
        handlerBehaviorTimeout := none,
        behaviorChanged := s.behaviorChanged ++ [deadline] } := by
  simp [TimerWorld.advance, TimerWorld.fireDue, hp, hd, handlerBehaviorCallback]

/-- Time passing keeps a state well-formed. -/
theorem advance_wellFormed (delta : Nat) (s : TimerWorld) (hwf : s.WellFormed) :
    (s.advance delta).WellFormed := by
  rcases hwf with ⟨hp, ht⟩ | ⟨id, deadline, hp, ht, hnow⟩
  · rw [advance_idle delta s hp]
    exact Or.inl ⟨hp, ht⟩
  · by_cases hd : s.now + delta < deadline
    · rw [advance_before delta s id deadline hp hd]
      exact Or.inr ⟨id, deadline, hp, ht, hd⟩
    · rw [advance_after delta s id deadline hp (Nat.not_lt.mp hd)]
      exact Or.inl ⟨rfl, rfl⟩

/-- The listener keeps a state well-formed. -/
theorem handlerBehaviorListener_wellFormed (event : ListenerEvent) (s : TimerWorld)
    (hwf : s.WellFormed) : (handlerBehaviorListener event s).WellFormed := by
  cases hev : event.changesRules with
  | true =>
    obtain ⟨hp, ht, _, hn⟩ := handlerBehaviorListener_arms event s hwf hev
    refine Or.inr ⟨s.nextTimerId, s.now + 3000, hp, ht, ?_⟩
    rw [hn]
    omega
  | false =>
    cases event <;> simp [ListenerEvent.changesRules] at hev
    exact hwf

/-- Every sequence of events keeps a state well-formed. -/
theorem run_wellFormed (events : List (Nat × ListenerEvent)) (s : TimerWorld)
    (hwf : s.WellFormed) : (TimerWorld.run events s).WellFormed := by
  induction events generalizing s with
  | nil => exact hwf
  | cons x rest ih =>
    obtain ⟨gap, event⟩ := x
    exact ih _ (handlerBehaviorListener_wellFormed event _ (advance_wellFormed gap s hwf))

/-- In a well-formed state at most one timer is pending. -/
theorem wellFormed_pending_le_one (s : TimerWorld) (hwf : s.WellFormed) :
    s.pending.length ≤ 1 := by
  rcases hwf with ⟨hp, _⟩ | ⟨id, deadline, hp, _, _⟩ <;> simp [hp]

/-- A burst that starts with a timer due 3000 ms from now: every event finds the timer still
pending and replaces it, so at the end one timer is pending, due 3000 ms after the last event,
and `handlerBehaviorChanged` has not been called. -/
theorem run_burst (rest : List (Nat × ListenerEvent)) (s : TimerWorld) (id : Nat)
    (hp : s.pending = [(id, s.now + 3000)]) (ht : s.handlerBehaviorTimeout = some id)
    (hrel : ∀ x ∈ rest, x.2.changesRules = true) (hgap : ∀ x ∈ rest, x.1 < 3000) :
    (∃ last, (TimerWorld.run rest s).pending = [(last, (TimerWorld.run rest s).now + 3000)] ∧
      (TimerWorld.run rest s).handlerBehaviorTimeout = some last) ∧
    (TimerWorld.run rest s).behaviorChanged = s.behaviorChanged ∧
    (TimerWorld.run rest s).now = s.now + (rest.map Prod.fst).sum := by
  induction rest generalizing s id with
  | nil => exact ⟨⟨id, hp, ht⟩, rfl, by simp [TimerWorld.run]⟩
  | cons x rest ih =>
    obtain ⟨gap, event⟩ := x
    have hg : gap < 3000 := hgap (gap, event) (List.mem_cons_self _ _)
    have he : event.changesRules = true := hrel (gap, event) (List.mem_cons_self _ _)
    have hadv := advance_before gap s id (s.now + 3000) hp (by omega)
    have hwf : (s.advance gap).WellFormed := by
      rw [hadv]
      exact Or.inr ⟨id, s.now + 3000, hp, ht, by simp; omega⟩
    obtain ⟨hp2, ht2, hb2, hn2⟩ := handlerBehaviorListener_arms event _ hwf he
    have hnow : (handlerBehaviorListener event (s.advance gap)).now = s.now + gap := by
      rw [hn2, hadv]
    have hbc : (handlerBehaviorListener event (s.advance gap)).behaviorChanged =
        s.behaviorChanged := by
      rw [hb2, hadv]
    obtain ⟨h1, h2, h3⟩ := ih (handlerBehaviorListener event (s.advance gap))
      (s.advance gap).nextTimerId (by rw [hp2, hn2]) ht2
      (fun y hy => hrel y (List.mem_cons_of_mem _ hy))
      (fun y hy => hgap y (List.mem_cons_of_mem _ hy))
    refine ⟨h1, ?_, ?_⟩
    · simp only [TimerWorld.run]
      rw [h2, hbc]
    · simp only [TimerWorld.run, List.map_cons, List.sum_cons]
      rw [h3, hnow]
      omega

end Debounce

/-- C24: a burst of ADD_RULES, REMOVE_RULE, UPDATE_FILTER_RULES or FILTER_ENABLE_DISABLE
events, each less than 3000 ms after the one before it, calls
`webRequest.handlerBehaviorChanged` exactly once, 3000 ms after the last event of the burst:
it is not called during the burst nor in the 3000 ms after it, and it is called when these have
passed, after which no timer is pending.  After any sequence of events at most one timer is
pending, and an event of another type changes nothing. -/
theorem handlerBehaviorChanged_debounced (s : TimerWorld) (gap : Nat) (event : ListenerEvent)
    (rest events : List (Nat × ListenerEvent)) (quiet : Nat) (name : String)
    (hwf : s.WellFormed) (hev : event.changesRules = true)
    (hrel : ∀ x ∈ rest, x.2.changesRules = true) (hgap : ∀ x ∈ rest, x.1 < 3000) :
    (TimerWorld.run ((gap, event) :: rest) s).now =
      (s.advance gap).now + (rest.map Prod.fst).sum ∧
    (TimerWorld.run ((gap, event) :: rest) s).behaviorChanged =
      (s.advance gap).behaviorChanged ∧
    (TimerWorld.run ((gap, event) :: rest) s).pending.length = 1 ∧
    (quiet < 3000 →
      ((TimerWorld.run ((gap, event) :: rest) s).advance quiet).behaviorChanged =
        (s.advance gap).behaviorChanged) ∧
    (3000 ≤ quiet →
      ((TimerWorld.run ((gap, event) :: rest) s).advance quiet).behaviorChanged =
        (s.advance gap).behaviorChanged ++
          [(TimerWorld.run ((gap, event) :: rest) s).now + 3000] ∧
      ((TimerWorld.run ((gap, event) :: rest) s).advance quiet).pending = [] ∧
      ((TimerWorld.run ((gap, event) :: rest) s).advance quiet).handlerBehaviorTimeout
        = none) ∧
    (TimerWorld.run events s).pending.length ≤ 1 ∧
    handlerBehaviorListener (ListenerEvent.other name) s = s := by
  have hwf1 := advance_wellFormed gap s hwf
  obtain ⟨hp, ht, hb, hn⟩ := handlerBehaviorListener_arms event _ hwf1 hev
  obtain ⟨⟨last, hlp, _⟩, hbc, hnow⟩ := run_burst rest
    (handlerBehaviorListener event (s.advance gap)) (s.advance gap).nextTimerId
    (by rw [hp, hn]) ht hrel hgap
  have hrun : TimerWorld.run ((gap, event) :: rest) s =
      TimerWorld.run rest (handlerBehaviorListener event (s.advance gap)) := rfl
  rw [hrun]
  refine ⟨by rw [hnow, hn], by rw [hbc, hb], by rw [hlp]; rfl, ?_, ?_,
    wellFormed_pending_le_one _ (run_wellFormed events s hwf), rfl⟩
  · intro hq
    rw [advance_before quiet _ last _ hlp (by omega)]
    simp only
    rw [hbc, hb]
  · intro hq
    rw [advance_after quiet _ last _ hlp (by omega)]
    simp [hbc, hb]

/-- Witness of C24: three events at the times 0, 1000 and 3999 ms after the load of the file;
2999 ms after the last one `handlerBehaviorChanged` has not been called, and after 3000 ms it
has been called once, at the time 6999. -/
theorem handlerBehaviorChanged_debounced_witness :
    ((TimerWorld.run [(0, ListenerEvent.ADD_RULES), (1000, ListenerEvent.REMOVE_RULE),
      (2999, ListenerEvent.UPDATE_FILTER_RULES)] TimerWorld.initial).advance
      2999).behaviorChanged = [] ∧
    ((TimerWorld.run [(0, ListenerEvent.ADD_RULES), (1000, ListenerEvent.REMOVE_RULE),
      (2999, ListenerEvent.UPDATE_FILTER_RULES)] TimerWorld.initial).advance
      3000).behaviorChanged = [6999] :=
  have hwf : TimerWorld.initial.WellFormed := Or.inl ⟨rfl, rfl⟩
  have hrel : ∀ x ∈ [(1000, ListenerEvent.REMOVE_RULE),
      (2999, ListenerEvent.UPDATE_FILTER_RULES)], x.2.changesRules = true := by decide
  have hgap : ∀ x ∈ [(1000, ListenerEvent.REMOVE_RULE),
      (2999, ListenerEvent.UPDATE_FILTER_RULES)], x.1 < 3000 := by decide
  ⟨(handlerBehaviorChanged_debounced TimerWorld.initial 0 ListenerEvent.ADD_RULES
      [(1000, ListenerEvent.REMOVE_RULE), (2999, ListenerEvent.UPDATE_FILTER_RULES)] [] 2999
      "other" hwf rfl hrel hgap).2.2.2.1 (by decide),
   ((handlerBehaviorChanged_debounced TimerWorld.initial 0 ListenerEvent.ADD_RULES
      [(1000, ListenerEvent.REMOVE_RULE), (2999, ListenerEvent.UPDATE_FILTER_RULES)] [] 3000
      "other" hwf rfl hrel hgap).2.2.2.2.1 (by decide)).1.trans (by decide)⟩

/-! ## Theorems: the verdict cache of `ElemHide` -/

section VerdictCache

variable {σ : Type}

/-- The function for the key `elemHideWhiteListRule` is the common text at that key. -/
theorem isElemHideWhiteListed_eq (T : TabsService σ) (tab : Tab) (w : ElemHideWorld σ) :
    ElemHide._isElemHideWhiteListed T tab w =
      ElemHide.verdictFor T "elemHideWhiteListRule" "ELEMHIDE" tab w := rfl

/-- The function for the key `genericHideWhiteListRule` is the common text at that key. -/
theorem isGenericHideWhiteListed_eq (T : TabsService σ) (tab : Tab) (w : ElemHideWorld σ) :
    ElemHide._isGenericHideWhiteListed T tab w =
      ElemHide.verdictFor T "genericHideWhiteListRule" "GENERICHIDE" tab w := rfl

/-- Repeated calls for the key `elemHideWhiteListRule`. -/
theorem repeatElemHide_eq (T : TabsService σ) (tab : Tab) (count : Nat)
    (w : ElemHideWorld σ) :
    ElemHide.repeatElemHide T tab count w =
      ElemHide.repeatVerdictFor T "elemHideWhiteListRule" "ELEMHIDE" tab count w := by
  induction count generalizing w with
  | zero => rfl
  | succ n ih =>
    simp only [ElemHide.repeatElemHide, ElemHide.repeatVerdictFor, ih]
    rfl

/-- Repeated calls for the key `genericHideWhiteListRule`. -/
theorem repeatGenericHide_eq (T : TabsService σ) (tab : Tab) (count : Nat)
    (w : ElemHideWorld σ) :
    ElemHide.repeatGenericHide T tab count w =
      ElemHide.repeatVerdictFor T "genericHideWhiteListRule" "GENERICHIDE" tab count w := by
  induction count generalizing w with
  | zero => rfl
  | succ n ih =>
    simp only [ElemHide.repeatGenericHide, ElemHide.repeatVerdictFor, ih]
    rfl

/-- A stored value, `false` or a rule, counts as cached. -/
theorem verdict_stored_is_cached (value : Verdict) :
    ((Js.obj value).truthy || Verdict.isFalse (Js.obj value)) = true := by
  cases value <;> rfl

/-- Cache hit: the cached value is returned after the one read of the metadata. -/
theorem verdictFor_hit (T : TabsService σ) (key contentType : String) (tab : Tab)
    (w : ElemHideWorld σ)
    (hit : ((T.getTabMetadata w.tabs tab.tabId key).truthy ||
      Verdict.isFalse (T.getTabMetadata w.tabs tab.tabId key)) = true) :
    ElemHide.verdictFor T key contentType tab w =
      (T.getTabMetadata w.tabs tab.tabId key,
        w.log (.tabs_getTabMetadata tab.tabId key)) := by
  unfold ElemHide.verdictFor
  dsimp only
  rw [if_pos hit]

/-- Cache miss for a tab with a frame record: the verdict is computed and stored, and nothing
is returned. -/
theorem verdictFor_miss_frame (T : TabsService σ) (key contentType : String) (tab : Tab)
    (w : ElemHideWorld σ) (f : Frame)
    (miss : ((T.getTabMetadata w.tabs tab.tabId key).truthy ||
      Verdict.isFalse (T.getTabMetadata w.tabs tab.tabId key)) = false)
    (hframe : T.getTabFrame w.tabs tab.tabId = Js.obj f) :
    ElemHide.verdictFor T key contentType tab w =
      (Js.undefined,
        { tabs := T.updateTabMetadata w.tabs tab.tabId key
            (Verdict.orFalse (T.findWhiteListRule f.url f.url contentType)),
          calls := w.calls ++
            [.tabs_getTabMetadata tab.tabId key, .tabs_getTabFrame tab.tabId,
             .requestFilter_findWhiteListRule f.url f.url contentType,
             .tabs_updateTabMetadata tab.tabId key
               (Verdict.orFalse (T.findWhiteListRule f.url f.url contentType))] }) := by
  unfold ElemHide.verdictFor
  dsimp only
  rw [if_neg (by rw [miss]; exact Bool.false_ne_true)]
  simp [ElemHideWorld.log, hframe]

/-- Cache miss for a tab without a frame record: nothing is stored and nothing is returned. -/
theorem verdictFor_miss_no_frame (T : TabsService σ) (key contentType : String) (tab : Tab)
    (w : ElemHideWorld σ)
    (miss : ((T.getTabMetadata w.tabs tab.tabId key).truthy ||
      Verdict.isFalse (T.getTabMetadata w.tabs tab.tabId key)) = false)
    (hframe : (T.getTabFrame w.tabs tab.tabId).truthy = false) :
    ElemHide.verdictFor T key contentType tab w =
      (Js.undefined,
        { tabs := w.tabs,
          calls := w.calls ++
            [.tabs_getTabMetadata tab.tabId key, .tabs_getTabFrame tab.tabId] }) := by
  unfold ElemHide.verdictFor
  dsimp only
  rw [if_neg (by rw [miss]; exact Bool.false_ne_true)]
  cases hf : T.getTabFrame w.tabs tab.tabId with
  | obj f => rw [hf] at hframe; exact absurd hframe (by simp [Js.truthy, JsTruthy.truthy])
  | null => simp [ElemHideWorld.log, hf]
  | undefined => simp [ElemHideWorld.log, hf]

/-- Once a value is cached, any number of calls leaves the registry as it is and queries the
Rule Matcher no more. -/
theorem repeatVerdictFor_cached (T : TabsService σ) (key contentType : String) (tab : Tab)
    (count : Nat) (w : ElemHideWorld σ)
    (hit : ((T.getTabMetadata w.tabs tab.tabId key).truthy ||
      Verdict.isFalse (T.getTabMetadata w.tabs tab.tabId key)) = true) :
    (ElemHide.repeatVerdictFor T key contentType tab count w).tabs = w.tabs ∧
    (ElemHide.repeatVerdictFor T key contentType tab count w).calls.filter
      ElemHideCall.isFindWhiteListRule = w.calls.filter ElemHideCall.isFindWhiteListRule ∧
    (ElemHide.repeatVerdictFor T key contentType tab count w).calls.length =
      w.calls.length + count := by
  induction count generalizing w with
  | zero => exact ⟨rfl, rfl, rfl⟩
  | succ n ih =>
    simp only [ElemHide.repeatVerdictFor]
    rw [verdictFor_hit T key contentType tab w hit]
    obtain ⟨h1, h2, h3⟩ := ih (w.log (.tabs_getTabMetadata tab.tabId key)) hit
    refine ⟨h1, ?_, ?_⟩
    · rw [h2]
      simp [ElemHideWorld.log, List.filter_append, ElemHideCall.isFindWhiteListRule]
    · rw [h3]
      simp [ElemHideWorld.log]
      omega

/-- The whole statement of the cache for one key over a key-value store. -/
theorem verdictFor_cache (T : TabsService σ) (hstore : T.IsStore) (key contentType : String)
    (tab : Tab) (w : ElemHideWorld σ) (count : Nat)
    (miss : ((T.getTabMetadata w.tabs tab.tabId key).truthy ||
      Verdict.isFalse (T.getTabMetadata w.tabs tab.tabId key)) = false) :
    (∀ f : Frame, T.getTabFrame w.tabs tab.tabId = Js.obj f →
      T.getTabMetadata (ElemHide.verdictFor T key contentType tab w).2.tabs tab.tabId key =
        Js.obj (Verdict.orFalse (T.findWhiteListRule f.url f.url contentType)) ∧
      (ElemHide.repeatVerdictFor T key contentType tab count
        (ElemHide.verdictFor T key contentType tab w).2).tabs =
          (ElemHide.verdictFor T key contentType tab w).2.tabs ∧
      (ElemHide.repeatVerdictFor T key contentType tab count
        (ElemHide.verdictFor T key contentType tab w).2).calls.filter
          ElemHideCall.isFindWhiteListRule =
        w.calls.filter ElemHideCall.isFindWhiteListRule ++
          [.requestFilter_findWhiteListRule f.url f.url contentType]) ∧
    ((T.getTabFrame w.tabs tab.tabId).truthy = false →
      (ElemHide.verdictFor T key contentType tab w).2.tabs = w.tabs ∧
      (ElemHide.verdictFor T key contentType tab w).2.calls.filter
        ElemHideCall.isUpdateTabMetadata = w.calls.filter ElemHideCall.isUpdateTabMetadata ∧
      (ElemHide.verdictFor T key contentType tab w).2.calls.filter
        ElemHideCall.isFindWhiteListRule =
          w.calls.filter ElemHideCall.isFindWhiteListRule) := by
  constructor
  · intro f hframe
    have hcall := verdictFor_miss_frame T key contentType tab w f miss hframe
    have hstored : T.getTabMetadata (ElemHide.verdictFor T key contentType tab w).2.tabs
        tab.tabId key =
        Js.obj (Verdict.orFalse (T.findWhiteListRule f.url f.url contentType)) := by
      rw [hcall]
      exact hstore _ _ _ _
    have hit : ((T.getTabMetadata (ElemHide.verdictFor T key contentType tab w).2.tabs
        tab.tabId key).truthy ||
        Verdict.isFalse (T.getTabMetadata (ElemHide.verdictFor T key contentType tab w).2.tabs
          tab.tabId key)) = true := by
      rw [hstored]
      exact verdict_stored_is_cached _
    obtain ⟨h1, h2, _⟩ := repeatVerdictFor_cached T key contentType tab count _ hit
    refine ⟨hstored, h1, ?_⟩
    rw [h2, hcall]
    simp [List.filter_append, List.filter_cons, ElemHideCall.isFindWhiteListRule]
  · intro hframe
    rw [verdictFor_miss_no_frame T key contentType tab w miss hframe]
    simp [List.filter_append, List.filter_cons, ElemHideCall.isFindWhiteListRule,
      ElemHideCall.isUpdateTabMetadata]

/-- The example registry is a key-value store. -/
theorem example_tabsService_isStore : Example.tabsService.IsStore := by
  intro s tabId key value
  simp [Example.tabsService, Example.lookupMetadata]

end VerdictCache

/-- C25 (defect of the code): tab 1 shows `http://site.example/`, for which the Rule Matcher
finds `@@||site.example^$elemhide` and `@@||site.example^$generichide`, and no verdict is
cached.  The first call of `_isElemHideWhiteListed` and of `_isGenericHideWhiteListed` finds
the rule and stores it, and returns a falsy value; the second call returns the rule. -/
theorem isWhiteListed_first_call_returns_nothing :
    (ElemHide._isElemHideWhiteListed Example.tabsService { tabId := 1 }
      Example.freshTabs).1.truthy = false ∧
    (ElemHide._isElemHideWhiteListed Example.tabsService { tabId := 1 }
      (ElemHide._isElemHideWhiteListed Example.tabsService { tabId := 1 }
        Example.freshTabs).2).1.truthy = true ∧
    (Example.tabsService.findWhiteListRule "http://site.example/" "http://site.example/"
      "ELEMHIDE").truthy = true ∧
    (ElemHide._isGenericHideWhiteListed Example.tabsService { tabId := 1 }
      Example.freshTabs).1.truthy = false ∧
    (ElemHide._isGenericHideWhiteListed Example.tabsService { tabId := 1 }
      (ElemHide._isGenericHideWhiteListed Example.tabsService { tabId := 1 }
        Example.freshTabs).2).1.truthy = true ∧
    (Example.tabsService.findWhiteListRule "http://site.example/" "http://site.example/"
      "GENERICHIDE").truthy = true := by
  decide

/-- The cache for one key over a key-value store, with the stored value spelled out: the rule
that `findWhiteListRule` returns, or `false` when it returns none; the next call returns that
value. -/
theorem verdictFor_once {σ : Type} (T : TabsService σ) (hstore : T.IsStore)
    (key contentType : String) (tab : Tab) (w : ElemHideWorld σ) (count : Nat) (f : Frame)
    (r : Rule)
    (miss : ((T.getTabMetadata w.tabs tab.tabId key).truthy ||
      Verdict.isFalse (T.getTabMetadata w.tabs tab.tabId key)) = false) :
    (T.getTabFrame w.tabs tab.tabId = Js.obj f →
      (T.findWhiteListRule f.url f.url contentType = Js.obj r →
        T.getTabMetadata (ElemHide.verdictFor T key contentType tab w).2.tabs tab.tabId key =
          Js.obj (Verdict.rule r) ∧
        (ElemHide.verdictFor T key contentType tab
          (ElemHide.verdictFor T key contentType tab w).2).1 = Js.obj (Verdict.rule r)) ∧
      ((T.findWhiteListRule f.url f.url contentType).truthy = false →
        T.getTabMetadata (ElemHide.verdictFor T key contentType tab w).2.tabs tab.tabId key =
          Js.obj Verdict.no ∧
        (ElemHide.verdictFor T key contentType tab
          (ElemHide.verdictFor T key contentType tab w).2).1 = Js.obj Verdict.no) ∧
      (ElemHide.repeatVerdictFor T key contentType tab count
        (ElemHide.verdictFor T key contentType tab w).2).tabs =
          (ElemHide.verdictFor T key contentType tab w).2.tabs ∧
      (ElemHide.repeatVerdictFor T key contentType tab count
        (ElemHide.verdictFor T key contentType tab w).2).calls.filter
          ElemHideCall.isFindWhiteListRule =
        w.calls.filter ElemHideCall.isFindWhiteListRule ++
          [.requestFilter_findWhiteListRule f.url f.url contentType]) ∧
    ((T.getTabFrame w.tabs tab.tabId).truthy = false →
      (ElemHide.verdictFor T key contentType tab w).2.tabs = w.tabs ∧
      (ElemHide.verdictFor T key contentType tab w).2.calls.filter
        ElemHideCall.isUpdateTabMetadata = w.calls.filter ElemHideCall.isUpdateTabMetadata ∧
      (ElemHide.verdictFor T key contentType tab w).2.calls.filter
        ElemHideCall.isFindWhiteListRule =
          w.calls.filter ElemHideCall.isFindWhiteListRule) := by
  obtain ⟨hframe, hnone⟩ := verdictFor_cache T hstore key contentType tab w count miss
  refine ⟨fun hf => ?_, hnone⟩
  obtain ⟨hstored, htabs, hcalls⟩ := hframe f hf
  have hnext : ∀ value : Verdict,
      T.getTabMetadata (ElemHide.verdictFor T key contentType tab w).2.tabs tab.tabId key =
        Js.obj value →
      (ElemHide.verdictFor T key contentType tab
        (ElemHide.verdictFor T key contentType tab w).2).1 = Js.obj value := by
    intro value hvalue
    rw [verdictFor_hit T key contentType tab _
      (by rw [hvalue]; exact verdict_stored_is_cached value)]
    exact hvalue
  refine ⟨?_, ?_, htabs, hcalls⟩
  · intro hfound
    have hrule : T.getTabMetadata (ElemHide.verdictFor T key contentType tab w).2.tabs
        tab.tabId key = Js.obj (Verdict.rule r) := by
      rw [hstored, hfound]
      rfl
    exact ⟨hrule, hnext _ hrule⟩
  · intro hfound
    have hno : T.getTabMetadata (ElemHide.verdictFor T key contentType tab w).2.tabs
        tab.tabId key = Js.obj Verdict.no := by
      rw [hstored]
      cases hfind : T.findWhiteListRule f.url f.url contentType with
      | obj found =>
        rw [hfind] at hfound
        exact absurd hfound (by simp [Js.truthy, JsTruthy.truthy])
      | null => rfl
      | undefined => rfl
    exact ⟨hno, hnext _ hno⟩

/-- C26: over a tab registry that keeps its metadata as a key-value store, for a tab with a
frame record and no verdict cached under the key, one call of `_isGenericHideWhiteListed`
(resp. of `_isElemHideWhiteListed`) stores under `genericHideWhiteListRule` (resp.
`elemHideWhiteListRule`) the rule that `findWhiteListRule(frame.url, frame.url, type)`
returns, or `false` when it returns none; the next call returns the stored value, rule or
`false`, and any number of later calls leaves the registry as it is and makes no further call
of `findWhiteListRule`.  For a tab without a frame record nothing is stored and
`findWhiteListRule` is not called.  Each key is on its own: the other key may be cached or
not. -/
theorem verdict_computed_once {σ : Type} (T : TabsService σ) (hstore : T.IsStore) (tab : Tab)
    (w : ElemHideWorld σ) (count : Nat) (f : Frame) (r : Rule) :
    (((T.getTabMetadata w.tabs tab.tabId "genericHideWhiteListRule").truthy ||
        Verdict.isFalse (T.getTabMetadata w.tabs tab.tabId "genericHideWhiteListRule")) =
        false →
      (T.getTabFrame w.tabs tab.tabId = Js.obj f →
        (T.findWhiteListRule f.url f.url "GENERICHIDE" = Js.obj r →
          T.getTabMetadata (ElemHide._isGenericHideWhiteListed T tab w).2.tabs tab.tabId
            "genericHideWhiteListRule" = Js.obj (Verdict.rule r) ∧
          (ElemHide._isGenericHideWhiteListed T tab
            (ElemHide._isGenericHideWhiteListed T tab w).2).1 = Js.obj (Verdict.rule r)) ∧
        ((T.findWhiteListRule f.url f.url "GENERICHIDE").truthy = false →
          T.getTabMetadata (ElemHide._isGenericHideWhiteListed T tab w).2.tabs tab.tabId
            "genericHideWhiteListRule" = Js.obj Verdict.no ∧
          (ElemHide._isGenericHideWhiteListed T tab
            (ElemHide._isGenericHideWhiteListed T tab w).2).1 = Js.obj Verdict.no) ∧
        (ElemHide.repeatGenericHide T tab count
          (ElemHide._isGenericHideWhiteListed T tab w).2).tabs =
            (ElemHide._isGenericHideWhiteListed T tab w).2.tabs ∧
        (ElemHide.repeatGenericHide T tab count
          (ElemHide._isGenericHideWhiteListed T tab w).2).calls.filter
            ElemHideCall.isFindWhiteListRule =
          w.calls.filter ElemHideCall.isFindWhiteListRule ++
            [.requestFilter_findWhiteListRule f.url f.url "GENERICHIDE"]) ∧
      ((T.getTabFrame w.tabs tab.tabId).truthy = false →
        (ElemHide._isGenericHideWhiteListed T tab w).2.tabs = w.tabs ∧
        (ElemHide._isGenericHideWhiteListed T tab w).2.calls.filter
          ElemHideCall.isUpdateTabMetadata =
            w.calls.filter ElemHideCall.isUpdateTabMetadata ∧
        (ElemHide._isGenericHideWhiteListed T tab w).2.calls.filter
          ElemHideCall.isFindWhiteListRule =
            w.calls.filter ElemHideCall.isFindWhiteListRule)) ∧
    (((T.getTabMetadata w.tabs tab.tabId "elemHideWhiteListRule").truthy ||
        Verdict.isFalse (T.getTabMetadata w.tabs tab.tabId "elemHideWhiteListRule")) =
        false →
      (T.getTabFrame w.tabs tab.tabId = Js.obj f →
        (T.findWhiteListRule f.url f.url "ELEMHIDE" = Js.obj r →
          T.getTabMetadata (ElemHide._isElemHideWhiteListed T tab w).2.tabs tab.tabId
            "elemHideWhiteListRule" = Js.obj (Verdict.rule r) ∧
          (ElemHide._isElemHideWhiteListed T tab
            (ElemHide._isElemHideWhiteListed T tab w).2).1 = Js.obj (Verdict.rule r)) ∧
        ((T.findWhiteListRule f.url f.url "ELEMHIDE").truthy = false →
          T.getTabMetadata (ElemHide._isElemHideWhiteListed T tab w).2.tabs tab.tabId
            "elemHideWhiteListRule" = Js.obj Verdict.no ∧
          (ElemHide._isElemHideWhiteListed T tab
            (ElemHide._isElemHideWhiteListed T tab w).2).1 = Js.obj Verdict.no) ∧
        (ElemHide.repeatElemHide T tab count
          (ElemHide._isElemHideWhiteListed T tab w).2).tabs =
            (ElemHide._isElemHideWhiteListed T tab w).2.tabs ∧
        (ElemHide.repeatElemHide T tab count
          (ElemHide._isElemHideWhiteListed T tab w).2).calls.filter
            ElemHideCall.isFindWhiteListRule =
          w.calls.filter ElemHideCall.isFindWhiteListRule ++
            [.requestFilter_findWhiteListRule f.url f.url "ELEMHIDE"]) ∧
      ((T.getTabFrame w.tabs tab.tabId).truthy = false →
        (ElemHide._isElemHideWhiteListed T tab w).2.tabs = w.tabs ∧
        (ElemHide._isElemHideWhiteListed T tab w).2.calls.filter
          ElemHideCall.isUpdateTabMetadata =
            w.calls.filter ElemHideCall.isUpdateTabMetadata ∧
        (ElemHide._isElemHideWhiteListed T tab w).2.calls.filter
          ElemHideCall.isFindWhiteListRule =
            w.calls.filter ElemHideCall.isFindWhiteListRule)) := by
  simp only [isGenericHideWhiteListed_eq, isElemHideWhiteListed_eq, repeatGenericHide_eq,
    repeatElemHide_eq]
  exact ⟨fun miss => verdictFor_once T hstore "genericHideWhiteListRule" "GENERICHIDE" tab w
      count f r miss,
    fun miss => verdictFor_once T hstore "elemHideWhiteListRule" "ELEMHIDE" tab w count f r
      miss⟩

/-- Witness of C26, in the order of `shouldCollapseElement`: on tab 1, which shows
`http://site.example/`, `_isElemHideWhiteListed` has been called, so that the key
`elemHideWhiteListRule` is cached; the call of `_isGenericHideWhiteListed` that follows stores
the rule `@@||site.example^$generichide`, the next call returns it, and after three more calls
`findWhiteListRule` has been called once for `GENERICHIDE`.  On tab 2, which shows
`http://other.example/`, no rule is found and `false` is stored and returned. -/
theorem verdict_computed_once_witness :
    (Example.tabsService.getTabMetadata
        (ElemHide._isGenericHideWhiteListed Example.tabsService { tabId := 1 }
          (ElemHide._isElemHideWhiteListed Example.tabsService { tabId := 1 }
            Example.freshTabs).2).2.tabs 1 "genericHideWhiteListRule" =
        Js.obj (Verdict.rule Example.genericHideRule) ∧
      (ElemHide._isGenericHideWhiteListed Example.tabsService { tabId := 1 }
        (ElemHide._isGenericHideWhiteListed Example.tabsService { tabId := 1 }
          (ElemHide._isElemHideWhiteListed Example.tabsService { tabId := 1 }
            Example.freshTabs).2).2).1 = Js.obj (Verdict.rule Example.genericHideRule)) ∧
    (ElemHide.repeatGenericHide Example.tabsService { tabId := 1 } 3
      (ElemHide._isGenericHideWhiteListed Example.tabsService { tabId := 1 }
        (ElemHide._isElemHideWhiteListed Example.tabsService { tabId := 1 }
          Example.freshTabs).2).2).calls.filter ElemHideCall.isFindWhiteListRule =
      [ElemHideCall.requestFilter_findWhiteListRule "http://site.example/"
          "http://site.example/" "ELEMHIDE",
        ElemHideCall.requestFilter_findWhiteListRule "http://site.example/"
          "http://site.example/" "GENERICHIDE"] ∧
    (Example.tabsService.getTabMetadata
        (ElemHide._isGenericHideWhiteListed Example.tabsService { tabId := 2 }
          Example.freshTabs).2.tabs 2 "genericHideWhiteListRule" = Js.obj Verdict.no ∧
      (ElemHide._isGenericHideWhiteListed Example.tabsService { tabId := 2 }
        (ElemHide._isGenericHideWhiteListed Example.tabsService { tabId := 2 }
          Example.freshTabs).2).1 = Js.obj Verdict.no) :=
  have h := ((verdict_computed_once Example.tabsService example_tabsService_isStore
    { tabId := 1 }
    (ElemHide._isElemHideWhiteListed Example.tabsService { tabId := 1 } Example.freshTabs).2
    3 { url := "http://site.example/" } Example.genericHideRule).1 rfl) |>.1 rfl
  have g := ((verdict_computed_once Example.tabsService example_tabsService_isStore
    { tabId := 2 } Example.freshTabs 0 { url := "http://other.example/" }
    Example.genericHideRule).1 rfl) |>.1 rfl
  ⟨h.1 rfl, h.2.2.2.trans rfl, g.2.1 rfl⟩

/-! ## Theorems: the registration of style sheets -/

section StyleSheets

/-- After `unloadUserSheetByUri(uri)` one registration of the URI is gone, and none is
added. -/
theorem unloadUserSheetByUri_registered (uri : Uri) (w : StyleWorld) :
    (styleService.unloadUserSheetByUri uri w).registered = w.registered.erase uri ∧
    (styleService.unloadUserSheetByUri uri w).unloadHooks = w.unloadHooks := by
  unfold styleService.unloadUserSheetByUri styleService.sheetRegistered
  dsimp only
  by_cases h : uri ∈ w.registered
  · simp [h, StyleWorld.log]
  · simp [h, StyleWorld.log, List.erase_of_not_mem h]

/-- A sheet that the platform can load: `_applyCssStyleSheet(uri)` returns, and the sheet is
registered in place of its earlier registration. -/
theorem applyCssStyleSheet_loaded (P : StylePlatform) (uri : Uri) (w : StyleWorld)
    (hnodup : w.registered.Nodup) (hload : P.canLoad uri = true) :
    StyleWorld.returned (ElemHide._applyCssStyleSheet P (Js.obj uri) Js.undefined w) = true ∧
    (StyleWorld.ofOutcome
      (ElemHide._applyCssStyleSheet P (Js.obj uri) Js.undefined w)).registered =
        w.registered.erase uri ++ [uri] := by
  have hnot : uri ∉ w.registered.erase uri :=
    fun hmem => ((List.Nodup.mem_erase_iff hnodup).mp hmem).1 rfl
  have hreg := (unloadUserSheetByUri_registered uri w).1
  simp [ElemHide._applyCssStyleSheet, ElemHide._applyCssStyleSheet.tryBlock, Js.truthy,
    styleService.loadUserSheetByUri, styleService.sheetRegistered, hnot, hload,
    StyleWorld.log, StyleWorld.returned, StyleWorld.ofOutcome, hreg]

/-- A sheet that the platform cannot load: `_applyCssStyleSheet(uri)` catches the exception
and returns, and the sheet is not registered. -/
theorem applyCssStyleSheet_not_loaded (P : StylePlatform) (uri : Uri) (w : StyleWorld)
    (hnodup : w.registered.Nodup) (hload : P.canLoad uri = false) :
    StyleWorld.returned (ElemHide._applyCssStyleSheet P (Js.obj uri) Js.undefined w) = true ∧
    (StyleWorld.ofOutcome
      (ElemHide._applyCssStyleSheet P (Js.obj uri) Js.undefined w)).registered =
        w.registered.erase uri := by
  have hnot : uri ∉ w.registered.erase uri :=
    fun hmem => ((List.Nodup.mem_erase_iff hnodup).mp hmem).1 rfl
  have hreg := (unloadUserSheetByUri_registered uri w).1
  simp [ElemHide._applyCssStyleSheet, ElemHide._applyCssStyleSheet.tryBlock, Js.truthy,
    styleService.loadUserSheetByUri, styleService.sheetRegistered, hnot, hload,
    StyleWorld.log, StyleWorld.returned, StyleWorld.ofOutcome, hreg]

/-- The registrations stay free of duplicates when a sheet is applied. -/
theorem erase_append_nodup (uri : Uri) (sheets : List Uri) (hnodup : sheets.Nodup) :
    (sheets.erase uri ++ [uri]).Nodup := by
  rw [List.nodup_append]
  refine ⟨hnodup.erase uri, List.nodup_singleton uri, ?_⟩
  intro a ha hb
  rw [List.mem_singleton] at hb
  subst hb
  exact ((List.Nodup.mem_erase_iff hnodup).mp ha).1 rfl

end StyleSheets

/-- C27, as stated, fails: the sheet `file:///profile/adguard/elemhide.css` is not on disk, so
the platform cannot load it.  `_applyCssStyleSheet(uri)`, without the request to check the
file, catches the exception of `loadAndRegisterSheet`, logs it and returns, and the sheet is
not registered. -/
theorem applyCssStyleSheet_missing_file_counterexample :
    ElemHide._applyCssStyleSheet (Example.stylePlatform []) (Js.obj Example.sheetUri)
      Js.undefined Example.noSheets =
    Except.ok
      { registered := [], unloadHooks := [],
        calls := [StyleCall.sheetRegistered Example.sheetUri,
          StyleCall.sheetRegistered Example.sheetUri,
          StyleCall.loadAndRegisterSheet Example.sheetUri,
          StyleCall.console_error (Js.obj Example.sheetUri) "NS_ERROR_FAILURE"] } := by
  rfl

/-- C27, amended: `loadUserSheetByUri(uri)` on a registered URI only asks whether it is
registered (no `loadAndRegisterSheet`, no unload hook); `unloadUserSheetByUri(uri)` on an
unregistered URI only asks whether it is registered; after `_applyCssStyleSheet(uri)` with a
URI that the platform can load the sheet is registered exactly once, and again exactly once
after a second application, and both return; when the platform cannot load it the exception is
caught and the sheet is not registered; and `_applyCssStyleSheet(uri, true)` for a URI whose
file does not exist returns having asked for the file and written one line to the console:
nothing is registered, unregistered or thrown. -/
theorem applyCssStyleSheet_registration (P : StylePlatform) (uri : Uri) (file : FileRef)
    (w : StyleWorld) (hnodup : w.registered.Nodup) :
    (uri ∈ w.registered →
      styleService.loadUserSheetByUri P uri w =
        Except.ok (w.log (StyleCall.sheetRegistered uri))) ∧
    (uri ∉ w.registered →
      styleService.unloadUserSheetByUri uri w = w.log (StyleCall.sheetRegistered uri)) ∧
    (P.canLoad uri = true →
      StyleWorld.returned
        (ElemHide._applyCssStyleSheet P (Js.obj uri) Js.undefined w) = true ∧
      (StyleWorld.ofOutcome
        (ElemHide._applyCssStyleSheet P (Js.obj uri) Js.undefined w)).registered.count uri
          = 1 ∧
      StyleWorld.returned
        (ElemHide._applyCssStyleSheet P (Js.obj uri) Js.undefined
          (StyleWorld.ofOutcome
            (ElemHide._applyCssStyleSheet P (Js.obj uri) Js.undefined w))) = true ∧
      (StyleWorld.ofOutcome
        (ElemHide._applyCssStyleSheet P (Js.obj uri) Js.undefined
          (StyleWorld.ofOutcome
            (ElemHide._applyCssStyleSheet P (Js.obj uri) Js.undefined
              w)))).registered.count uri = 1) ∧
    (P.canLoad uri = false →
      StyleWorld.returned
        (ElemHide._applyCssStyleSheet P (Js.obj uri) Js.undefined w) = true ∧
      (StyleWorld.ofOutcome
        (ElemHide._applyCssStyleSheet P (Js.obj uri) Js.undefined w)).registered.count uri
          = 0) ∧
    (uri.file = Js.obj file → P.fileExists file = false →
      ElemHide._applyCssStyleSheet P (Js.obj uri) (Js.obj true) w =
        Except.ok ((w.log (StyleCall.file_exists file)).log
          (StyleCall.console_info ("Adguard addon: Css stylesheet cannot apply file: " ++
            uri.path ++ " because file does not exist")))) := by
  refine ⟨?_, ?_, ?_, ?_, ?_⟩
  · intro hmem
    simp [styleService.loadUserSheetByUri, styleService.sheetRegistered, hmem]
  · intro hmem
    simp [styleService.unloadUserSheetByUri, styleService.sheetRegistered, hmem]
  · intro hload
    obtain ⟨hret, hreg⟩ := applyCssStyleSheet_loaded P uri w hnodup hload
    have hnodup2 : (StyleWorld.ofOutcome
        (ElemHide._applyCssStyleSheet P (Js.obj uri) Js.undefined w)).registered.Nodup := by
      rw [hreg]
      exact erase_append_nodup uri _ hnodup
    obtain ⟨hret2, hreg2⟩ := applyCssStyleSheet_loaded P uri _ hnodup2 hload
    refine ⟨hret, ?_, hret2, ?_⟩
    · exact List.count_eq_one_of_mem hnodup2 (by rw [hreg]; simp)
    · have hnodup3 := erase_append_nodup uri _ hnodup2
      rw [← hreg2] at hnodup3
      exact List.count_eq_one_of_mem hnodup3 (by rw [hreg2]; simp)
  · intro hload
    obtain ⟨hret, hreg⟩ := applyCssStyleSheet_not_loaded P uri w hnodup hload
    refine ⟨hret, ?_⟩
    rw [hreg]
    exact List.count_eq_zero_of_not_mem
      (fun hmem => ((List.Nodup.mem_erase_iff hnodup).mp hmem).1 rfl)
  · intro hfile hexists
    simp [ElemHide._applyCssStyleSheet, ElemHide._applyCssStyleSheet.tryBlock, Js.truthy,
      JsTruthy.truthy, hfile, hexists]

/-- Witness of the amended C27: with the file on disk, applying the sheet twice from the
state without sheets leaves it registered once. -/
theorem applyCssStyleSheet_registration_witness :
    (StyleWorld.ofOutcome
      (ElemHide._applyCssStyleSheet (Example.stylePlatform ["/profile/adguard/elemhide.css"])
        (Js.obj Example.sheetUri) Js.undefined
        (StyleWorld.ofOutcome
          (ElemHide._applyCssStyleSheet
            (Example.stylePlatform ["/profile/adguard/elemhide.css"])
            (Js.obj Example.sheetUri) Js.undefined
            Example.noSheets)))).registered.count Example.sheetUri = 1 :=
  ((applyCssStyleSheet_registration (Example.stylePlatform ["/profile/adguard/elemhide.css"])
    Example.sheetUri { path := "/profile/adguard/elemhide.css" } Example.noSheets
    List.nodup_nil).2.2.1 (by decide)).2.2.2

/-! ## Theorems: the message handler -/

section MessageHandler

/-- A value that is no label of the `switch` runs the `default` clause and nothing else. -/
theorem dispatch_no_match (value : Js String) (cases : List SwitchCase)
    (hno : ∀ c ∈ cases, value ≠ Js.obj c.label) :
    SwitchCase.dispatch value cases = ([], true) := by
  induction cases with
  | nil => rfl
  | cons c rest ih =>
    simp only [SwitchCase.dispatch]
    rw [if_neg (hno c (List.mem_cons_self _ _))]
    exact ih (fun d hd => hno d (List.mem_cons_of_mem _ hd))

/-- When no `case` falls through, a label of the `switch` runs the statements of its own
`case` and nothing else. -/
theorem dispatch_match (label : String) (cases : List SwitchCase)
    (hends : ∀ c ∈ cases, c.ends ≠ CaseEnd.fallsThrough)
    (hmem : label ∈ cases.map SwitchCase.label) :
    SwitchCase.dispatch (Js.obj label) cases = ([label], false) := by
  induction cases with
  | nil => simp at hmem
  | cons c rest ih =>
    simp only [SwitchCase.dispatch]
    by_cases hc : (Js.obj label : Js String) = Js.obj c.label
    · rw [if_pos hc]
      have hl : label = c.label := by injection hc
      have hend := hends c (List.mem_cons_self _ _)
      simp only [SwitchCase.runFrom]
      cases he : c.ends with
      | fallsThrough => exact absurd he hend
      | breaks => simp [hl]
      | returns => simp [hl]
    · rw [if_neg hc]
      have hne : label ≠ c.label := fun h => hc (by rw [h])
      have hmem2 : label ∈ rest.map SwitchCase.label := by
        simp only [List.map_cons, List.mem_cons] at hmem
        rcases hmem with h | h
        · exact absurd h hne
        · exact h
      exact ih (fun d hd => hends d (List.mem_cons_of_mem _ hd)) hmem2

/-- Every `case` of `handleMessage` ends with `break` or `return`. -/
theorem handleMessage_cases_end :
    ∀ c ∈ handleMessage.cases, c.ends ≠ CaseEnd.fallsThrough := by
  decide

/-- The loop of `searchWhiteListDomains` appends the matching entries in their order. -/
theorem searchWhiteListDomains_loop_eq (containsIgnoreCase : String → String → Bool)
    (text : Js String) (domains result : List String) :
    searchWhiteListDomains.loop containsIgnoreCase text domains result =
      result ++ domains.filter
        (fun entry => !text.truthy || containsIgnoreCase entry text.toStr) := by
  induction domains generalizing result with
  | nil => simp [searchWhiteListDomains.loop]
  | cons d rest ih =>
    simp only [searchWhiteListDomains.loop, List.filter_cons]
    split <;> simp [ih]

/-- The loop of `searchUserRules` appends the matching entries in their order. -/
theorem searchUserRules_loop_eq (containsIgnoreCase : String → String → Bool)
    (text : Js String) (userRules result : List String) :
    searchUserRules.loop containsIgnoreCase text userRules result =
      result ++ userRules.filter
        (fun entry => !text.truthy || containsIgnoreCase entry text.toStr) := by
  induction userRules generalizing result with
  | nil => simp [searchUserRules.loop]
  | cons d rest ih =>
    simp only [searchUserRules.loop, List.filter_cons]
    split <;> simp [ih]

/-- The slice from `offset` of length `limit` is the next `limit` entries after the first
`offset` ones. -/
theorem slice_eq_drop_take {α : Type} (xs : List α) (offset limit : Nat) :
    Array.slice xs offset (offset + limit) = (xs.drop offset).take limit := by
  unfold Array.slice
  rw [List.drop_take]
  simp

end MessageHandler

/-- C28: a message whose type is none of the labels of the `switch` of `handleMessage` makes
it throw, without running the statements of any `case`; a message whose type is one of the
labels runs the statements of that `case` only and never reaches the `default` clause that
throws. -/
theorem handleMessage_unknown_throws (message : Message) (label : String) :
    ((∀ c ∈ handleMessage.cases, message.type ≠ Js.obj c.label) →
      handleMessage message = Except.error ("Unknown message: [object Object]", [])) ∧
    (label ∈ handleMessage.cases.map SwitchCase.label → message.type = Js.obj label →
      handleMessage message = Except.ok [label]) := by
  constructor
  · intro hno
    simp [handleMessage, dispatch_no_match message.type handleMessage.cases hno]
  · intro hmem htype
    simp [handleMessage, htype,
      dispatch_match label handleMessage.cases handleMessage_cases_end hmem]

/-- Witness of C28: the type `frobnicate` throws, the type `getUserFilters` runs its own
`case`. -/
theorem handleMessage_unknown_throws_witness :
    handleMessage { type := Js.obj "frobnicate" } =
      Except.error ("Unknown message: [object Object]", []) ∧
    handleMessage { type := Js.obj "getUserFilters" } = Except.ok ["getUserFilters"] :=
  ⟨(handleMessage_unknown_throws { type := Js.obj "frobnicate" } "frobnicate").1 (by decide),
   (handleMessage_unknown_throws { type := Js.obj "getUserFilters" } "getUserFilters").2
     (by decide) rfl⟩

section Search

/-- A window of the filtered list: at most `limit` entries, all of them entries of the source
that pass the filter, in the order of the source. -/
theorem filter_window (entries : List String) (keep : String → Bool) (offset limit : Nat) :
    (((entries.filter keep).drop offset).take limit).length ≤ limit ∧
    (∀ entry ∈ ((entries.filter keep).drop offset).take limit,
      entry ∈ entries ∧ keep entry = true) ∧
    (((entries.filter keep).drop offset).take limit).Sublist entries := by
  refine ⟨List.length_take_le _ _, ?_, ?_⟩
  · intro entry hmem
    have h := List.mem_of_mem_drop (List.mem_of_mem_take hmem)
    exact List.mem_filter.mp h
  · exact ((List.take_sublist _ _).trans (List.drop_sublist _ _)).trans
      (List.filter_sublist _)

/-- The value of `searchWhiteListDomains` with a limit that is not zero and an offset. -/
theorem searchWhiteListDomains_window (containsIgnoreCase : String → String → Bool)
    (domains : List String) (offset limit : Nat) (text : Js String) (hlimit : limit ≠ 0) :
    searchWhiteListDomains containsIgnoreCase domains (Js.obj offset) (Js.obj limit) text =
      ((domains.filter
        (fun entry => !text.truthy || containsIgnoreCase entry text.toStr)).drop offset).take
          limit := by
  simp [searchWhiteListDomains, searchWhiteListDomains_loop_eq, Js.truthy, JsTruthy.truthy,
    hlimit, Array.sliceFrom, slice_eq_drop_take]

/-- The value of `searchWhiteListDomains` with a limit that is zero or absent. -/
theorem searchWhiteListDomains_all (containsIgnoreCase : String → String → Bool)
    (domains : List String) (offset limit : Js Nat) (text : Js String)
    (hlimit : limit.truthy = false) :
    searchWhiteListDomains containsIgnoreCase domains offset limit text =
      domains.filter (fun entry => !text.truthy || containsIgnoreCase entry text.toStr) := by
  cases limit with
  | obj l => simp [searchWhiteListDomains, searchWhiteListDomains_loop_eq, hlimit]
  | null => simp [searchWhiteListDomains, searchWhiteListDomains_loop_eq]
  | undefined => simp [searchWhiteListDomains, searchWhiteListDomains_loop_eq]

/-- The value of `searchUserRules` with a limit that is not zero and an offset. -/
theorem searchUserRules_window (containsIgnoreCase : String → String → Bool)
    (userRules : List String) (offset limit : Nat) (text : Js String) (hlimit : limit ≠ 0) :
    searchUserRules containsIgnoreCase userRules (Js.obj offset) (Js.obj limit) text =
      ((userRules.filter
        (fun entry => !text.truthy || containsIgnoreCase entry text.toStr)).drop offset).take
          limit := by
  simp [searchUserRules, searchUserRules_loop_eq, Js.truthy, JsTruthy.truthy,
    hlimit, Array.sliceFrom, slice_eq_drop_take]

/-- The value of `searchUserRules` with a limit that is zero or absent. -/
theorem searchUserRules_all (containsIgnoreCase : String → String → Bool)
    (userRules : List String) (offset limit : Js Nat) (text : Js String)
    (hlimit : limit.truthy = false) :
    searchUserRules containsIgnoreCase userRules offset limit text =
      userRules.filter (fun entry => !text.truthy || containsIgnoreCase entry text.toStr) := by
  cases limit with
  | obj l => simp [searchUserRules, searchUserRules_loop_eq, hlimit]
  | null => simp [searchUserRules, searchUserRules_loop_eq]
  | undefined => simp [searchUserRules, searchUserRules_loop_eq]

/-- Without a search text every entry passes the filter. -/
theorem filter_without_text (containsIgnoreCase : String → String → Bool)
    (entries : List String) (text : Js String) (htext : text.truthy = false) :
    entries.filter (fun entry => !text.truthy || containsIgnoreCase entry text.toStr) =
      entries := by
  simp [htext]

/-- With a search text an entry passes the filter when it contains the text. -/
theorem filter_with_text (containsIgnoreCase : String → String → Bool)
    (entries : List String) (text : String) (htext : text ≠ "") :
    entries.filter
        (fun entry => !(Js.obj text).truthy || containsIgnoreCase entry (Js.obj text).toStr) =
      entries.filter (fun entry => containsIgnoreCase entry text) := by
  have htruthy : (Js.obj text).truthy = true := by
    simp [Js.truthy, JsTruthy.truthy, htext]
  simp [htruthy, Js.toStr]

end Search

/-- C29: with a limit that is not zero, `searchWhiteListDomains(offset, limit, text)` and
`searchUserRules(offset, limit, text)` return the entries at the positions
`[offset, offset + limit)` of the list of the entries that contain the text (all entries when
the text is empty or absent): at most `limit` entries, each an entry of the source, in the
order of the source.  With a limit that is zero or absent they return that whole list,
whatever the offset. -/
theorem search_returns_window (containsIgnoreCase : String → String → Bool)
    (entries : List String) (offset limit : Nat) (anyOffset noLimit : Js Nat)
    (text : Js String) (word : String) (hlimit : limit ≠ 0)
    (hnone : noLimit.truthy = false) :
    (searchWhiteListDomains containsIgnoreCase entries (Js.obj offset) (Js.obj limit) text =
        ((entries.filter (fun entry =>
          !text.truthy || containsIgnoreCase entry text.toStr)).drop offset).take limit ∧
      searchUserRules containsIgnoreCase entries (Js.obj offset) (Js.obj limit) text =
        ((entries.filter (fun entry =>
          !text.truthy || containsIgnoreCase entry text.toStr)).drop offset).take limit) ∧
    (searchWhiteListDomains containsIgnoreCase entries (Js.obj offset) (Js.obj limit)
        text).length ≤ limit ∧
    (searchUserRules containsIgnoreCase entries (Js.obj offset) (Js.obj limit)
        text).length ≤ limit ∧
    (∀ entry ∈ searchWhiteListDomains containsIgnoreCase entries (Js.obj offset)
        (Js.obj limit) text, entry ∈ entries) ∧
    (∀ entry ∈ searchUserRules containsIgnoreCase entries (Js.obj offset) (Js.obj limit)
        text, entry ∈ entries) ∧
    (searchWhiteListDomains containsIgnoreCase entries (Js.obj offset) (Js.obj limit)
        text).Sublist entries ∧
    (searchUserRules containsIgnoreCase entries (Js.obj offset) (Js.obj limit)
        text).Sublist entries ∧
    (searchWhiteListDomains containsIgnoreCase entries anyOffset noLimit text =
        entries.filter (fun entry => !text.truthy || containsIgnoreCase entry text.toStr) ∧
      searchUserRules containsIgnoreCase entries anyOffset noLimit text =
        entries.filter (fun entry =>
          !text.truthy || containsIgnoreCase entry text.toStr)) ∧
    (text.truthy = false →
      entries.filter (fun entry => !text.truthy || containsIgnoreCase entry text.toStr) =
        entries) ∧
    (text = Js.obj word → word ≠ "" →
      entries.filter (fun entry => !text.truthy || containsIgnoreCase entry text.toStr) =
        entries.filter (fun entry => containsIgnoreCase entry word)) := by
  have hw := searchWhiteListDomains_window containsIgnoreCase entries offset limit text hlimit
  have hu := searchUserRules_window containsIgnoreCase entries offset limit text hlimit
  obtain ⟨hlen, hmem, hsub⟩ := filter_window entries
    (fun entry => !text.truthy || containsIgnoreCase entry text.toStr) offset limit
  refine ⟨⟨hw, hu⟩, ?_, ?_, ?_, ?_, ?_, ?_,
    ⟨searchWhiteListDomains_all containsIgnoreCase entries anyOffset noLimit text hnone,
     searchUserRules_all containsIgnoreCase entries anyOffset noLimit text hnone⟩,
    filter_without_text containsIgnoreCase entries text, ?_⟩
  · rw [hw]; exact hlen
  · rw [hu]; exact hlen
  · rw [hw]; exact fun entry h => (hmem entry h).1
  · rw [hu]; exact fun entry h => (hmem entry h).1
  · rw [hw]; exact hsub
  · rw [hu]; exact hsub
  · intro htext hword
    rw [htext]
    exact filter_with_text containsIgnoreCase entries word hword

/-- Witness of C29: of the four user rules three contain `ads`; from offset 1 with limit 2
the second and the third of these are returned. -/
theorem search_returns_window_witness :
    searchUserRules Example.containsIgnoreCase Example.userRules (Js.obj 1) (Js.obj 2)
      (Js.obj "ads") = ["@@||ADS.example^$document", "##.ads"] :=
  (search_returns_window Example.containsIgnoreCase Example.userRules 1 2 Js.null
    Js.undefined (Js.obj "ads") "ads" (by decide) rfl).1.2.trans (by decide)

/-! ## Theorems: the download of a subscription -/

section Subscriptions

/-- After `delete loadingSubscriptions[url]` the URL is no key of the object. -/
theorem not_loading_after_delete (url : String) (keys : List String) :
    url ∉ keys.filter (fun key => key != url) := by
  simp [List.mem_filter]

/-- Setting and deleting a key that was absent gives the keys back. -/
theorem delete_after_set (url : String) (keys : List String) (habsent : url ∉ keys) :
    (keys ++ [url]).filter (fun key => key != url) = keys := by
  rw [List.filter_append]
  have hkeep : keys.filter (fun key => key != url) = keys := by
    rw [List.filter_eq_self]
    intro key hkey
    have hne : key ≠ url := fun h => habsent (h ▸ hkey)
    simp [hne]
  simp [hkeep]

end Subscriptions

/-- C30: `loadFilterRulesBySubscriptionUrl` for a URL that is loading returns at once: no
request, no callback.  For a URL that is not loading it marks the URL and puts one request in
flight without calling a callback, or, when sending throws, unmarks the URL and then calls
`errorCallback` with the exception.  When the request completes, the URL is unmarked first and
then exactly one callback is called on that state: `errorCallback` for a status other than
200, for an empty body and for `error`, `abort` and `timeout`, `successCallback` with the lines
of the body otherwise.  The URL being unmarked, a later call for it is accepted again. -/
theorem loadFilterRulesBySubscriptionUrl_loading {κ : Type} (P : XhrPlatform) (url : String)
    (successCallback : List String → BackendWorld κ → BackendWorld κ)
    (errorCallback : XMLHttpRequest → Js String → BackendWorld κ → BackendWorld κ)
    (w : BackendWorld κ) (request : XMLHttpRequest) (ex : String) :
    (url ∈ w.loadingSubscriptions →
      loadFilterRulesBySubscriptionUrl P url successCallback errorCallback w = w) ∧
    (url ∉ w.loadingSubscriptions → P.sendThrows url = none →
      loadFilterRulesBySubscriptionUrl P url successCallback errorCallback w =
        { loadingSubscriptions := w.loadingSubscriptions ++ [url],
          inFlight := w.inFlight ++
            [{ url := url, contentType := "text/plain", onload := true, onerror := true }],
          caller := w.caller }) ∧
    (url ∉ w.loadingSubscriptions → P.sendThrows url = some ex →
      loadFilterRulesBySubscriptionUrl P url successCallback errorCallback w =
        errorCallback { status := 0, responseText := Js.obj "" } (Js.obj ex) w) ∧
    url ∉ w.loadingSubscriptions.filter (fun key => key != url) ∧
    (request.status ≠ 200 →
      loadFilterRulesBySubscriptionUrl.complete url successCallback errorCallback
          (XhrEvent.load request) w =
        errorCallback request (Js.obj ("wrong status code: " ++ toString request.status))
          { loadingSubscriptions := w.loadingSubscriptions.filter (fun key => key != url),
            inFlight := w.inFlight.erase
              { url := url, contentType := "text/plain", onload := true, onerror := true },
            caller := w.caller }) ∧
    (request.status = 200 →
      (String.jsTrim (if request.responseText.truthy then request.responseText.toStr
        else "")).length = 0 →
      loadFilterRulesBySubscriptionUrl.complete url successCallback errorCallback
          (XhrEvent.load request) w =
        errorCallback request (Js.obj "filter rules missing")
          { loadingSubscriptions := w.loadingSubscriptions.filter (fun key => key != url),
            inFlight := w.inFlight.erase
              { url := url, contentType := "text/plain", onload := true, onerror := true },
            caller := w.caller }) ∧
    (request.status = 200 →
      (String.jsTrim (if request.responseText.truthy then request.responseText.toStr
        else "")).length ≠ 0 →
      loadFilterRulesBySubscriptionUrl.complete url successCallback errorCallback
          (XhrEvent.load request) w =
        successCallback
          (if ((String.splitLineBreaks (String.jsTrim
                (if request.responseText.truthy then request.responseText.toStr
                  else ""))).head?.bind (fun first => first.data.head?)) = some '['
            then (String.splitLineBreaks (String.jsTrim
                (if request.responseText.truthy then request.responseText.toStr
                  else ""))).tail
            else String.splitLineBreaks (String.jsTrim
                (if request.responseText.truthy then request.responseText.toStr else "")))
          { loadingSubscriptions := w.loadingSubscriptions.filter (fun key => key != url),
            inFlight := w.inFlight.erase
              { url := url, contentType := "text/plain", onload := true, onerror := true },
            caller := w.caller }) ∧
    (loadFilterRulesBySubscriptionUrl.complete url successCallback errorCallback
          (XhrEvent.error request) w =
        errorCallback request Js.undefined
          { loadingSubscriptions := w.loadingSubscriptions.filter (fun key => key != url),
            inFlight := w.inFlight.erase
              { url := url, contentType := "text/plain", onload := true, onerror := true },
            caller := w.caller } ∧
      loadFilterRulesBySubscriptionUrl.complete url successCallback errorCallback
          (XhrEvent.abort request) w =
        errorCallback request Js.undefined
          { loadingSubscriptions := w.loadingSubscriptions.filter (fun key => key != url),
            inFlight := w.inFlight.erase
              { url := url, contentType := "text/plain", onload := true, onerror := true },
            caller := w.caller } ∧
      loadFilterRulesBySubscriptionUrl.complete url successCallback errorCallback
          (XhrEvent.timeout request) w =
        errorCallback request Js.undefined
          { loadingSubscriptions := w.loadingSubscriptions.filter (fun key => key != url),
            inFlight := w.inFlight.erase
              { url := url, contentType := "text/plain", onload := true, onerror := true },
            caller := w.caller }) := by
  refine ⟨?_, ?_, ?_, not_loading_after_delete url _, ?_, ?_, ?_, ⟨rfl, rfl, rfl⟩⟩
  · intro hmem
    simp [loadFilterRulesBySubscriptionUrl, hmem]
  · intro habsent hsend
    simp [loadFilterRulesBySubscriptionUrl, habsent, executeRequestAsync, hsend]
  · intro habsent hsend
    simp only [loadFilterRulesBySubscriptionUrl, if_neg habsent, executeRequestAsync, hsend,
      loadFilterRulesBySubscriptionUrl.error]
    rw [delete_after_set url _ habsent]
  · intro hstatus
    simp [loadFilterRulesBySubscriptionUrl.complete, executeRequestAsync.complete,
      loadFilterRulesBySubscriptionUrl.success, hstatus]
  · intro hstatus hempty
    simp only [loadFilterRulesBySubscriptionUrl.complete, executeRequestAsync.complete,
      loadFilterRulesBySubscriptionUrl.success, Option.isSome]
    rw [if_neg (by simp [hstatus]), if_pos hempty]
  · intro hstatus hfull
    simp only [loadFilterRulesBySubscriptionUrl.complete, executeRequestAsync.complete,
      loadFilterRulesBySubscriptionUrl.success, Option.isSome]
    rw [if_neg (by simp [hstatus]), if_neg hfull]
    cases String.splitLineBreaks (String.jsTrim
        (if request.responseText.truthy then request.responseText.toStr else "")) with
    | nil => simp
    | cons first rest =>
      simp only [List.head?_cons, Option.bind, List.tail_cons]
      split <;> rfl

/-- Witness of C30: a second call while the first request is in flight changes nothing; when
the request completes with the status 200 and a body of a header line and two rules,
`successCallback` alone runs, with the two rules and the URL already unmarked; a third call is
then accepted; and a call on a platform where sending throws runs `errorCallback` alone, with
the URL unmarked. -/
theorem loadFilterRulesBySubscriptionUrl_loading_witness :
    loadFilterRulesBySubscriptionUrl Example.xhrPlatform Example.subscriptionUrl
        Example.recordRules Example.recordError
        (loadFilterRulesBySubscriptionUrl Example.xhrPlatform Example.subscriptionUrl
          Example.recordRules Example.recordError Example.idleBackend) =
      loadFilterRulesBySubscriptionUrl Example.xhrPlatform Example.subscriptionUrl
        Example.recordRules Example.recordError Example.idleBackend ∧
    loadFilterRulesBySubscriptionUrl.complete Example.subscriptionUrl Example.recordRules
        Example.recordError
        (XhrEvent.load
          (XMLHttpRequest.mk 200
            (Js.obj "[Adblock Plus 2.0]\r\n||ads.example^\n\n##.banner\n")))
        (loadFilterRulesBySubscriptionUrl Example.xhrPlatform Example.subscriptionUrl
          Example.recordRules Example.recordError Example.idleBackend) =
      { loadingSubscriptions := [], inFlight := [],
        caller := [("success", ["||ads.example^", "##.banner"], false)] } ∧
    loadFilterRulesBySubscriptionUrl Example.xhrOffline Example.subscriptionUrl
        Example.recordRules Example.recordError Example.idleBackend =
      { loadingSubscriptions := [], inFlight := [],
        caller := [("error", ["NS_ERROR_FAILURE"], false)] } :=
  ⟨(loadFilterRulesBySubscriptionUrl_loading Example.xhrPlatform Example.subscriptionUrl
      Example.recordRules Example.recordError
      (loadFilterRulesBySubscriptionUrl Example.xhrPlatform Example.subscriptionUrl
        Example.recordRules Example.recordError Example.idleBackend)
      { status := 0, responseText := Js.obj "" } "").1 (by decide),
   by decide,
   ((loadFilterRulesBySubscriptionUrl_loading Example.xhrOffline Example.subscriptionUrl
      Example.recordRules Example.recordError Example.idleBackend
      { status := 0, responseText := Js.obj "" } "NS_ERROR_FAILURE").2.2.1 (by decide)
      rfl).trans (by decide)⟩

end Adguard
